import Mathlib

/-!
Verification of the configuration-loading subsystem of the repository
(`src/standalone/src/ct_icp/config.cpp`).

The C++ code reads YAML documents into option records
(`CTICPOptions`, `OdometryOptions`, `PreviousFrameMotionModel::Options`).
We embed the YAML documents as a simple tree of typed scalars and maps,
the option records as Lean structures with the fields the loader touches,
and each loading function as an explicit `Except String` computation that
mirrors the C++ statement by statement.  Fatal errors of the C++ code
(`throw`, `CHECK(...)` from glog) become `Except.error`; warning logs
(`SLAM_LOG(WARNING)`) are collected in a returned list of strings.
-/

/-- A YAML document: typed scalars or a mapping node (association list,
first occurrence of a key wins, mirroring `yaml-cpp` map access). -/
inductive Yaml where
  | int (n : Int)
  | dbl (q : Rat)
  | bool (b : Bool)
  | str (s : String)
  | node (entries : List (String × Yaml))
deriving Repr

/-- Association-list lookup for mapping nodes. -/
def lookupEntry : List (String × Yaml) → String → Option Yaml
  | [], _ => none
  | (k, v) :: rest, key => if k = key then some v else lookupEntry rest key

/-- `n[key]` of `yaml-cpp`: defined on mapping nodes, undefined otherwise. -/
def Yaml.find : Yaml → String → Option Yaml
  | .node es, key => lookupEntry es key
  | _, _ => none

/-- `n.as<int>()`; fails (throws in C++) on a non-integer value. -/
def Yaml.asInt : Yaml → Except String Int
  | .int n => .ok n
  | _ => .error "bad conversion to int"

/-- `n.as<double>()`; an integer scalar also converts to a double. -/
def Yaml.asRat : Yaml → Except String Rat
  | .dbl q => .ok q
  | .int n => .ok (n : Rat)
  | _ => .error "bad conversion to double"

/-- `n.as<bool>()`. -/
def Yaml.asBool : Yaml → Except String Bool
  | .bool b => .ok b
  | _ => .error "bad conversion to bool"

/-- `n.as<std::string>()`. -/
def Yaml.asStr : Yaml → Except String String
  | .str s => .ok s
  | _ => .error "bad conversion to string"

/-- The integer value stored at `key`, when present and well typed. -/
def Yaml.findInt (y : Yaml) (key : String) : Option Int :=
  match y.find key with
  | some (.int n) => some n
  | _ => none

/-- The double value stored at `key`, when present and well typed. -/
def Yaml.findRat (y : Yaml) (key : String) : Option Rat :=
  match y.find key with
  | some (.dbl q) => some q
  | some (.int n) => some (n : Rat)
  | _ => none

/-- The boolean value stored at `key`, when present and well typed. -/
def Yaml.findBool (y : Yaml) (key : String) : Option Bool :=
  match y.find key with
  | some (.bool b) => some b
  | _ => none

/-- The string value stored at `key`, when present and well typed. -/
def Yaml.findStr (y : Yaml) (key : String) : Option String :=
  match y.find key with
  | some (.str s) => some s
  | _ => none

/-- Apply an optional update to a record: the shape of every
`OPTION_CLAUSE`-style assignment once its success is known. -/
def applyOpt {σ α : Type} (v : Option α) (set : α → σ → σ) (o : σ) : σ :=
  match v with
  | some x => set x o
  | none => o

/-- `ct_icp::ICP_DISTANCE` (declared in the ct_icp options header). -/
inductive ICP_DISTANCE where
  | POINT_TO_PLANE
  | POINT_TO_LINE
  | POINT_TO_POINT
  | POINT_TO_DISTRIBUTION
deriving DecidableEq, Repr

/-- `ct_icp::POSE_PARAMETRIZATION`. -/
inductive POSE_PARAMETRIZATION where
  | SIMPLE
  | CONTINUOUS_TIME
deriving DecidableEq, Repr

/-- `ct_icp::CT_ICP_SOLVER`: `CERES` is the solver the spec calls
EXTERNAL_NLS (it delegates to the external Ceres nonlinear least-squares
library). -/
inductive CT_ICP_SOLVER where
  | GN
  | CERES
  | ROBUST
deriving DecidableEq, Repr

/-- `ct_icp::LEAST_SQUARES` loss functions. -/
inductive LEAST_SQUARES where
  | STANDARD
  | CAUCHY
  | HUBER
  | TOLERANT
  | TRUNCATED
deriving DecidableEq, Repr

/-- `ct_icp::MOTION_COMPENSATION`. -/
inductive MOTION_COMPENSATION where
  | NONE
  | CONSTANT_VELOCITY
  | ITERATIVE
  | CONTINUOUS
deriving DecidableEq, Repr

/-- `ct_icp::sampling` keypoint-sampling policies. -/
inductive SAMPLING where
  | NONE
  | GRID
  | ADAPTIVE
deriving DecidableEq, Repr

/-- `ct_icp::INITIALIZATION` policies. -/
inductive INITIALIZATION where
  | INIT_NONE
  | INIT_CONSTANT_VELOCITY
deriving DecidableEq, Repr

/-- `ct_icp::PreviousFrameMotionModel` model tags. -/
inductive MOTION_MODEL where
  | CONSTANT_VELOCITY
  | SMALL_VELOCITY
deriving DecidableEq, Repr

/-- `ct_icp::CTICPOptions`: exactly the fields `yaml_to_ct_icp_options`
touches (the options header is not among the sources; field names are the
keys the loader reads, which coincide with the member names). -/
structure CTICPOptions where
  threshold_voxel_occupancy : Int
  num_iters_icp : Int
  min_number_neighbors : Int
  max_number_neighbors : Int
  max_dist_to_plane_ct_icp : Rat
  threshold_orientation_norm : Rat
  threshold_translation_norm : Rat
  debug_print : Bool
  point_to_plane_with_distortion : Bool
  num_closest_neighbors : Int
  ls_max_num_iters : Int
  ls_num_threads : Int
  ls_sigma : Rat
  min_num_residuals : Int
  max_num_residuals : Int
  weight_alpha : Rat
  weight_neighborhood : Rat
  ls_tolerant_min_threshold : Rat
  power_planarity : Rat
  output_normals : Bool
  output_lines : Bool
  output_weights : Bool
  output_residuals : Bool
  output_neighborhood_info : Bool
  threshold_linearity : Rat
  threshold_planarity : Rat
  weight_point_to_point : Rat
  outlier_distance : Rat
  use_barycenter : Bool
  distance : ICP_DISTANCE
  parametrization : POSE_PARAMETRIZATION
  solver : CT_ICP_SOLVER
  loss_function : LEAST_SQUARES
deriving DecidableEq

/-- Modelled from the spec: the default-constructed `ct_icp::CTICPOptions`
record.  The in-class default member values live in the ct_icp options
header, which is not among the sources; no claim below depends on the
particular values, only on the loader starting from this record. -/
def defaultCTICPOptions : CTICPOptions where
  threshold_voxel_occupancy := 1
  num_iters_icp := 5
  min_number_neighbors := 20
  max_number_neighbors := 20
  max_dist_to_plane_ct_icp := 0.3
  threshold_orientation_norm := 0.0001
  threshold_translation_norm := 0.001
  debug_print := false
  point_to_plane_with_distortion := true
  num_closest_neighbors := 1
  ls_max_num_iters := 1
  ls_num_threads := 16
  ls_sigma := 0.1
  min_num_residuals := 100
  max_num_residuals := 1500
  weight_alpha := 0.9
  weight_neighborhood := 0.1
  ls_tolerant_min_threshold := 0.05
  power_planarity := 2
  output_normals := false
  output_lines := false
  output_weights := false
  output_residuals := false
  output_neighborhood_info := false
  threshold_linearity := 0.8
  threshold_planarity := 0.8
  weight_point_to_point := 0.01
  outlier_distance := 4
  use_barycenter := false
  distance := .POINT_TO_PLANE
  parametrization := .CONTINUOUS_TIME
  solver := .GN
  loss_function := .CAUCHY

/-- `OPTION_CLAUSE(node, o, key, int)`: if the key is present, convert and
assign; an ill-typed value makes the conversion throw. -/
def intClause {σ : Type} (node : Yaml) (key : String) (set : Int → σ → σ)
    (o : σ) : Except String σ :=
  match node.find key with
  | none => .ok o
  | some v =>
    match v.asInt with
    | .ok n => .ok (set n o)
    | .error e => .error e

/-- `OPTION_CLAUSE(node, o, key, double)`. -/
def ratClause {σ : Type} (node : Yaml) (key : String) (set : Rat → σ → σ)
    (o : σ) : Except String σ :=
  match node.find key with
  | none => .ok o
  | some v =>
    match v.asRat with
    | .ok q => .ok (set q o)
    | .error e => .error e

/-- `OPTION_CLAUSE(node, o, key, bool)`. -/
def boolClause {σ : Type} (node : Yaml) (key : String) (set : Bool → σ → σ)
    (o : σ) : Except String σ :=
  match node.find key with
  | none => .ok o
  | some v =>
    match v.asBool with
    | .ok b => .ok (set b o)
    | .error e => .error e

/-- `OPTION_CLAUSE(node, o, key, std::string)`. -/
def strClause {σ : Type} (node : Yaml) (key : String) (set : String → σ → σ)
    (o : σ) : Except String σ :=
  match node.find key with
  | none => .ok o
  | some v =>
    match v.asStr with
    | .ok s => .ok (set s o)
    | .error e => .error e

/-- The closed table of recognized `distance` tags. -/
def distanceOfTag (s : String) : Option ICP_DISTANCE :=
  if s = "POINT_TO_PLANE" then some .POINT_TO_PLANE
  else if s = "POINT_TO_LINE" then some .POINT_TO_LINE
  else if s = "POINT_TO_POINT" then some .POINT_TO_POINT
  else if s = "POINT_TO_DISTRIBUTION" then some .POINT_TO_DISTRIBUTION
  else none

/-- The `if (icp_node["distance"]) { ... }` block of
`yaml_to_ct_icp_options`: dispatch on the tag string, throwing on an
unrecognized tag. -/
def distanceClause (node : Yaml) (o : CTICPOptions) :
    Except String CTICPOptions :=
  match node.find "distance" with
  | none => .ok o
  | some v =>
    match v.asStr with
    | .error e => .error e
    | .ok distance =>
      if distance = "POINT_TO_PLANE" then
        .ok { o with distance := .POINT_TO_PLANE }
      else if distance = "POINT_TO_LINE" then
        .ok { o with distance := .POINT_TO_LINE }
      else if distance = "POINT_TO_POINT" then
        .ok { o with distance := .POINT_TO_POINT }
      else if distance = "POINT_TO_DISTRIBUTION" then
        .ok { o with distance := .POINT_TO_DISTRIBUTION }
      else
        .error ("Distance " ++ distance ++ " not recognized as a valid distance")

/-- The closed table of recognized `parametrization` tags. -/
def parametrizationOfTag (s : String) : Option POSE_PARAMETRIZATION :=
  if s = "SIMPLE" then some .SIMPLE
  else if s = "CONTINUOUS_TIME" then some .CONTINUOUS_TIME
  else none

/-- The `if (icp_node["parametrization"]) { ... }` block. -/
def parametrizationClause (node : Yaml) (o : CTICPOptions) :
    Except String CTICPOptions :=
  match node.find "parametrization" with
  | none => .ok o
  | some v =>
    match v.asStr with
    | .error e => .error e
    | .ok parametrization =>
      if parametrization = "SIMPLE" then
        .ok { o with parametrization := .SIMPLE }
      else if parametrization = "CONTINUOUS_TIME" then
        .ok { o with parametrization := .CONTINUOUS_TIME }
      else
        .error "Parametrization is not supported !"

/-- The closed table of recognized `solver` tags. -/
def solverOfTag (s : String) : Option CT_ICP_SOLVER :=
  if s = "GN" then some .GN
  else if s = "CERES" then some .CERES
  else if s = "ROBUST" then some .ROBUST
  else none

/-- The `if (icp_node["solver"]) { ... }` block. -/
def solverClause (node : Yaml) (o : CTICPOptions) :
    Except String CTICPOptions :=
  match node.find "solver" with
  | none => .ok o
  | some v =>
    match v.asStr with
    | .error e => .error e
    | .ok solver =>
      if solver = "GN" then
        .ok { o with solver := .GN }
      else if solver = "CERES" then
        .ok { o with solver := .CERES }
      else if solver = "ROBUST" then
        .ok { o with solver := .ROBUST }
      else
        .error ("Invalid Solver Options found: " ++ solver ++ " Not in [GN, CERES, ROBUST]")

/-- The closed table of recognized `loss_function` tags. -/
def lossOfTag (s : String) : Option LEAST_SQUARES :=
  if s = "STANDARD" then some .STANDARD
  else if s = "CAUCHY" then some .CAUCHY
  else if s = "HUBER" then some .HUBER
  else if s = "TOLERANT" then some .TOLERANT
  else if s = "TRUNCATED" then some .TRUNCATED
  else none

/-- The `if (icp_node["loss_function"]) { ... }` block: a `CHECK` that the
tag is in the closed list (fatal otherwise), then a cascade of
non-exclusive `if`s assigning the variant. -/
def lossFunctionClause (node : Yaml) (o : CTICPOptions) :
    Except String CTICPOptions :=
  match node.find "loss_function" with
  | none => .ok o
  | some v =>
    match v.asStr with
    | .error e => .error e
    | .ok loss_function =>
      if loss_function ∈ ["STANDARD", "CAUCHY", "HUBER", "TOLERANT", "TRUNCATED"] then
        let o := if loss_function = "STANDARD" then { o with loss_function := LEAST_SQUARES.STANDARD } else o
        let o := if loss_function = "CAUCHY" then { o with loss_function := LEAST_SQUARES.CAUCHY } else o
        let o := if loss_function = "HUBER" then { o with loss_function := LEAST_SQUARES.HUBER } else o
        let o := if loss_function = "TOLERANT" then { o with loss_function := LEAST_SQUARES.TOLERANT } else o
        let o := if loss_function = "TRUNCATED" then { o with loss_function := LEAST_SQUARES.TRUNCATED } else o
        .ok o
      else
        .error ("CHECK failed: Unrecognised loss function " ++ loss_function)

/-- `ct_icp::yaml_to_ct_icp_options`, statement by statement, starting from
an explicit initial record (the C++ default-constructs it). -/
def yaml_to_ct_icp_options_from (init : CTICPOptions) (node : Yaml) :
    Except String CTICPOptions := do
  let o ← intClause node "threshold_voxel_occupancy" (fun x o => { o with threshold_voxel_occupancy := x }) init
  let o ← intClause node "num_iters_icp" (fun x o => { o with num_iters_icp := x }) o
  let o ← intClause node "min_number_neighbors" (fun x o => { o with min_number_neighbors := x }) o
  let o ← intClause node "max_number_neighbors" (fun x o => { o with max_number_neighbors := x }) o
  let o ← ratClause node "max_dist_to_plane_ct_icp" (fun x o => { o with max_dist_to_plane_ct_icp := x }) o
  let o ← ratClause node "threshold_orientation_norm" (fun x o => { o with threshold_orientation_norm := x }) o
  let o ← ratClause node "threshold_translation_norm" (fun x o => { o with threshold_translation_norm := x }) o
  let o ← boolClause node "debug_print" (fun x o => { o with debug_print := x }) o
  let o ← boolClause node "point_to_plane_with_distortion" (fun x o => { o with point_to_plane_with_distortion := x }) o
  let o ← intClause node "num_closest_neighbors" (fun x o => { o with num_closest_neighbors := x }) o
  let o ← intClause node "ls_max_num_iters" (fun x o => { o with ls_max_num_iters := x }) o
  let o ← intClause node "ls_num_threads" (fun x o => { o with ls_num_threads := x }) o
  let o ← ratClause node "ls_sigma" (fun x o => { o with ls_sigma := x }) o
  let o ← intClause node "min_num_residuals" (fun x o => { o with min_num_residuals := x }) o
  let o ← intClause node "max_num_residuals" (fun x o => { o with max_num_residuals := x }) o
  let o ← ratClause node "weight_alpha" (fun x o => { o with weight_alpha := x }) o
  let o ← ratClause node "weight_neighborhood" (fun x o => { o with weight_neighborhood := x }) o
  let o ← ratClause node "ls_tolerant_min_threshold" (fun x o => { o with ls_tolerant_min_threshold := x }) o
  let o ← ratClause node "power_planarity" (fun x o => { o with power_planarity := x }) o
  let o ← boolClause node "point_to_plane_with_distortion" (fun x o => { o with point_to_plane_with_distortion := x }) o
  let o ← boolClause node "output_normals" (fun x o => { o with output_normals := x }) o
  let o ← boolClause node "output_lines" (fun x o => { o with output_lines := x }) o
  let o ← boolClause node "output_weights" (fun x o => { o with output_weights := x }) o
  let o ← boolClause node "output_residuals" (fun x o => { o with output_residuals := x }) o
  let o ← boolClause node "output_neighborhood_info" (fun x o => { o with output_neighborhood_info := x }) o
  let o ← ratClause node "threshold_linearity" (fun x o => { o with threshold_linearity := x }) o
  let o ← ratClause node "threshold_planarity" (fun x o => { o with threshold_planarity := x }) o
  let o ← ratClause node "weight_point_to_point" (fun x o => { o with weight_point_to_point := x }) o
  let o ← ratClause node "outlier_distance" (fun x o => { o with outlier_distance := x }) o
  let o ← boolClause node "use_barycenter" (fun x o => { o with use_barycenter := x }) o
  let o ← distanceClause node o
  let o ← parametrizationClause node o
  let o ← solverClause node o
  let o ← lossFunctionClause node o
  return o

/-- `ct_icp::yaml_to_ct_icp_options`: default-constructs the record, then
fills it from the node. -/
def yaml_to_ct_icp_options (node : Yaml) : Except String CTICPOptions :=
  yaml_to_ct_icp_options_from defaultCTICPOptions node

/-- `GetNode`: load a YAML file from disk (the file system is a parameter
of the embedding); on failure the C++ logs and rethrows, so the error
propagates unchanged. -/
def GetNode (fs : String → Except String Yaml) (config_path : String) :
    Except String Yaml :=
  match fs config_path with
  | .ok n => .ok n
  | .error e => .error e

/-- `ct_icp::read_ct_icp_options`. -/
def read_ct_icp_options (fs : String → Except String Yaml)
    (yaml_path : String) : Except String CTICPOptions := do
  let node ← GetNode fs yaml_path
  yaml_to_ct_icp_options node

/-- Modelled from the spec: the record produced by `yaml_to_map_options`,
which is declared in `ct_icp/config.h` but defined outside these sources.
The spec names only "map geometry" parameters; for the claims below what
matters is which node the record was parsed from, so we keep that node. -/
structure MapOptions where
  parsedFrom : Yaml
deriving Repr

/-- Modelled from the spec: `ct_icp::yaml_to_map_options`, defined outside
these sources; it reads the map parameters from the given node. -/
def yaml_to_map_options (map_node : Yaml) : MapOptions :=
  { parsedFrom := map_node }

/-- The two neighborhood-strategy implementations the loader knows
(`DefaultNearestNeighborStrategy`, `DistanceBasedStrategy`). -/
inductive STRATEGY_KIND where
  | DEFAULT_NEAREST_NEIGHBOR
  | DISTANCE_BASED
deriving DecidableEq, Repr

/-- Modelled from the spec: `DistanceBasedStrategy::Options::Type()`, a
static type-name string defined outside these sources; the claims need
only that the two names differ. -/
def distanceBasedStrategyTypeName : String := "DISTANCE_BASED_STRATEGY"

/-- Modelled from the spec: `DefaultNearestNeighborStrategy::Options::Type()`. -/
def defaultNearestNeighborStrategyTypeName : String := "NEAREST_NEIGHBOR_STRATEGY"

/-- `GetType()` of a strategy options object. -/
def STRATEGY_KIND.typeName : STRATEGY_KIND → String
  | .DISTANCE_BASED => distanceBasedStrategyTypeName
  | .DEFAULT_NEAREST_NEIGHBOR => defaultNearestNeighborStrategyTypeName

/-- Modelled from the spec: the polymorphic neighborhood-strategy options
object owned by `OdometryOptions` (the strategy classes live outside these
sources).  We track the dynamic kind and the YAML node its parameters were
read from. -/
structure StrategyOptions where
  kind : STRATEGY_KIND
  yamlNode : Option Yaml
deriving Repr

/-- Modelled from the spec: `FromYAML` reads the strategy parameters from
the node; it never changes the dynamic type of the options object. -/
def StrategyOptions.FromYAML (o : StrategyOptions) (strategy_node : Yaml) :
    StrategyOptions :=
  { o with yamlNode := some strategy_node }

/-- `ct_icp::PreviousFrameMotionModel::Options`: the fields touched by
`yaml_to_motion_model_options`. -/
structure PreviousFrameMotionModel.Options where
  beta_location_consistency : Rat
  beta_small_velocity : Rat
  beta_orientation_consistency : Rat
  beta_constant_velocity : Rat
  threshold_orientation_deg : Rat
  threshold_translation_diff : Rat
  log_if_invalid : Bool
  model : MOTION_MODEL
deriving DecidableEq, Repr

/-- Modelled from the spec: the default-constructed motion-model options
record (default member values live outside these sources; no claim depends
on the particular values). -/
def defaultMotionModelOptions : PreviousFrameMotionModel.Options where
  beta_location_consistency := 0.001
  beta_small_velocity := 0.01
  beta_orientation_consistency := 1
  beta_constant_velocity := 0.001
  threshold_orientation_deg := 30
  threshold_translation_diff := 0.3
  log_if_invalid := true
  model := .CONSTANT_VELOCITY

/-- Association-list lookup for enum-option tables. -/
def lookupTag {M : Type} : List (String × M) → String → Option M
  | [], _ => none
  | (k, m) :: rest, s => if k = s then some m else lookupTag rest s

/-- Modelled from the spec: `slam::config::FindEnumOption`, declared in
`SlamCore/config_utils.h` outside these sources.  When the key is present
it maps the string through the given closed table, fatally rejecting an
unknown tag; when absent it keeps the current value. -/
def slam.config.FindEnumOption {M : Type} (node : Yaml) (cur : M)
    (key : String) (mapping : List (String × M)) : Except String M :=
  match node.find key with
  | none => .ok cur
  | some v =>
    match v.asStr with
    | .error e => .error e
    | .ok s =>
      match lookupTag mapping s with
      | some m => .ok m
      | none => .error ("CHECK failed: unknown value " ++ s ++ " for enum option " ++ key)

/-- `ct_icp::yaml_to_motion_model_options`, starting from an explicit
initial record (the C++ default-constructs it). -/
def yaml_to_motion_model_options_from (init : PreviousFrameMotionModel.Options)
    (node : Yaml) : Except String PreviousFrameMotionModel.Options := do
  let o ← ratClause node "beta_location_consistency" (fun x o => { o with beta_location_consistency := x }) init
  let o ← ratClause node "beta_small_velocity" (fun x o => { o with beta_small_velocity := x }) o
  let o ← ratClause node "beta_orientation_consistency" (fun x o => { o with beta_orientation_consistency := x }) o
  let o ← ratClause node "beta_constant_velocity" (fun x o => { o with beta_constant_velocity := x }) o
  let o ← ratClause node "threshold_orientation_deg" (fun x o => { o with threshold_orientation_deg := x }) o
  let o ← ratClause node "threshold_translation_diff" (fun x o => { o with threshold_translation_diff := x }) o
  let o ← boolClause node "log_if_invalid" (fun x o => { o with log_if_invalid := x }) o
  let model ← slam.config.FindEnumOption node o.model "model"
      [("CONSTANT_VELOCITY", MOTION_MODEL.CONSTANT_VELOCITY),
       ("SMALL_VELOCITY", MOTION_MODEL.SMALL_VELOCITY)]
  return { o with model := model }

/-- `ct_icp::yaml_to_motion_model_options`. -/
def yaml_to_motion_model_options (node : Yaml) :
    Except String PreviousFrameMotionModel.Options :=
  yaml_to_motion_model_options_from defaultMotionModelOptions node

/-- `ct_icp::OdometryOptions`: exactly the fields the loader touches. -/
structure OdometryOptions where
  voxel_size : Rat
  max_distance : Rat
  distance_error_threshold : Rat
  orientation_error_threshold : Rat
  max_num_keypoints : Int
  sample_voxel_size : Rat
  map_options : MapOptions
  neighborhood_strategy : StrategyOptions
  min_distance_points : Rat
  max_num_points_in_voxel : Int
  size_voxel_map : Rat
  voxel_neighborhood : Int
  max_radius_neighborhood : Rat
  init_num_frames : Int
  init_voxel_size : Rat
  init_sample_voxel_size : Rat
  log_to_file : Bool
  log_file_destination : String
  debug_print : Bool
  debug_viz : Bool
  do_no_insert : Bool
  always_insert : Bool
  robust_minimal_level : Int
  robust_registration : Bool
  robust_full_voxel_threshold : Rat
  robust_fail_early : Bool
  robust_num_attempts : Int
  robust_max_voxel_neighborhood : Int
  robust_threshold_relative_orientation : Rat
  robust_threshold_ego_orientation : Rat
  default_motion_model : PreviousFrameMotionModel.Options
  motion_compensation : MOTION_COMPENSATION
  sampling : SAMPLING
  initialization : INITIALIZATION
  ct_icp_options : CTICPOptions

/-- Modelled from the spec: the default-constructed
`ct_icp::OdometryOptions` record (default member values live outside these
sources; the spec says the OdometryOptions record owns a default-constructed
nearest-neighbor strategy).  No claim depends on the particular values. -/
def defaultOdometryOptions : OdometryOptions where
  voxel_size := 0.5
  max_distance := 100
  distance_error_threshold := 5
  orientation_error_threshold := 30
  max_num_keypoints := 500
  sample_voxel_size := 1.5
  map_options := yaml_to_map_options (Yaml.node [])
  neighborhood_strategy := { kind := .DEFAULT_NEAREST_NEIGHBOR, yamlNode := none }
  min_distance_points := 0.1
  max_num_points_in_voxel := 20
  size_voxel_map := 1
  voxel_neighborhood := 1
  max_radius_neighborhood := 1.5
  init_num_frames := 20
  init_voxel_size := 0.2
  init_sample_voxel_size := 1
  log_to_file := false
  log_file_destination := ""
  debug_print := true
  debug_viz := false
  do_no_insert := false
  always_insert := false
  robust_minimal_level := 0
  robust_registration := false
  robust_full_voxel_threshold := 0.7
  robust_fail_early := false
  robust_num_attempts := 6
  robust_max_voxel_neighborhood := 4
  robust_threshold_relative_orientation := 2
  robust_threshold_ego_orientation := 2
  default_motion_model := defaultMotionModelOptions
  motion_compensation := .CONSTANT_VELOCITY
  sampling := .GRID
  initialization := .INIT_CONSTANT_VELOCITY
  ct_icp_options := defaultCTICPOptions

/-- The `map_options` block of `yaml_to_odometry_options`: parse the child
node when present, otherwise (deprecated path) parse the map parameters
from the odometry node itself. -/
def mapOptionsStep (node : Yaml) (o : OdometryOptions) : OdometryOptions :=
  match node.find "map_options" with
  | some map_node => { o with map_options := yaml_to_map_options map_node }
  | none => { o with map_options := yaml_to_map_options node }

/-- The deprecation warning logged when the `map_options` node is absent. -/
def mapOptionsDeprecationWarning : String :=
  "The config does not have any node map_options, using the default (deprecated) set of parameters to define the map"

/-- The warnings the `map_options` block logs. -/
def mapOptionsWarning (node : Yaml) : List String :=
  match node.find "map_options" with
  | some _ => []
  | none => [mapOptionsDeprecationWarning]

/-- The warning logged for an unrecognized neighborhood-strategy type. -/
def strategyUnknownWarning (ty : String) : String :=
  "The neighborhood strategy type :" ++ ty ++ " is not recognised"

/-- The `neighborhood_strategy` block of `yaml_to_odometry_options`:
read the `type` tag (falling back to the current strategy's `GetType()`),
replace the strategy for the distance-based tag, log a warning for an
unknown tag, then let the (possibly replaced) strategy read its parameters
from the node.  Returns the updated record and the logged warnings. -/
def strategyStep (node : Yaml) (o : OdometryOptions) :
    Except String (OdometryOptions × List String) :=
  match node.find "neighborhood_strategy" with
  | none => .ok (o, [])
  | some strategy_node =>
    match (match strategy_node.find "type" with
           | some t => t.asStr
           | none => .ok o.neighborhood_strategy.kind.typeName) with
    | .error e => .error e
    | .ok ty =>
      if ty = distanceBasedStrategyTypeName then
        .ok ({ o with neighborhood_strategy :=
                 StrategyOptions.FromYAML { kind := .DISTANCE_BASED, yamlNode := none } strategy_node }, [])
      else if ty ≠ defaultNearestNeighborStrategyTypeName then
        .ok ({ o with neighborhood_strategy :=
                 StrategyOptions.FromYAML o.neighborhood_strategy strategy_node },
             [strategyUnknownWarning ty])
      else
        .ok ({ o with neighborhood_strategy :=
                 StrategyOptions.FromYAML o.neighborhood_strategy strategy_node }, [])

/-- The warnings the `neighborhood_strategy` block logs, as a function of
the node and the strategy owned by the record when the block runs. -/
def strategyWarnings (node : Yaml) (cur : StrategyOptions) : List String :=
  match node.find "neighborhood_strategy" with
  | none => []
  | some strategy_node =>
    match (match strategy_node.find "type" with
           | some t => t.asStr
           | none => .ok cur.kind.typeName) with
    | .error _ => []
    | .ok ty =>
      if ty = distanceBasedStrategyTypeName then []
      else if ty ≠ defaultNearestNeighborStrategyTypeName then [strategyUnknownWarning ty]
      else []

/-- The `default_motion_model` block of `yaml_to_odometry_options`. -/
def motionModelStep (node : Yaml) (o : OdometryOptions) :
    Except String OdometryOptions :=
  match node.find "default_motion_model" with
  | none => .ok o
  | some motion_model_node =>
    match yaml_to_motion_model_options motion_model_node with
    | .ok mm => .ok { o with default_motion_model := mm }
    | .error e => .error e

/-- The closed table of recognized `motion_compensation` tags. -/
def motionCompensationOfTag (s : String) : Option MOTION_COMPENSATION :=
  if s = "NONE" then some .NONE
  else if s = "CONSTANT_VELOCITY" then some .CONSTANT_VELOCITY
  else if s = "ITERATIVE" then some .ITERATIVE
  else if s = "CONTINUOUS" then some .CONTINUOUS
  else none

/-- The `motion_compensation` block: a fatal `CHECK` that the tag is in
the closed set, then the if-cascade (whose final `CHECK(false)` arm is
unreachable). -/
def motionCompensationClause (node : Yaml) (o : OdometryOptions) :
    Except String OdometryOptions :=
  match node.find "motion_compensation" with
  | none => .ok o
  | some v =>
    match v.asStr with
    | .error e => .error e
    | .ok compensation =>
      if compensation = "NONE" ∨ compensation = "CONSTANT_VELOCITY" ∨
          compensation = "ITERATIVE" ∨ compensation = "CONTINUOUS" then
        if compensation = "NONE" then
          .ok { o with motion_compensation := .NONE }
        else if compensation = "CONSTANT_VELOCITY" then
          .ok { o with motion_compensation := .CONSTANT_VELOCITY }
        else if compensation = "ITERATIVE" then
          .ok { o with motion_compensation := .ITERATIVE }
        else if compensation = "CONTINUOUS" then
          .ok { o with motion_compensation := .CONTINUOUS }
        else
          .error ("CHECK failed: The motion_compensation " ++ compensation ++ " is not supported.")
      else
        .error "CHECK failed: motion_compensation tag not recognized"

/-- The closed table of recognized `sampling` tags. -/
def samplingOfTag (s : String) : Option SAMPLING :=
  if s = "NONE" then some .NONE
  else if s = "GRID" then some .GRID
  else if s = "ADAPTIVE" then some .ADAPTIVE
  else none

/-- The `sampling` block: fatal `CHECK` of the closed set, then the
if-cascade (final `CHECK(false)` arm unreachable). -/
def samplingClause (node : Yaml) (o : OdometryOptions) :
    Except String OdometryOptions :=
  match node.find "sampling" with
  | none => .ok o
  | some v =>
    match v.asStr with
    | .error e => .error e
    | .ok sampling =>
      if sampling = "GRID" ∨ sampling = "ADAPTIVE" ∨ sampling = "NONE" then
        if sampling = "NONE" then
          .ok { o with sampling := .NONE }
        else if sampling = "GRID" then
          .ok { o with sampling := .GRID }
        else if sampling = "ADAPTIVE" then
          .ok { o with sampling := .ADAPTIVE }
        else
          .error ("CHECK failed: The sampling " ++ sampling ++ " is not supported.")
      else
        .error "CHECK failed: sampling tag not recognized"

/-- The closed table of recognized `initialization` tags. -/
def initializationOfTag (s : String) : Option INITIALIZATION :=
  if s = "INIT_NONE" then some .INIT_NONE
  else if s = "INIT_CONSTANT_VELOCITY" then some .INIT_CONSTANT_VELOCITY
  else none

/-- The `initialization` block: fatal `CHECK` of the closed set, then the
if-cascade (final `CHECK(false)` arm unreachable). -/
def initializationClause (node : Yaml) (o : OdometryOptions) :
    Except String OdometryOptions :=
  match node.find "initialization" with
  | none => .ok o
  | some v =>
    match v.asStr with
    | .error e => .error e
    | .ok initialization =>
      if initialization = "INIT_NONE" ∨ initialization = "INIT_CONSTANT_VELOCITY" then
        if initialization = "INIT_NONE" then
          .ok { o with initialization := .INIT_NONE }
        else if initialization = "INIT_CONSTANT_VELOCITY" then
          .ok { o with initialization := .INIT_CONSTANT_VELOCITY }
        else
          .error ("CHECK failed: The initialization " ++ initialization ++ " is not supported.")
      else
        .error "CHECK failed: initialization tag not recognized"

/-- The `ct_icp_options` block: parse the nested node with
`yaml_to_ct_icp_options` (which default-constructs its record). -/
def ctIcpOptionsStep (node : Yaml) (o : OdometryOptions) :
    Except String OdometryOptions :=
  match node.find "ct_icp_options" with
  | none => .ok o
  | some icp_node =>
    match yaml_to_ct_icp_options icp_node with
    | .ok icp => .ok { o with ct_icp_options := icp }
    | .error e => .error e

/-- `ct_icp::yaml_to_odometry_options`, statement by statement, starting
from an explicit initial record; the second component collects the
warnings logged while loading. -/
def yaml_to_odometry_options_from (init : OdometryOptions) (node : Yaml) :
    Except String (OdometryOptions × List String) := do
  let o ← ratClause node "voxel_size" (fun x o => { o with voxel_size := x }) init
  let o ← ratClause node "max_distance" (fun x o => { o with max_distance := x }) o
  let o ← ratClause node "distance_error_threshold" (fun x o => { o with distance_error_threshold := x }) o
  let o ← ratClause node "orientation_error_threshold" (fun x o => { o with orientation_error_threshold := x }) o
  let o ← intClause node "max_num_keypoints" (fun x o => { o with max_num_keypoints := x }) o
  let o ← ratClause node "sample_voxel_size" (fun x o => { o with sample_voxel_size := x }) o
  let p ← strategyStep node (mapOptionsStep node o)
  let o ← ratClause node "min_distance_points" (fun x o => { o with min_distance_points := x }) p.1
  let o ← intClause node "max_num_points_in_voxel" (fun x o => { o with max_num_points_in_voxel := x }) o
  let o ← ratClause node "size_voxel_map" (fun x o => { o with size_voxel_map := x }) o
  let o ← intClause node "voxel_neighborhood" (fun x o => { o with voxel_neighborhood := x }) o
  let o ← ratClause node "max_radius_neighborhood" (fun x o => { o with max_radius_neighborhood := x }) o
  let o ← intClause node "init_num_frames" (fun x o => { o with init_num_frames := x }) o
  let o ← ratClause node "init_voxel_size" (fun x o => { o with init_voxel_size := x }) o
  let o ← ratClause node "init_sample_voxel_size" (fun x o => { o with init_sample_voxel_size := x }) o
  let o ← boolClause node "log_to_file" (fun x o => { o with log_to_file := x }) o
  let o ← strClause node "log_file_destination" (fun x o => { o with log_file_destination := x }) o
  let o ← boolClause node "debug_print" (fun x o => { o with debug_print := x }) o
  let o ← boolClause node "debug_viz" (fun x o => { o with debug_viz := x }) o
  let o ← boolClause node "do_no_insert" (fun x o => { o with do_no_insert := x }) o
  let o ← boolClause node "always_insert" (fun x o => { o with always_insert := x }) o
  let o ← intClause node "robust_minimal_level" (fun x o => { o with robust_minimal_level := x }) o
  let o ← boolClause node "robust_registration" (fun x o => { o with robust_registration := x }) o
  let o ← ratClause node "robust_full_voxel_threshold" (fun x o => { o with robust_full_voxel_threshold := x }) o
  let o ← boolClause node "robust_fail_early" (fun x o => { o with robust_fail_early := x }) o
  let o ← intClause node "robust_num_attempts" (fun x o => { o with robust_num_attempts := x }) o
  let o ← intClause node "robust_max_voxel_neighborhood" (fun x o => { o with robust_max_voxel_neighborhood := x }) o
  let o ← ratClause node "robust_threshold_relative_orientation" (fun x o => { o with robust_threshold_relative_orientation := x }) o
  let o ← ratClause node "robust_threshold_ego_orientation" (fun x o => { o with robust_threshold_ego_orientation := x }) o
  let o ← motionModelStep node o
  let o ← motionCompensationClause node o
  let o ← samplingClause node o
  let o ← initializationClause node o
  let o ← ctIcpOptionsStep node o
  return (o, mapOptionsWarning node ++ p.2)

/-- `ct_icp::yaml_to_odometry_options`. -/
def yaml_to_odometry_options (node : Yaml) :
    Except String (OdometryOptions × List String) :=
  yaml_to_odometry_options_from defaultOdometryOptions node

/-- `ct_icp::read_odometry_options`. -/
def read_odometry_options (fs : String → Except String Yaml)
    (yaml_path : String) : Except String (OdometryOptions × List String) := do
  let node ← GetNode fs yaml_path
  yaml_to_odometry_options node

/-- Whether an `Except` computation returned a value. -/
def exceptIsOk {α : Type} : Except String α → Bool
  | .ok _ => true
  | .error _ => false

/-- The returned value of an `Except` computation, or a fallback. -/
def exceptGetD {α : Type} (d : α) : Except String α → α
  | .ok a => a
  | .error _ => d

/-- The dynamic kind of the strategy owned by an odometry record. -/
def strategyKind (o : OdometryOptions) : STRATEGY_KIND :=
  o.neighborhood_strategy.kind

/-! Concrete configuration documents used to instantiate the theorems below. -/

/-- A document whose neighbor bounds violate min ≤ max. -/
def cx1Node : Yaml := .node
  [("min_number_neighbors", .int 5), ("max_number_neighbors", .int 2)]

/-- A document setting an unrecognized `distance` tag. -/
def cxBadDistanceNode : Yaml := .node [("distance", .str "EUCLIDEAN")]

/-- A document setting an unrecognized `parametrization` tag. -/
def cxBadParametrizationNode : Yaml := .node [("parametrization", .str "SPLINE")]

/-- A document setting an unrecognized `solver` tag. -/
def cxBadSolverNode : Yaml := .node [("solver", .str "LBFGS")]

/-- A document setting an unrecognized `loss_function` tag. -/
def cxBadLossNode : Yaml := .node [("loss_function", .str "GEMAN_MCCLURE")]

/-- A document setting an unrecognized `motion_compensation` tag. -/
def cxBadMotionCompNode : Yaml := .node [("motion_compensation", .str "SPLINE")]

/-- A document setting an unrecognized `sampling` tag. -/
def cxBadSamplingNode : Yaml := .node [("sampling", .str "RANDOM")]

/-- A document setting an unrecognized `initialization` tag. -/
def cxBadInitializationNode : Yaml := .node [("initialization", .str "IMU")]

/-- A document requesting distortion correction with a non-plane metric. -/
def cx3Node : Yaml := .node
  [("point_to_plane_with_distortion", .bool true), ("distance", .str "POINT_TO_POINT")]

/-- Distortion correction requested together with the given distance tag. -/
def distortionNodeOf (t : String) : Yaml := .node
  [("point_to_plane_with_distortion", .bool true), ("distance", .str t)]

/-- A document whose neighborhood-strategy type tag names no known strategy. -/
def cx4Node : Yaml := .node
  [("neighborhood_strategy", .node [("type", .str "KD_TREE_STRATEGY")])]

/-- Another document with an unknown strategy tag (and a map_options node). -/
def w4Node : Yaml := .node
  [("map_options", .node []),
   ("neighborhood_strategy", .node [("type", .str "VOXEL_HASH_STRATEGY")])]

/-- A document exercising the four registration enum fields. -/
def c5Node : Yaml := .node
  [("distance", .str "POINT_TO_LINE"), ("parametrization", .str "SIMPLE"),
   ("solver", .str "CERES"), ("loss_function", .str "HUBER")]

/-- A document exercising the three odometry enum fields. -/
def c6Node : Yaml := .node
  [("motion_compensation", .str "ITERATIVE"), ("sampling", .str "ADAPTIVE"),
   ("initialization", .str "INIT_NONE")]

/-- A motion-model document setting one weight and the model tag. -/
def c7Node : Yaml := .node
  [("beta_small_velocity", .dbl 0.2), ("model", .str "SMALL_VELOCITY")]

/-- A registration document setting a single integer option. -/
def c8Node : Yaml := .node [("num_iters_icp", .int 7)]

/-- An odometry document setting a single double option. -/
def c8OdoNode : Yaml := .node [("voxel_size", .dbl 2.5), ("map_options", .node [])]

/-- A file system on which every load fails. -/
def failingFs : String → Except String Yaml := fun _ => .error "could not load file"

/-! ### Generic machinery: success of a bind chain, clause characterizations -/

theorem bind_ok {α β : Type} {x : Except String α} {f : α → Except String β} {b : β}
    (h : x >>= f = .ok b) : ∃ a, x = .ok a ∧ f a = .ok b := by
  cases x with
  | error e => exact absurd h (by simp [Bind.bind, Except.bind])
  | ok a => exact ⟨a, rfl, h⟩

theorem pure_ok {α : Type} {a b : α} (h : (pure a : Except String α) = .ok b) : a = b := by
  simpa [pure, Except.pure] using h

theorem intClause_ok {σ : Type} {node : Yaml} {key : String} {set : Int → σ → σ} {o o' : σ}
    (h : intClause node key set o = .ok o') :
    o' = applyOpt (node.findInt key) set o := by
  unfold intClause at h
  unfold applyOpt Yaml.findInt
  cases hf : node.find key with
  | none => rw [hf] at h; simp_all
  | some v => rw [hf] at h; cases v <;> simp_all [Yaml.asInt]

theorem ratClause_ok {σ : Type} {node : Yaml} {key : String} {set : Rat → σ → σ} {o o' : σ}
    (h : ratClause node key set o = .ok o') :
    o' = applyOpt (node.findRat key) set o := by
  unfold ratClause at h
  unfold applyOpt Yaml.findRat
  cases hf : node.find key with
  | none => rw [hf] at h; simp_all
  | some v => rw [hf] at h; cases v <;> simp_all [Yaml.asRat]

theorem boolClause_ok {σ : Type} {node : Yaml} {key : String} {set : Bool → σ → σ} {o o' : σ}
    (h : boolClause node key set o = .ok o') :
    o' = applyOpt (node.findBool key) set o := by
  unfold boolClause at h
  unfold applyOpt Yaml.findBool
  cases hf : node.find key with
  | none => rw [hf] at h; simp_all
  | some v => rw [hf] at h; cases v <;> simp_all [Yaml.asBool]

theorem strClause_ok {σ : Type} {node : Yaml} {key : String} {set : String → σ → σ} {o o' : σ}
    (h : strClause node key set o = .ok o') :
    o' = applyOpt (node.findStr key) set o := by
  unfold strClause at h
  unfold applyOpt Yaml.findStr
  cases hf : node.find key with
  | none => rw [hf] at h; simp_all
  | some v => rw [hf] at h; cases v <;> simp_all [Yaml.asStr]

theorem upd_get {σ α β : Type} (g : σ → β) {v : Option α} {set : α → σ → σ} {o o' : σ}
    (e : o' = applyOpt v set o) (hs : ∀ x, g (set x o) = g o) : g o' = g o := by
  cases v <;> simp [applyOpt, e, hs]

theorem upd_get_own {σ α : Type} (g : σ → α) {v : Option α} {set : α → σ → σ} {o o' : σ}
    (e : o' = applyOpt v set o) (hs : ∀ x, g (set x o) = x) : g o' = v.getD (g o) := by
  cases v <;> simp [applyOpt, e, hs]

theorem FindEnumOption_ok {M : Type} {node : Yaml} {cur : M} {key : String}
    {mapping : List (String × M)} {m : M}
    (h : slam.config.FindEnumOption node cur key mapping = .ok m) :
    m = ((node.findStr key).bind (lookupTag mapping)).getD cur := by
  unfold slam.config.FindEnumOption at h
  unfold Yaml.findStr
  cases hf : node.find key with
  | none => rw [hf] at h; simp_all
  | some v =>
    rw [hf] at h
    cases v <;> simp_all [Yaml.asStr]
    cases hl : lookupTag mapping _ <;> simp_all

theorem FindEnumOption_ok_tag {M : Type} {node : Yaml} {cur : M} {key : String}
    {mapping : List (String × M)} {m : M}
    (h : slam.config.FindEnumOption node cur key mapping = .ok m) {s : String}
    (hs : node.findStr key = some s) : (lookupTag mapping s).isSome := by
  unfold slam.config.FindEnumOption at h
  unfold Yaml.findStr at hs
  cases hf : node.find key with
  | none => rw [hf] at hs; simp at hs
  | some v =>
    rw [hf] at h hs
    cases v <;> simp_all [Yaml.asStr]
    cases hl : lookupTag mapping s <;> simp_all

/-! ### Characterizations of the enum-dispatch blocks -/

theorem distanceClause_ok {node : Yaml} {o o' : CTICPOptions}
    (h : distanceClause node o = .ok o') :
    o' = applyOpt ((node.findStr "distance").bind distanceOfTag)
      (fun d o => { o with distance := d }) o := by
  unfold distanceClause at h
  unfold Yaml.findStr
  cases hf : node.find "distance" with
  | none => rw [hf] at h; simp_all [applyOpt]
  | some v =>
    rw [hf] at h
    cases v with
    | str s =>
      simp only [Yaml.asStr] at h
      unfold distanceOfTag
      split_ifs at h ⊢ <;> simp_all [applyOpt]
    | int n => simp [Yaml.asStr] at h
    | dbl q => simp [Yaml.asStr] at h
    | bool b => simp [Yaml.asStr] at h
    | node es => simp [Yaml.asStr] at h

theorem distanceClause_ok_tag {node : Yaml} {o o' : CTICPOptions}
    (h : distanceClause node o = .ok o') {s : String}
    (hs : node.findStr "distance" = some s) : (distanceOfTag s).isSome := by
  unfold distanceClause at h
  unfold Yaml.findStr at hs
  cases hf : node.find "distance" with
  | none => rw [hf] at hs; simp at hs
  | some v =>
    rw [hf] at h hs
    cases v with
    | str s2 =>
      simp only [Option.some.injEq] at hs
      subst hs
      simp only [Yaml.asStr] at h
      unfold distanceOfTag
      split_ifs at h ⊢ <;> simp_all
    | int n => simp at hs
    | dbl q => simp at hs
    | bool b => simp at hs
    | node es => simp at hs

theorem parametrizationClause_ok {node : Yaml} {o o' : CTICPOptions}
    (h : parametrizationClause node o = .ok o') :
    o' = applyOpt ((node.findStr "parametrization").bind parametrizationOfTag)
      (fun d o => { o with parametrization := d }) o := by
  unfold parametrizationClause at h
  unfold Yaml.findStr
  cases hf : node.find "parametrization" with
  | none => rw [hf] at h; simp_all [applyOpt]
  | some v =>
    rw [hf] at h
    cases v with
    | str s =>
      simp only [Yaml.asStr] at h
      unfold parametrizationOfTag
      split_ifs at h ⊢ <;> simp_all [applyOpt]
    | int n => simp [Yaml.asStr] at h
    | dbl q => simp [Yaml.asStr] at h
    | bool b => simp [Yaml.asStr] at h
    | node es => simp [Yaml.asStr] at h

theorem parametrizationClause_ok_tag {node : Yaml} {o o' : CTICPOptions}
    (h : parametrizationClause node o = .ok o') {s : String}
    (hs : node.findStr "parametrization" = some s) : (parametrizationOfTag s).isSome := by
  unfold parametrizationClause at h
  unfold Yaml.findStr at hs
  cases hf : node.find "parametrization" with
  | none => rw [hf] at hs; simp at hs
  | some v =>
    rw [hf] at h hs
    cases v with
    | str s2 =>
      simp only [Option.some.injEq] at hs
      subst hs
      simp only [Yaml.asStr] at h
      unfold parametrizationOfTag
      split_ifs at h ⊢ <;> simp_all
    | int n => simp at hs
    | dbl q => simp at hs
    | bool b => simp at hs
    | node es => simp at hs

theorem solverClause_ok {node : Yaml} {o o' : CTICPOptions}
    (h : solverClause node o = .ok o') :
    o' = applyOpt ((node.findStr "solver").bind solverOfTag)
      (fun d o => { o with solver := d }) o := by
  unfold solverClause at h
  unfold Yaml.findStr
  cases hf : node.find "solver" with
  | none => rw [hf] at h; simp_all [applyOpt]
  | some v =>
    rw [hf] at h
    cases v with
    | str s =>
      simp only [Yaml.asStr] at h
      unfold solverOfTag
      split_ifs at h ⊢ <;> simp_all [applyOpt]
    | int n => simp [Yaml.asStr] at h
    | dbl q => simp [Yaml.asStr] at h
    | bool b => simp [Yaml.asStr] at h
    | node es => simp [Yaml.asStr] at h

theorem solverClause_ok_tag {node : Yaml} {o o' : CTICPOptions}
    (h : solverClause node o = .ok o') {s : String}
    (hs : node.findStr "solver" = some s) : (solverOfTag s).isSome := by
  unfold solverClause at h
  unfold Yaml.findStr at hs
  cases hf : node.find "solver" with
  | none => rw [hf] at hs; simp at hs
  | some v =>
    rw [hf] at h hs
    cases v with
    | str s2 =>
      simp only [Option.some.injEq] at hs
      subst hs
      simp only [Yaml.asStr] at h
      unfold solverOfTag
      split_ifs at h ⊢ <;> simp_all
    | int n => simp at hs
    | dbl q => simp at hs
    | bool b => simp at hs
    | node es => simp at hs

theorem lossFunctionClause_ok {node : Yaml} {o o' : CTICPOptions}
    (h : lossFunctionClause node o = .ok o') :
    o' = applyOpt ((node.findStr "loss_function").bind lossOfTag)
      (fun d o => { o with loss_function := d }) o := by
  unfold lossFunctionClause at h
  unfold Yaml.findStr
  cases hf : node.find "loss_function" with
  | none => rw [hf] at h; simp_all [applyOpt]
  | some v =>
    rw [hf] at h
    cases v with
    | str s =>
      simp only [Yaml.asStr] at h
      unfold lossOfTag
      by_cases c1 : s = "STANDARD"
      · subst c1; simp only [applyOpt, Option.bind] at h ⊢; simp at h ⊢; exact h.symm
      by_cases c2 : s = "CAUCHY"
      · subst c2; simp only [applyOpt, Option.bind] at h ⊢; simp at h ⊢; exact h.symm
      by_cases c3 : s = "HUBER"
      · subst c3; simp only [applyOpt, Option.bind] at h ⊢; simp at h ⊢; exact h.symm
      by_cases c4 : s = "TOLERANT"
      · subst c4; simp only [applyOpt, Option.bind] at h ⊢; simp at h ⊢; exact h.symm
      by_cases c5 : s = "TRUNCATED"
      · subst c5; simp only [applyOpt, Option.bind] at h ⊢; simp at h ⊢; exact h.symm
      rw [if_neg (by simp [c1, c2, c3, c4, c5])] at h
      exact absurd h (by simp)
    | int n => simp [Yaml.asStr] at h
    | dbl q => simp [Yaml.asStr] at h
    | bool b => simp [Yaml.asStr] at h
    | node es => simp [Yaml.asStr] at h

theorem lossFunctionClause_ok_tag {node : Yaml} {o o' : CTICPOptions}
    (h : lossFunctionClause node o = .ok o') {s : String}
    (hs : node.findStr "loss_function" = some s) : (lossOfTag s).isSome := by
  unfold lossFunctionClause at h
  unfold Yaml.findStr at hs
  cases hf : node.find "loss_function" with
  | none => rw [hf] at hs; simp at hs
  | some v =>
    rw [hf] at h hs
    cases v with
    | str s2 =>
      simp only [Option.some.injEq] at hs
      subst hs
      simp only [Yaml.asStr] at h
      by_cases c1 : s2 = "STANDARD"
      · subst c1; simp [lossOfTag]
      by_cases c2 : s2 = "CAUCHY"
      · subst c2; simp [lossOfTag]
      by_cases c3 : s2 = "HUBER"
      · subst c3; simp [lossOfTag]
      by_cases c4 : s2 = "TOLERANT"
      · subst c4; simp [lossOfTag]
      by_cases c5 : s2 = "TRUNCATED"
      · subst c5; simp [lossOfTag]
      rw [if_neg (by simp [c1, c2, c3, c4, c5])] at h
      exact absurd h (by simp)
    | int n => simp at hs
    | dbl q => simp at hs
    | bool b => simp at hs
    | node es => simp at hs

theorem motionCompensationClause_ok {node : Yaml} {o o' : OdometryOptions}
    (h : motionCompensationClause node o = .ok o') :
    o' = applyOpt ((node.findStr "motion_compensation").bind motionCompensationOfTag)
      (fun d o => { o with motion_compensation := d }) o := by
  unfold motionCompensationClause at h
  unfold Yaml.findStr
  cases hf : node.find "motion_compensation" with
  | none => rw [hf] at h; simp_all [applyOpt]
  | some v =>
    rw [hf] at h
    cases v with
    | str s =>
      simp only [Yaml.asStr] at h
      unfold motionCompensationOfTag
      split_ifs at h ⊢ <;> simp_all [applyOpt]
    | int n => simp [Yaml.asStr] at h
    | dbl q => simp [Yaml.asStr] at h
    | bool b => simp [Yaml.asStr] at h
    | node es => simp [Yaml.asStr] at h

theorem motionCompensationClause_ok_tag {node : Yaml} {o o' : OdometryOptions}
    (h : motionCompensationClause node o = .ok o') {s : String}
    (hs : node.findStr "motion_compensation" = some s) : (motionCompensationOfTag s).isSome := by
  unfold motionCompensationClause at h
  unfold Yaml.findStr at hs
  cases hf : node.find "motion_compensation" with
  | none => rw [hf] at hs; simp at hs
  | some v =>
    rw [hf] at h hs
    cases v with
    | str s2 =>
      simp only [Option.some.injEq] at hs
      subst hs
      simp only [Yaml.asStr] at h
      unfold motionCompensationOfTag
      split_ifs at h ⊢ <;> simp_all
    | int n => simp at hs
    | dbl q => simp at hs
    | bool b => simp at hs
    | node es => simp at hs

theorem samplingClause_ok {node : Yaml} {o o' : OdometryOptions}
    (h : samplingClause node o = .ok o') :
    o' = applyOpt ((node.findStr "sampling").bind samplingOfTag)
      (fun d o => { o with sampling := d }) o := by
  unfold samplingClause at h
  unfold Yaml.findStr
  cases hf : node.find "sampling" with
  | none => rw [hf] at h; simp_all [applyOpt]
  | some v =>
    rw [hf] at h
    cases v with
    | str s =>
      simp only [Yaml.asStr] at h
      unfold samplingOfTag
      split_ifs at h ⊢ <;> simp_all [applyOpt]
    | int n => simp [Yaml.asStr] at h
    | dbl q => simp [Yaml.asStr] at h
    | bool b => simp [Yaml.asStr] at h
    | node es => simp [Yaml.asStr] at h

theorem samplingClause_ok_tag {node : Yaml} {o o' : OdometryOptions}
    (h : samplingClause node o = .ok o') {s : String}
    (hs : node.findStr "sampling" = some s) : (samplingOfTag s).isSome := by
  unfold samplingClause at h
  unfold Yaml.findStr at hs
  cases hf : node.find "sampling" with
  | none => rw [hf] at hs; simp at hs
  | some v =>
    rw [hf] at h hs
    cases v with
    | str s2 =>
      simp only [Option.some.injEq] at hs
      subst hs
      simp only [Yaml.asStr] at h
      unfold samplingOfTag
      split_ifs at h ⊢ <;> simp_all
    | int n => simp at hs
    | dbl q => simp at hs
    | bool b => simp at hs
    | node es => simp at hs

theorem initializationClause_ok {node : Yaml} {o o' : OdometryOptions}
    (h : initializationClause node o = .ok o') :
    o' = applyOpt ((node.findStr "initialization").bind initializationOfTag)
      (fun d o => { o with initialization := d }) o := by
  unfold initializationClause at h
  unfold Yaml.findStr
  cases hf : node.find "initialization" with
  | none => rw [hf] at h; simp_all [applyOpt]
  | some v =>
    rw [hf] at h
    cases v with
    | str s =>
      simp only [Yaml.asStr] at h
      unfold initializationOfTag
      split_ifs at h ⊢ <;> simp_all [applyOpt]
    | int n => simp [Yaml.asStr] at h
    | dbl q => simp [Yaml.asStr] at h
    | bool b => simp [Yaml.asStr] at h
    | node es => simp [Yaml.asStr] at h

theorem initializationClause_ok_tag {node : Yaml} {o o' : OdometryOptions}
    (h : initializationClause node o = .ok o') {s : String}
    (hs : node.findStr "initialization" = some s) : (initializationOfTag s).isSome := by
  unfold initializationClause at h
  unfold Yaml.findStr at hs
  cases hf : node.find "initialization" with
  | none => rw [hf] at hs; simp at hs
  | some v =>
    rw [hf] at h hs
    cases v with
    | str s2 =>
      simp only [Option.some.injEq] at hs
      subst hs
      simp only [Yaml.asStr] at h
      unfold initializationOfTag
      split_ifs at h ⊢ <;> simp_all
    | int n => simp at hs
    | dbl q => simp at hs
    | bool b => simp at hs
    | node es => simp at hs

/-! ### Characterizations of the structured blocks of the odometry loader -/

theorem mapOptionsStep_get {β : Type} (g : OdometryOptions → β) {node : Yaml}
    {o : OdometryOptions} (hs : ∀ m, g { o with map_options := m } = g o) :
    g (mapOptionsStep node o) = g o := by
  unfold mapOptionsStep
  cases node.find "map_options" <;> simp [hs]

theorem mapOptionsStep_map {node : Yaml} {o : OdometryOptions} :
    (mapOptionsStep node o).map_options =
      yaml_to_map_options ((node.find "map_options").getD node) := by
  unfold mapOptionsStep
  cases node.find "map_options" <;> rfl

theorem strategyStep_get {β : Type} (g : OdometryOptions → β) {node : Yaml}
    {o : OdometryOptions} {p : OdometryOptions × List String}
    (h : strategyStep node o = .ok p)
    (hs : ∀ s, g { o with neighborhood_strategy := s } = g o) :
    g p.1 = g o := by
  unfold strategyStep at h
  cases hf : node.find "neighborhood_strategy" with
  | none =>
    simp only [hf, Except.ok.injEq] at h
    subst h
    rfl
  | some sn =>
    simp only [hf] at h
    cases ht : (match sn.find "type" with
                | some t => t.asStr
                | none => Except.ok o.neighborhood_strategy.kind.typeName) with
    | error e => simp only [ht] at h; exact absurd h (by simp)
    | ok ty =>
      simp only [ht] at h
      split_ifs at h <;>
        (simp only [Except.ok.injEq] at h; subst h; exact hs _)

theorem strategyStep_warns {node : Yaml} {o : OdometryOptions}
    {p : OdometryOptions × List String} (h : strategyStep node o = .ok p) :
    p.2 = strategyWarnings node o.neighborhood_strategy := by
  unfold strategyStep at h
  unfold strategyWarnings
  cases hf : node.find "neighborhood_strategy" with
  | none =>
    simp only [hf, Except.ok.injEq] at h
    subst h
    rfl
  | some sn =>
    simp only [hf] at h ⊢
    cases ht : (match sn.find "type" with
                | some t => t.asStr
                | none => Except.ok o.neighborhood_strategy.kind.typeName) with
    | error e => simp only [ht] at h; exact absurd h (by simp)
    | ok ty =>
      simp only [ht] at h ⊢
      split_ifs at h ⊢ <;>
        (simp only [Except.ok.injEq] at h; subst h; rfl)

theorem strategyStep_unknown {node sn : Yaml} {ty : String} {o : OdometryOptions}
    (hn : node.find "neighborhood_strategy" = some sn)
    (ht : sn.find "type" = some (.str ty))
    (h1 : ty ≠ distanceBasedStrategyTypeName)
    (h2 : ty ≠ defaultNearestNeighborStrategyTypeName) :
    strategyStep node o = .ok
      ({ o with neighborhood_strategy :=
           StrategyOptions.FromYAML o.neighborhood_strategy sn },
       [strategyUnknownWarning ty]) := by
  unfold strategyStep
  simp [hn, ht, Yaml.asStr, h1, h2]

theorem motionModelStep_get {β : Type} (g : OdometryOptions → β) {node : Yaml}
    {o o' : OdometryOptions} (h : motionModelStep node o = .ok o')
    (hs : ∀ m, g { o with default_motion_model := m } = g o) : g o' = g o := by
  unfold motionModelStep at h
  cases hf : node.find "default_motion_model" with
  | none =>
    simp only [hf, Except.ok.injEq] at h
    subst h
    rfl
  | some mn =>
    simp only [hf] at h
    cases hm : yaml_to_motion_model_options mn with
    | ok mm =>
      simp only [hm, Except.ok.injEq] at h
      subst h
      exact hs mm
    | error e => simp only [hm] at h; exact absurd h (by simp)

theorem ctIcpOptionsStep_get {β : Type} (g : OdometryOptions → β) {node : Yaml}
    {o o' : OdometryOptions} (h : ctIcpOptionsStep node o = .ok o')
    (hs : ∀ c, g { o with ct_icp_options := c } = g o) : g o' = g o := by
  unfold ctIcpOptionsStep at h
  cases hf : node.find "ct_icp_options" with
  | none =>
    simp only [hf, Except.ok.injEq] at h
    subst h
    rfl
  | some icp =>
    simp only [hf] at h
    cases hm : yaml_to_ct_icp_options icp with
    | ok c =>
      simp only [hm, Except.ok.injEq] at h
      subst h
      exact hs c
    | error e => simp only [hm] at h; exact absurd h (by simp)

/-! ### Chain characterizations of the three loaders -/

/-- Full field-by-field characterization of `yaml_to_ct_icp_options_from`:
each field of a successfully returned record is determined by its own key
alone (its initial value when the key is absent). -/
theorem cticp_fields {init : CTICPOptions} {node : Yaml} {r : CTICPOptions}
    (h : yaml_to_ct_icp_options_from init node = .ok r) :
    r.threshold_voxel_occupancy = (node.findInt "threshold_voxel_occupancy").getD init.threshold_voxel_occupancy ∧
    r.num_iters_icp = (node.findInt "num_iters_icp").getD init.num_iters_icp ∧
    r.min_number_neighbors = (node.findInt "min_number_neighbors").getD init.min_number_neighbors ∧
    r.max_number_neighbors = (node.findInt "max_number_neighbors").getD init.max_number_neighbors ∧
    r.max_dist_to_plane_ct_icp = (node.findRat "max_dist_to_plane_ct_icp").getD init.max_dist_to_plane_ct_icp ∧
    r.threshold_orientation_norm = (node.findRat "threshold_orientation_norm").getD init.threshold_orientation_norm ∧
    r.threshold_translation_norm = (node.findRat "threshold_translation_norm").getD init.threshold_translation_norm ∧
    r.debug_print = (node.findBool "debug_print").getD init.debug_print ∧
    r.point_to_plane_with_distortion = (node.findBool "point_to_plane_with_distortion").getD init.point_to_plane_with_distortion ∧
    r.num_closest_neighbors = (node.findInt "num_closest_neighbors").getD init.num_closest_neighbors ∧
    r.ls_max_num_iters = (node.findInt "ls_max_num_iters").getD init.ls_max_num_iters ∧
    r.ls_num_threads = (node.findInt "ls_num_threads").getD init.ls_num_threads ∧
    r.ls_sigma = (node.findRat "ls_sigma").getD init.ls_sigma ∧
    r.min_num_residuals = (node.findInt "min_num_residuals").getD init.min_num_residuals ∧
    r.max_num_residuals = (node.findInt "max_num_residuals").getD init.max_num_residuals ∧
    r.weight_alpha = (node.findRat "weight_alpha").getD init.weight_alpha ∧
    r.weight_neighborhood = (node.findRat "weight_neighborhood").getD init.weight_neighborhood ∧
    r.ls_tolerant_min_threshold = (node.findRat "ls_tolerant_min_threshold").getD init.ls_tolerant_min_threshold ∧
    r.power_planarity = (node.findRat "power_planarity").getD init.power_planarity ∧
    r.output_normals = (node.findBool "output_normals").getD init.output_normals ∧
    r.output_lines = (node.findBool "output_lines").getD init.output_lines ∧
    r.output_weights = (node.findBool "output_weights").getD init.output_weights ∧
    r.output_residuals = (node.findBool "output_residuals").getD init.output_residuals ∧
    r.output_neighborhood_info = (node.findBool "output_neighborhood_info").getD init.output_neighborhood_info ∧
    r.threshold_linearity = (node.findRat "threshold_linearity").getD init.threshold_linearity ∧
    r.threshold_planarity = (node.findRat "threshold_planarity").getD init.threshold_planarity ∧
    r.weight_point_to_point = (node.findRat "weight_point_to_point").getD init.weight_point_to_point ∧
    r.outlier_distance = (node.findRat "outlier_distance").getD init.outlier_distance ∧
    r.use_barycenter = (node.findBool "use_barycenter").getD init.use_barycenter ∧
    r.distance = ((node.findStr "distance").bind distanceOfTag).getD init.distance ∧
    r.parametrization = ((node.findStr "parametrization").bind parametrizationOfTag).getD init.parametrization ∧
    r.solver = ((node.findStr "solver").bind solverOfTag).getD init.solver ∧
    r.loss_function = ((node.findStr "loss_function").bind lossOfTag).getD init.loss_function := by
  unfold yaml_to_ct_icp_options_from at h
  obtain ⟨o1, h1, h⟩ := bind_ok h
  obtain ⟨o2, h2, h⟩ := bind_ok h
  obtain ⟨o3, h3, h⟩ := bind_ok h
  obtain ⟨o4, h4, h⟩ := bind_ok h
  obtain ⟨o5, h5, h⟩ := bind_ok h
  obtain ⟨o6, h6, h⟩ := bind_ok h
  obtain ⟨o7, h7, h⟩ := bind_ok h
  obtain ⟨o8, h8, h⟩ := bind_ok h
  obtain ⟨o9, h9, h⟩ := bind_ok h
  obtain ⟨o10, h10, h⟩ := bind_ok h
  obtain ⟨o11, h11, h⟩ := bind_ok h
  obtain ⟨o12, h12, h⟩ := bind_ok h
  obtain ⟨o13, h13, h⟩ := bind_ok h
  obtain ⟨o14, h14, h⟩ := bind_ok h
  obtain ⟨o15, h15, h⟩ := bind_ok h
  obtain ⟨o16, h16, h⟩ := bind_ok h
  obtain ⟨o17, h17, h⟩ := bind_ok h
  obtain ⟨o18, h18, h⟩ := bind_ok h
  obtain ⟨o19, h19, h⟩ := bind_ok h
  obtain ⟨o20, h20, h⟩ := bind_ok h
  obtain ⟨o21, h21, h⟩ := bind_ok h
  obtain ⟨o22, h22, h⟩ := bind_ok h
  obtain ⟨o23, h23, h⟩ := bind_ok h
  obtain ⟨o24, h24, h⟩ := bind_ok h
  obtain ⟨o25, h25, h⟩ := bind_ok h
  obtain ⟨o26, h26, h⟩ := bind_ok h
  obtain ⟨o27, h27, h⟩ := bind_ok h
  obtain ⟨o28, h28, h⟩ := bind_ok h
  obtain ⟨o29, h29, h⟩ := bind_ok h
  obtain ⟨o30, h30, h⟩ := bind_ok h
  obtain ⟨o31, h31, h⟩ := bind_ok h
  obtain ⟨o32, h32, h⟩ := bind_ok h
  obtain ⟨o33, h33, h⟩ := bind_ok h
  obtain ⟨o34, h34, h⟩ := bind_ok h
  have hr := pure_ok h
  subst hr
  have e1 := intClause_ok h1
  have e2 := intClause_ok h2
  have e3 := intClause_ok h3
  have e4 := intClause_ok h4
  have e5 := ratClause_ok h5
  have e6 := ratClause_ok h6
  have e7 := ratClause_ok h7
  have e8 := boolClause_ok h8
  have e9 := boolClause_ok h9
  have e10 := intClause_ok h10
  have e11 := intClause_ok h11
  have e12 := intClause_ok h12
  have e13 := ratClause_ok h13
  have e14 := intClause_ok h14
  have e15 := intClause_ok h15
  have e16 := ratClause_ok h16
  have e17 := ratClause_ok h17
  have e18 := ratClause_ok h18
  have e19 := ratClause_ok h19
  have e20 := boolClause_ok h20
  have e21 := boolClause_ok h21
  have e22 := boolClause_ok h22
  have e23 := boolClause_ok h23
  have e24 := boolClause_ok h24
  have e25 := boolClause_ok h25
  have e26 := ratClause_ok h26
  have e27 := ratClause_ok h27
  have e28 := ratClause_ok h28
  have e29 := ratClause_ok h29
  have e30 := boolClause_ok h30
  have e31 := distanceClause_ok h31
  have e32 := parametrizationClause_ok h32
  have e33 := solverClause_ok h33
  have e34 := lossFunctionClause_ok h34
  refine ⟨?_, ?_, ?_, ?_, ?_, ?_, ?_, ?_, ?_, ?_, ?_, ?_, ?_, ?_, ?_, ?_, ?_, ?_, ?_, ?_, ?_, ?_, ?_, ?_, ?_, ?_, ?_, ?_, ?_, ?_, ?_, ?_, ?_⟩
  · rw [upd_get CTICPOptions.threshold_voxel_occupancy e34 (fun _ => rfl),
        upd_get CTICPOptions.threshold_voxel_occupancy e33 (fun _ => rfl),
        upd_get CTICPOptions.threshold_voxel_occupancy e32 (fun _ => rfl),
        upd_get CTICPOptions.threshold_voxel_occupancy e31 (fun _ => rfl),
        upd_get CTICPOptions.threshold_voxel_occupancy e30 (fun _ => rfl),
        upd_get CTICPOptions.threshold_voxel_occupancy e29 (fun _ => rfl),
        upd_get CTICPOptions.threshold_voxel_occupancy e28 (fun _ => rfl),
        upd_get CTICPOptions.threshold_voxel_occupancy e27 (fun _ => rfl),
        upd_get CTICPOptions.threshold_voxel_occupancy e26 (fun _ => rfl),
        upd_get CTICPOptions.threshold_voxel_occupancy e25 (fun _ => rfl),
        upd_get CTICPOptions.threshold_voxel_occupancy e24 (fun _ => rfl),
        upd_get CTICPOptions.threshold_voxel_occupancy e23 (fun _ => rfl),
        upd_get CTICPOptions.threshold_voxel_occupancy e22 (fun _ => rfl),
        upd_get CTICPOptions.threshold_voxel_occupancy e21 (fun _ => rfl),
        upd_get CTICPOptions.threshold_voxel_occupancy e20 (fun _ => rfl),
        upd_get CTICPOptions.threshold_voxel_occupancy e19 (fun _ => rfl),
        upd_get CTICPOptions.threshold_voxel_occupancy e18 (fun _ => rfl),
        upd_get CTICPOptions.threshold_voxel_occupancy e17 (fun _ => rfl),
        upd_get CTICPOptions.threshold_voxel_occupancy e16 (fun _ => rfl),
        upd_get CTICPOptions.threshold_voxel_occupancy e15 (fun _ => rfl),
        upd_get CTICPOptions.threshold_voxel_occupancy e14 (fun _ => rfl),
        upd_get CTICPOptions.threshold_voxel_occupancy e13 (fun _ => rfl),
        upd_get CTICPOptions.threshold_voxel_occupancy e12 (fun _ => rfl),
        upd_get CTICPOptions.threshold_voxel_occupancy e11 (fun _ => rfl),
        upd_get CTICPOptions.threshold_voxel_occupancy e10 (fun _ => rfl),
        upd_get CTICPOptions.threshold_voxel_occupancy e9 (fun _ => rfl),
        upd_get CTICPOptions.threshold_voxel_occupancy e8 (fun _ => rfl),
        upd_get CTICPOptions.threshold_voxel_occupancy e7 (fun _ => rfl),
        upd_get CTICPOptions.threshold_voxel_occupancy e6 (fun _ => rfl),
        upd_get CTICPOptions.threshold_voxel_occupancy e5 (fun _ => rfl),
        upd_get CTICPOptions.threshold_voxel_occupancy e4 (fun _ => rfl),
        upd_get CTICPOptions.threshold_voxel_occupancy e3 (fun _ => rfl),
        upd_get CTICPOptions.threshold_voxel_occupancy e2 (fun _ => rfl),
        upd_get_own CTICPOptions.threshold_voxel_occupancy e1 (fun _ => rfl)]
  · rw [upd_get CTICPOptions.num_iters_icp e34 (fun _ => rfl),
        upd_get CTICPOptions.num_iters_icp e33 (fun _ => rfl),
        upd_get CTICPOptions.num_iters_icp e32 (fun _ => rfl),
        upd_get CTICPOptions.num_iters_icp e31 (fun _ => rfl),
        upd_get CTICPOptions.num_iters_icp e30 (fun _ => rfl),
        upd_get CTICPOptions.num_iters_icp e29 (fun _ => rfl),
        upd_get CTICPOptions.num_iters_icp e28 (fun _ => rfl),
        upd_get CTICPOptions.num_iters_icp e27 (fun _ => rfl),
        upd_get CTICPOptions.num_iters_icp e26 (fun _ => rfl),
        upd_get CTICPOptions.num_iters_icp e25 (fun _ => rfl),
        upd_get CTICPOptions.num_iters_icp e24 (fun _ => rfl),
        upd_get CTICPOptions.num_iters_icp e23 (fun _ => rfl),
        upd_get CTICPOptions.num_iters_icp e22 (fun _ => rfl),
        upd_get CTICPOptions.num_iters_icp e21 (fun _ => rfl),
        upd_get CTICPOptions.num_iters_icp e20 (fun _ => rfl),
        upd_get CTICPOptions.num_iters_icp e19 (fun _ => rfl),
        upd_get CTICPOptions.num_iters_icp e18 (fun _ => rfl),
        upd_get CTICPOptions.num_iters_icp e17 (fun _ => rfl),
        upd_get CTICPOptions.num_iters_icp e16 (fun _ => rfl),
        upd_get CTICPOptions.num_iters_icp e15 (fun _ => rfl),
        upd_get CTICPOptions.num_iters_icp e14 (fun _ => rfl),
        upd_get CTICPOptions.num_iters_icp e13 (fun _ => rfl),
        upd_get CTICPOptions.num_iters_icp e12 (fun _ => rfl),
        upd_get CTICPOptions.num_iters_icp e11 (fun _ => rfl),
        upd_get CTICPOptions.num_iters_icp e10 (fun _ => rfl),
        upd_get CTICPOptions.num_iters_icp e9 (fun _ => rfl),
        upd_get CTICPOptions.num_iters_icp e8 (fun _ => rfl),
        upd_get CTICPOptions.num_iters_icp e7 (fun _ => rfl),
        upd_get CTICPOptions.num_iters_icp e6 (fun _ => rfl),
        upd_get CTICPOptions.num_iters_icp e5 (fun _ => rfl),
        upd_get CTICPOptions.num_iters_icp e4 (fun _ => rfl),
        upd_get CTICPOptions.num_iters_icp e3 (fun _ => rfl),
        upd_get_own CTICPOptions.num_iters_icp e2 (fun _ => rfl),
        upd_get CTICPOptions.num_iters_icp e1 (fun _ => rfl)]
  · rw [upd_get CTICPOptions.min_number_neighbors e34 (fun _ => rfl),
        upd_get CTICPOptions.min_number_neighbors e33 (fun _ => rfl),
        upd_get CTICPOptions.min_number_neighbors e32 (fun _ => rfl),
        upd_get CTICPOptions.min_number_neighbors e31 (fun _ => rfl),
        upd_get CTICPOptions.min_number_neighbors e30 (fun _ => rfl),
        upd_get CTICPOptions.min_number_neighbors e29 (fun _ => rfl),
        upd_get CTICPOptions.min_number_neighbors e28 (fun _ => rfl),
        upd_get CTICPOptions.min_number_neighbors e27 (fun _ => rfl),
        upd_get CTICPOptions.min_number_neighbors e26 (fun _ => rfl),
        upd_get CTICPOptions.min_number_neighbors e25 (fun _ => rfl),
        upd_get CTICPOptions.min_number_neighbors e24 (fun _ => rfl),
        upd_get CTICPOptions.min_number_neighbors e23 (fun _ => rfl),
        upd_get CTICPOptions.min_number_neighbors e22 (fun _ => rfl),
        upd_get CTICPOptions.min_number_neighbors e21 (fun _ => rfl),
        upd_get CTICPOptions.min_number_neighbors e20 (fun _ => rfl),
        upd_get CTICPOptions.min_number_neighbors e19 (fun _ => rfl),
        upd_get CTICPOptions.min_number_neighbors e18 (fun _ => rfl),
        upd_get CTICPOptions.min_number_neighbors e17 (fun _ => rfl),
        upd_get CTICPOptions.min_number_neighbors e16 (fun _ => rfl),
        upd_get CTICPOptions.min_number_neighbors e15 (fun _ => rfl),
        upd_get CTICPOptions.min_number_neighbors e14 (fun _ => rfl),
        upd_get CTICPOptions.min_number_neighbors e13 (fun _ => rfl),
        upd_get CTICPOptions.min_number_neighbors e12 (fun _ => rfl),
        upd_get CTICPOptions.min_number_neighbors e11 (fun _ => rfl),
        upd_get CTICPOptions.min_number_neighbors e10 (fun _ => rfl),
        upd_get CTICPOptions.min_number_neighbors e9 (fun _ => rfl),
        upd_get CTICPOptions.min_number_neighbors e8 (fun _ => rfl),
        upd_get CTICPOptions.min_number_neighbors e7 (fun _ => rfl),
        upd_get CTICPOptions.min_number_neighbors e6 (fun _ => rfl),
        upd_get CTICPOptions.min_number_neighbors e5 (fun _ => rfl),
        upd_get CTICPOptions.min_number_neighbors e4 (fun _ => rfl),
        upd_get_own CTICPOptions.min_number_neighbors e3 (fun _ => rfl),
        upd_get CTICPOptions.min_number_neighbors e2 (fun _ => rfl),
        upd_get CTICPOptions.min_number_neighbors e1 (fun _ => rfl)]
  · rw [upd_get CTICPOptions.max_number_neighbors e34 (fun _ => rfl),
        upd_get CTICPOptions.max_number_neighbors e33 (fun _ => rfl),
        upd_get CTICPOptions.max_number_neighbors e32 (fun _ => rfl),
        upd_get CTICPOptions.max_number_neighbors e31 (fun _ => rfl),
        upd_get CTICPOptions.max_number_neighbors e30 (fun _ => rfl),
        upd_get CTICPOptions.max_number_neighbors e29 (fun _ => rfl),
        upd_get CTICPOptions.max_number_neighbors e28 (fun _ => rfl),
        upd_get CTICPOptions.max_number_neighbors e27 (fun _ => rfl),
        upd_get CTICPOptions.max_number_neighbors e26 (fun _ => rfl),
        upd_get CTICPOptions.max_number_neighbors e25 (fun _ => rfl),
        upd_get CTICPOptions.max_number_neighbors e24 (fun _ => rfl),
        upd_get CTICPOptions.max_number_neighbors e23 (fun _ => rfl),
        upd_get CTICPOptions.max_number_neighbors e22 (fun _ => rfl),
        upd_get CTICPOptions.max_number_neighbors e21 (fun _ => rfl),
        upd_get CTICPOptions.max_number_neighbors e20 (fun _ => rfl),
        upd_get CTICPOptions.max_number_neighbors e19 (fun _ => rfl),
        upd_get CTICPOptions.max_number_neighbors e18 (fun _ => rfl),
        upd_get CTICPOptions.max_number_neighbors e17 (fun _ => rfl),
        upd_get CTICPOptions.max_number_neighbors e16 (fun _ => rfl),
        upd_get CTICPOptions.max_number_neighbors e15 (fun _ => rfl),
        upd_get CTICPOptions.max_number_neighbors e14 (fun _ => rfl),
        upd_get CTICPOptions.max_number_neighbors e13 (fun _ => rfl),
        upd_get CTICPOptions.max_number_neighbors e12 (fun _ => rfl),
        upd_get CTICPOptions.max_number_neighbors e11 (fun _ => rfl),
        upd_get CTICPOptions.max_number_neighbors e10 (fun _ => rfl),
        upd_get CTICPOptions.max_number_neighbors e9 (fun _ => rfl),
        upd_get CTICPOptions.max_number_neighbors e8 (fun _ => rfl),
        upd_get CTICPOptions.max_number_neighbors e7 (fun _ => rfl),
        upd_get CTICPOptions.max_number_neighbors e6 (fun _ => rfl),
        upd_get CTICPOptions.max_number_neighbors e5 (fun _ => rfl),
        upd_get_own CTICPOptions.max_number_neighbors e4 (fun _ => rfl),
        upd_get CTICPOptions.max_number_neighbors e3 (fun _ => rfl),
        upd_get CTICPOptions.max_number_neighbors e2 (fun _ => rfl),
        upd_get CTICPOptions.max_number_neighbors e1 (fun _ => rfl)]
  · rw [upd_get CTICPOptions.max_dist_to_plane_ct_icp e34 (fun _ => rfl),
        upd_get CTICPOptions.max_dist_to_plane_ct_icp e33 (fun _ => rfl),
        upd_get CTICPOptions.max_dist_to_plane_ct_icp e32 (fun _ => rfl),
        upd_get CTICPOptions.max_dist_to_plane_ct_icp e31 (fun _ => rfl),
        upd_get CTICPOptions.max_dist_to_plane_ct_icp e30 (fun _ => rfl),
        upd_get CTICPOptions.max_dist_to_plane_ct_icp e29 (fun _ => rfl),
        upd_get CTICPOptions.max_dist_to_plane_ct_icp e28 (fun _ => rfl),
        upd_get CTICPOptions.max_dist_to_plane_ct_icp e27 (fun _ => rfl),
        upd_get CTICPOptions.max_dist_to_plane_ct_icp e26 (fun _ => rfl),
        upd_get CTICPOptions.max_dist_to_plane_ct_icp e25 (fun _ => rfl),
        upd_get CTICPOptions.max_dist_to_plane_ct_icp e24 (fun _ => rfl),
        upd_get CTICPOptions.max_dist_to_plane_ct_icp e23 (fun _ => rfl),
        upd_get CTICPOptions.max_dist_to_plane_ct_icp e22 (fun _ => rfl),
        upd_get CTICPOptions.max_dist_to_plane_ct_icp e21 (fun _ => rfl),
        upd_get CTICPOptions.max_dist_to_plane_ct_icp e20 (fun _ => rfl),
        upd_get CTICPOptions.max_dist_to_plane_ct_icp e19 (fun _ => rfl),
        upd_get CTICPOptions.max_dist_to_plane_ct_icp e18 (fun _ => rfl),
        upd_get CTICPOptions.max_dist_to_plane_ct_icp e17 (fun _ => rfl),
        upd_get CTICPOptions.max_dist_to_plane_ct_icp e16 (fun _ => rfl),
        upd_get CTICPOptions.max_dist_to_plane_ct_icp e15 (fun _ => rfl),
        upd_get CTICPOptions.max_dist_to_plane_ct_icp e14 (fun _ => rfl),
        upd_get CTICPOptions.max_dist_to_plane_ct_icp e13 (fun _ => rfl),
        upd_get CTICPOptions.max_dist_to_plane_ct_icp e12 (fun _ => rfl),
        upd_get CTICPOptions.max_dist_to_plane_ct_icp e11 (fun _ => rfl),
        upd_get CTICPOptions.max_dist_to_plane_ct_icp e10 (fun _ => rfl),
        upd_get CTICPOptions.max_dist_to_plane_ct_icp e9 (fun _ => rfl),
        upd_get CTICPOptions.max_dist_to_plane_ct_icp e8 (fun _ => rfl),
        upd_get CTICPOptions.max_dist_to_plane_ct_icp e7 (fun _ => rfl),
        upd_get CTICPOptions.max_dist_to_plane_ct_icp e6 (fun _ => rfl),
        upd_get_own CTICPOptions.max_dist_to_plane_ct_icp e5 (fun _ => rfl),
        upd_get CTICPOptions.max_dist_to_plane_ct_icp e4 (fun _ => rfl),
        upd_get CTICPOptions.max_dist_to_plane_ct_icp e3 (fun _ => rfl),
        upd_get CTICPOptions.max_dist_to_plane_ct_icp e2 (fun _ => rfl),
        upd_get CTICPOptions.max_dist_to_plane_ct_icp e1 (fun _ => rfl)]
  · rw [upd_get CTICPOptions.threshold_orientation_norm e34 (fun _ => rfl),
        upd_get CTICPOptions.threshold_orientation_norm e33 (fun _ => rfl),
        upd_get CTICPOptions.threshold_orientation_norm e32 (fun _ => rfl),
        upd_get CTICPOptions.threshold_orientation_norm e31 (fun _ => rfl),
        upd_get CTICPOptions.threshold_orientation_norm e30 (fun _ => rfl),
        upd_get CTICPOptions.threshold_orientation_norm e29 (fun _ => rfl),
        upd_get CTICPOptions.threshold_orientation_norm e28 (fun _ => rfl),
        upd_get CTICPOptions.threshold_orientation_norm e27 (fun _ => rfl),
        upd_get CTICPOptions.threshold_orientation_norm e26 (fun _ => rfl),
        upd_get CTICPOptions.threshold_orientation_norm e25 (fun _ => rfl),
        upd_get CTICPOptions.threshold_orientation_norm e24 (fun _ => rfl),
        upd_get CTICPOptions.threshold_orientation_norm e23 (fun _ => rfl),
        upd_get CTICPOptions.threshold_orientation_norm e22 (fun _ => rfl),
        upd_get CTICPOptions.threshold_orientation_norm e21 (fun _ => rfl),
        upd_get CTICPOptions.threshold_orientation_norm e20 (fun _ => rfl),
        upd_get CTICPOptions.threshold_orientation_norm e19 (fun _ => rfl),
        upd_get CTICPOptions.threshold_orientation_norm e18 (fun _ => rfl),
        upd_get CTICPOptions.threshold_orientation_norm e17 (fun _ => rfl),
        upd_get CTICPOptions.threshold_orientation_norm e16 (fun _ => rfl),
        upd_get CTICPOptions.threshold_orientation_norm e15 (fun _ => rfl),
        upd_get CTICPOptions.threshold_orientation_norm e14 (fun _ => rfl),
        upd_get CTICPOptions.threshold_orientation_norm e13 (fun _ => rfl),
        upd_get CTICPOptions.threshold_orientation_norm e12 (fun _ => rfl),
        upd_get CTICPOptions.threshold_orientation_norm e11 (fun _ => rfl),
        upd_get CTICPOptions.threshold_orientation_norm e10 (fun _ => rfl),
        upd_get CTICPOptions.threshold_orientation_norm e9 (fun _ => rfl),
        upd_get CTICPOptions.threshold_orientation_norm e8 (fun _ => rfl),
        upd_get CTICPOptions.threshold_orientation_norm e7 (fun _ => rfl),
        upd_get_own CTICPOptions.threshold_orientation_norm e6 (fun _ => rfl),
        upd_get CTICPOptions.threshold_orientation_norm e5 (fun _ => rfl),
        upd_get CTICPOptions.threshold_orientation_norm e4 (fun _ => rfl),
        upd_get CTICPOptions.threshold_orientation_norm e3 (fun _ => rfl),
        upd_get CTICPOptions.threshold_orientation_norm e2 (fun _ => rfl),
        upd_get CTICPOptions.threshold_orientation_norm e1 (fun _ => rfl)]
  · rw [upd_get CTICPOptions.threshold_translation_norm e34 (fun _ => rfl),
        upd_get CTICPOptions.threshold_translation_norm e33 (fun _ => rfl),
        upd_get CTICPOptions.threshold_translation_norm e32 (fun _ => rfl),
        upd_get CTICPOptions.threshold_translation_norm e31 (fun _ => rfl),
        upd_get CTICPOptions.threshold_translation_norm e30 (fun _ => rfl),
        upd_get CTICPOptions.threshold_translation_norm e29 (fun _ => rfl),
        upd_get CTICPOptions.threshold_translation_norm e28 (fun _ => rfl),
        upd_get CTICPOptions.threshold_translation_norm e27 (fun _ => rfl),
        upd_get CTICPOptions.threshold_translation_norm e26 (fun _ => rfl),
        upd_get CTICPOptions.threshold_translation_norm e25 (fun _ => rfl),
        upd_get CTICPOptions.threshold_translation_norm e24 (fun _ => rfl),
        upd_get CTICPOptions.threshold_translation_norm e23 (fun _ => rfl),
        upd_get CTICPOptions.threshold_translation_norm e22 (fun _ => rfl),
        upd_get CTICPOptions.threshold_translation_norm e21 (fun _ => rfl),
        upd_get CTICPOptions.threshold_translation_norm e20 (fun _ => rfl),
        upd_get CTICPOptions.threshold_translation_norm e19 (fun _ => rfl),
        upd_get CTICPOptions.threshold_translation_norm e18 (fun _ => rfl),
        upd_get CTICPOptions.threshold_translation_norm e17 (fun _ => rfl),
        upd_get CTICPOptions.threshold_translation_norm e16 (fun _ => rfl),
        upd_get CTICPOptions.threshold_translation_norm e15 (fun _ => rfl),
        upd_get CTICPOptions.threshold_translation_norm e14 (fun _ => rfl),
        upd_get CTICPOptions.threshold_translation_norm e13 (fun _ => rfl),
        upd_get CTICPOptions.threshold_translation_norm e12 (fun _ => rfl),
        upd_get CTICPOptions.threshold_translation_norm e11 (fun _ => rfl),
        upd_get CTICPOptions.threshold_translation_norm e10 (fun _ => rfl),
        upd_get CTICPOptions.threshold_translation_norm e9 (fun _ => rfl),
        upd_get CTICPOptions.threshold_translation_norm e8 (fun _ => rfl),
        upd_get_own CTICPOptions.threshold_translation_norm e7 (fun _ => rfl),
        upd_get CTICPOptions.threshold_translation_norm e6 (fun _ => rfl),
        upd_get CTICPOptions.threshold_translation_norm e5 (fun _ => rfl),
        upd_get CTICPOptions.threshold_translation_norm e4 (fun _ => rfl),
        upd_get CTICPOptions.threshold_translation_norm e3 (fun _ => rfl),
        upd_get CTICPOptions.threshold_translation_norm e2 (fun _ => rfl),
        upd_get CTICPOptions.threshold_translation_norm e1 (fun _ => rfl)]
  · rw [upd_get CTICPOptions.debug_print e34 (fun _ => rfl),
        upd_get CTICPOptions.debug_print e33 (fun _ => rfl),
        upd_get CTICPOptions.debug_print e32 (fun _ => rfl),
        upd_get CTICPOptions.debug_print e31 (fun _ => rfl),
        upd_get CTICPOptions.debug_print e30 (fun _ => rfl),
        upd_get CTICPOptions.debug_print e29 (fun _ => rfl),
        upd_get CTICPOptions.debug_print e28 (fun _ => rfl),
        upd_get CTICPOptions.debug_print e27 (fun _ => rfl),
        upd_get CTICPOptions.debug_print e26 (fun _ => rfl),
        upd_get CTICPOptions.debug_print e25 (fun _ => rfl),
        upd_get CTICPOptions.debug_print e24 (fun _ => rfl),
        upd_get CTICPOptions.debug_print e23 (fun _ => rfl),
        upd_get CTICPOptions.debug_print e22 (fun _ => rfl),
        upd_get CTICPOptions.debug_print e21 (fun _ => rfl),
        upd_get CTICPOptions.debug_print e20 (fun _ => rfl),
        upd_get CTICPOptions.debug_print e19 (fun _ => rfl),
        upd_get CTICPOptions.debug_print e18 (fun _ => rfl),
        upd_get CTICPOptions.debug_print e17 (fun _ => rfl),
        upd_get CTICPOptions.debug_print e16 (fun _ => rfl),
        upd_get CTICPOptions.debug_print e15 (fun _ => rfl),
        upd_get CTICPOptions.debug_print e14 (fun _ => rfl),
        upd_get CTICPOptions.debug_print e13 (fun _ => rfl),
        upd_get CTICPOptions.debug_print e12 (fun _ => rfl),
        upd_get CTICPOptions.debug_print e11 (fun _ => rfl),
        upd_get CTICPOptions.debug_print e10 (fun _ => rfl),
        upd_get CTICPOptions.debug_print e9 (fun _ => rfl),
        upd_get_own CTICPOptions.debug_print e8 (fun _ => rfl),
        upd_get CTICPOptions.debug_print e7 (fun _ => rfl),
        upd_get CTICPOptions.debug_print e6 (fun _ => rfl),
        upd_get CTICPOptions.debug_print e5 (fun _ => rfl),
        upd_get CTICPOptions.debug_print e4 (fun _ => rfl),
        upd_get CTICPOptions.debug_print e3 (fun _ => rfl),
        upd_get CTICPOptions.debug_print e2 (fun _ => rfl),
        upd_get CTICPOptions.debug_print e1 (fun _ => rfl)]
  · rw [upd_get CTICPOptions.point_to_plane_with_distortion e34 (fun _ => rfl),
        upd_get CTICPOptions.point_to_plane_with_distortion e33 (fun _ => rfl),
        upd_get CTICPOptions.point_to_plane_with_distortion e32 (fun _ => rfl),
        upd_get CTICPOptions.point_to_plane_with_distortion e31 (fun _ => rfl),
        upd_get CTICPOptions.point_to_plane_with_distortion e30 (fun _ => rfl),
        upd_get CTICPOptions.point_to_plane_with_distortion e29 (fun _ => rfl),
        upd_get CTICPOptions.point_to_plane_with_distortion e28 (fun _ => rfl),
        upd_get CTICPOptions.point_to_plane_with_distortion e27 (fun _ => rfl),
        upd_get CTICPOptions.point_to_plane_with_distortion e26 (fun _ => rfl),
        upd_get CTICPOptions.point_to_plane_with_distortion e25 (fun _ => rfl),
        upd_get CTICPOptions.point_to_plane_with_distortion e24 (fun _ => rfl),
        upd_get CTICPOptions.point_to_plane_with_distortion e23 (fun _ => rfl),
        upd_get CTICPOptions.point_to_plane_with_distortion e22 (fun _ => rfl),
        upd_get CTICPOptions.point_to_plane_with_distortion e21 (fun _ => rfl),
        upd_get_own CTICPOptions.point_to_plane_with_distortion e20 (fun _ => rfl),
        upd_get CTICPOptions.point_to_plane_with_distortion e19 (fun _ => rfl),
        upd_get CTICPOptions.point_to_plane_with_distortion e18 (fun _ => rfl),
        upd_get CTICPOptions.point_to_plane_with_distortion e17 (fun _ => rfl),
        upd_get CTICPOptions.point_to_plane_with_distortion e16 (fun _ => rfl),
        upd_get CTICPOptions.point_to_plane_with_distortion e15 (fun _ => rfl),
        upd_get CTICPOptions.point_to_plane_with_distortion e14 (fun _ => rfl),
        upd_get CTICPOptions.point_to_plane_with_distortion e13 (fun _ => rfl),
        upd_get CTICPOptions.point_to_plane_with_distortion e12 (fun _ => rfl),
        upd_get CTICPOptions.point_to_plane_with_distortion e11 (fun _ => rfl),
        upd_get CTICPOptions.point_to_plane_with_distortion e10 (fun _ => rfl),
        upd_get_own CTICPOptions.point_to_plane_with_distortion e9 (fun _ => rfl),
        upd_get CTICPOptions.point_to_plane_with_distortion e8 (fun _ => rfl),
        upd_get CTICPOptions.point_to_plane_with_distortion e7 (fun _ => rfl),
        upd_get CTICPOptions.point_to_plane_with_distortion e6 (fun _ => rfl),
        upd_get CTICPOptions.point_to_plane_with_distortion e5 (fun _ => rfl),
        upd_get CTICPOptions.point_to_plane_with_distortion e4 (fun _ => rfl),
        upd_get CTICPOptions.point_to_plane_with_distortion e3 (fun _ => rfl),
        upd_get CTICPOptions.point_to_plane_with_distortion e2 (fun _ => rfl),
        upd_get CTICPOptions.point_to_plane_with_distortion e1 (fun _ => rfl)]
    cases node.findBool "point_to_plane_with_distortion" <;> rfl
  · rw [upd_get CTICPOptions.num_closest_neighbors e34 (fun _ => rfl),
        upd_get CTICPOptions.num_closest_neighbors e33 (fun _ => rfl),
        upd_get CTICPOptions.num_closest_neighbors e32 (fun _ => rfl),
        upd_get CTICPOptions.num_closest_neighbors e31 (fun _ => rfl),
        upd_get CTICPOptions.num_closest_neighbors e30 (fun _ => rfl),
        upd_get CTICPOptions.num_closest_neighbors e29 (fun _ => rfl),
        upd_get CTICPOptions.num_closest_neighbors e28 (fun _ => rfl),
        upd_get CTICPOptions.num_closest_neighbors e27 (fun _ => rfl),
        upd_get CTICPOptions.num_closest_neighbors e26 (fun _ => rfl),
        upd_get CTICPOptions.num_closest_neighbors e25 (fun _ => rfl),
        upd_get CTICPOptions.num_closest_neighbors e24 (fun _ => rfl),
        upd_get CTICPOptions.num_closest_neighbors e23 (fun _ => rfl),
        upd_get CTICPOptions.num_closest_neighbors e22 (fun _ => rfl),
        upd_get CTICPOptions.num_closest_neighbors e21 (fun _ => rfl),
        upd_get CTICPOptions.num_closest_neighbors e20 (fun _ => rfl),
        upd_get CTICPOptions.num_closest_neighbors e19 (fun _ => rfl),
        upd_get CTICPOptions.num_closest_neighbors e18 (fun _ => rfl),
        upd_get CTICPOptions.num_closest_neighbors e17 (fun _ => rfl),
        upd_get CTICPOptions.num_closest_neighbors e16 (fun _ => rfl),
        upd_get CTICPOptions.num_closest_neighbors e15 (fun _ => rfl),
        upd_get CTICPOptions.num_closest_neighbors e14 (fun _ => rfl),
        upd_get CTICPOptions.num_closest_neighbors e13 (fun _ => rfl),
        upd_get CTICPOptions.num_closest_neighbors e12 (fun _ => rfl),
        upd_get CTICPOptions.num_closest_neighbors e11 (fun _ => rfl),
        upd_get_own CTICPOptions.num_closest_neighbors e10 (fun _ => rfl),
        upd_get CTICPOptions.num_closest_neighbors e9 (fun _ => rfl),
        upd_get CTICPOptions.num_closest_neighbors e8 (fun _ => rfl),
        upd_get CTICPOptions.num_closest_neighbors e7 (fun _ => rfl),
        upd_get CTICPOptions.num_closest_neighbors e6 (fun _ => rfl),
        upd_get CTICPOptions.num_closest_neighbors e5 (fun _ => rfl),
        upd_get CTICPOptions.num_closest_neighbors e4 (fun _ => rfl),
        upd_get CTICPOptions.num_closest_neighbors e3 (fun _ => rfl),
        upd_get CTICPOptions.num_closest_neighbors e2 (fun _ => rfl),
        upd_get CTICPOptions.num_closest_neighbors e1 (fun _ => rfl)]
  · rw [upd_get CTICPOptions.ls_max_num_iters e34 (fun _ => rfl),
        upd_get CTICPOptions.ls_max_num_iters e33 (fun _ => rfl),
        upd_get CTICPOptions.ls_max_num_iters e32 (fun _ => rfl),
        upd_get CTICPOptions.ls_max_num_iters e31 (fun _ => rfl),
        upd_get CTICPOptions.ls_max_num_iters e30 (fun _ => rfl),
        upd_get CTICPOptions.ls_max_num_iters e29 (fun _ => rfl),
        upd_get CTICPOptions.ls_max_num_iters e28 (fun _ => rfl),
        upd_get CTICPOptions.ls_max_num_iters e27 (fun _ => rfl),
        upd_get CTICPOptions.ls_max_num_iters e26 (fun _ => rfl),
        upd_get CTICPOptions.ls_max_num_iters e25 (fun _ => rfl),
        upd_get CTICPOptions.ls_max_num_iters e24 (fun _ => rfl),
        upd_get CTICPOptions.ls_max_num_iters e23 (fun _ => rfl),
        upd_get CTICPOptions.ls_max_num_iters e22 (fun _ => rfl),
        upd_get CTICPOptions.ls_max_num_iters e21 (fun _ => rfl),
        upd_get CTICPOptions.ls_max_num_iters e20 (fun _ => rfl),
        upd_get CTICPOptions.ls_max_num_iters e19 (fun _ => rfl),
        upd_get CTICPOptions.ls_max_num_iters e18 (fun _ => rfl),
        upd_get CTICPOptions.ls_max_num_iters e17 (fun _ => rfl),
        upd_get CTICPOptions.ls_max_num_iters e16 (fun _ => rfl),
        upd_get CTICPOptions.ls_max_num_iters e15 (fun _ => rfl),
        upd_get CTICPOptions.ls_max_num_iters e14 (fun _ => rfl),
        upd_get CTICPOptions.ls_max_num_iters e13 (fun _ => rfl),
        upd_get CTICPOptions.ls_max_num_iters e12 (fun _ => rfl),
        upd_get_own CTICPOptions.ls_max_num_iters e11 (fun _ => rfl),
        upd_get CTICPOptions.ls_max_num_iters e10 (fun _ => rfl),
        upd_get CTICPOptions.ls_max_num_iters e9 (fun _ => rfl),
        upd_get CTICPOptions.ls_max_num_iters e8 (fun _ => rfl),
        upd_get CTICPOptions.ls_max_num_iters e7 (fun _ => rfl),
        upd_get CTICPOptions.ls_max_num_iters e6 (fun _ => rfl),
        upd_get CTICPOptions.ls_max_num_iters e5 (fun _ => rfl),
        upd_get CTICPOptions.ls_max_num_iters e4 (fun _ => rfl),
        upd_get CTICPOptions.ls_max_num_iters e3 (fun _ => rfl),
        upd_get CTICPOptions.ls_max_num_iters e2 (fun _ => rfl),
        upd_get CTICPOptions.ls_max_num_iters e1 (fun _ => rfl)]
  · rw [upd_get CTICPOptions.ls_num_threads e34 (fun _ => rfl),
        upd_get CTICPOptions.ls_num_threads e33 (fun _ => rfl),
        upd_get CTICPOptions.ls_num_threads e32 (fun _ => rfl),
        upd_get CTICPOptions.ls_num_threads e31 (fun _ => rfl),
        upd_get CTICPOptions.ls_num_threads e30 (fun _ => rfl),
        upd_get CTICPOptions.ls_num_threads e29 (fun _ => rfl),
        upd_get CTICPOptions.ls_num_threads e28 (fun _ => rfl),
        upd_get CTICPOptions.ls_num_threads e27 (fun _ => rfl),
        upd_get CTICPOptions.ls_num_threads e26 (fun _ => rfl),
        upd_get CTICPOptions.ls_num_threads e25 (fun _ => rfl),
        upd_get CTICPOptions.ls_num_threads e24 (fun _ => rfl),
        upd_get CTICPOptions.ls_num_threads e23 (fun _ => rfl),
        upd_get CTICPOptions.ls_num_threads e22 (fun _ => rfl),
        upd_get CTICPOptions.ls_num_threads e21 (fun _ => rfl),
        upd_get CTICPOptions.ls_num_threads e20 (fun _ => rfl),
        upd_get CTICPOptions.ls_num_threads e19 (fun _ => rfl),
        upd_get CTICPOptions.ls_num_threads e18 (fun _ => rfl),
        upd_get CTICPOptions.ls_num_threads e17 (fun _ => rfl),
        upd_get CTICPOptions.ls_num_threads e16 (fun _ => rfl),
        upd_get CTICPOptions.ls_num_threads e15 (fun _ => rfl),
        upd_get CTICPOptions.ls_num_threads e14 (fun _ => rfl),
        upd_get CTICPOptions.ls_num_threads e13 (fun _ => rfl),
        upd_get_own CTICPOptions.ls_num_threads e12 (fun _ => rfl),
        upd_get CTICPOptions.ls_num_threads e11 (fun _ => rfl),
        upd_get CTICPOptions.ls_num_threads e10 (fun _ => rfl),
        upd_get CTICPOptions.ls_num_threads e9 (fun _ => rfl),
        upd_get CTICPOptions.ls_num_threads e8 (fun _ => rfl),
        upd_get CTICPOptions.ls_num_threads e7 (fun _ => rfl),
        upd_get CTICPOptions.ls_num_threads e6 (fun _ => rfl),
        upd_get CTICPOptions.ls_num_threads e5 (fun _ => rfl),
        upd_get CTICPOptions.ls_num_threads e4 (fun _ => rfl),
        upd_get CTICPOptions.ls_num_threads e3 (fun _ => rfl),
        upd_get CTICPOptions.ls_num_threads e2 (fun _ => rfl),
        upd_get CTICPOptions.ls_num_threads e1 (fun _ => rfl)]
  · rw [upd_get CTICPOptions.ls_sigma e34 (fun _ => rfl),
        upd_get CTICPOptions.ls_sigma e33 (fun _ => rfl),
        upd_get CTICPOptions.ls_sigma e32 (fun _ => rfl),
        upd_get CTICPOptions.ls_sigma e31 (fun _ => rfl),
        upd_get CTICPOptions.ls_sigma e30 (fun _ => rfl),
        upd_get CTICPOptions.ls_sigma e29 (fun _ => rfl),
        upd_get CTICPOptions.ls_sigma e28 (fun _ => rfl),
        upd_get CTICPOptions.ls_sigma e27 (fun _ => rfl),
        upd_get CTICPOptions.ls_sigma e26 (fun _ => rfl),
        upd_get CTICPOptions.ls_sigma e25 (fun _ => rfl),
        upd_get CTICPOptions.ls_sigma e24 (fun _ => rfl),
        upd_get CTICPOptions.ls_sigma e23 (fun _ => rfl),
        upd_get CTICPOptions.ls_sigma e22 (fun _ => rfl),
        upd_get CTICPOptions.ls_sigma e21 (fun _ => rfl),
        upd_get CTICPOptions.ls_sigma e20 (fun _ => rfl),
        upd_get CTICPOptions.ls_sigma e19 (fun _ => rfl),
        upd_get CTICPOptions.ls_sigma e18 (fun _ => rfl),
        upd_get CTICPOptions.ls_sigma e17 (fun _ => rfl),
        upd_get CTICPOptions.ls_sigma e16 (fun _ => rfl),
        upd_get CTICPOptions.ls_sigma e15 (fun _ => rfl),
        upd_get CTICPOptions.ls_sigma e14 (fun _ => rfl),
        upd_get_own CTICPOptions.ls_sigma e13 (fun _ => rfl),
        upd_get CTICPOptions.ls_sigma e12 (fun _ => rfl),
        upd_get CTICPOptions.ls_sigma e11 (fun _ => rfl),
        upd_get CTICPOptions.ls_sigma e10 (fun _ => rfl),
        upd_get CTICPOptions.ls_sigma e9 (fun _ => rfl),
        upd_get CTICPOptions.ls_sigma e8 (fun _ => rfl),
        upd_get CTICPOptions.ls_sigma e7 (fun _ => rfl),
        upd_get CTICPOptions.ls_sigma e6 (fun _ => rfl),
        upd_get CTICPOptions.ls_sigma e5 (fun _ => rfl),
        upd_get CTICPOptions.ls_sigma e4 (fun _ => rfl),
        upd_get CTICPOptions.ls_sigma e3 (fun _ => rfl),
        upd_get CTICPOptions.ls_sigma e2 (fun _ => rfl),
        upd_get CTICPOptions.ls_sigma e1 (fun _ => rfl)]
  · rw [upd_get CTICPOptions.min_num_residuals e34 (fun _ => rfl),
        upd_get CTICPOptions.min_num_residuals e33 (fun _ => rfl),
        upd_get CTICPOptions.min_num_residuals e32 (fun _ => rfl),
        upd_get CTICPOptions.min_num_residuals e31 (fun _ => rfl),
        upd_get CTICPOptions.min_num_residuals e30 (fun _ => rfl),
        upd_get CTICPOptions.min_num_residuals e29 (fun _ => rfl),
        upd_get CTICPOptions.min_num_residuals e28 (fun _ => rfl),
        upd_get CTICPOptions.min_num_residuals e27 (fun _ => rfl),
        upd_get CTICPOptions.min_num_residuals e26 (fun _ => rfl),
        upd_get CTICPOptions.min_num_residuals e25 (fun _ => rfl),
        upd_get CTICPOptions.min_num_residuals e24 (fun _ => rfl),
        upd_get CTICPOptions.min_num_residuals e23 (fun _ => rfl),
        upd_get CTICPOptions.min_num_residuals e22 (fun _ => rfl),
        upd_get CTICPOptions.min_num_residuals e21 (fun _ => rfl),
        upd_get CTICPOptions.min_num_residuals e20 (fun _ => rfl),
        upd_get CTICPOptions.min_num_residuals e19 (fun _ => rfl),
        upd_get CTICPOptions.min_num_residuals e18 (fun _ => rfl),
        upd_get CTICPOptions.min_num_residuals e17 (fun _ => rfl),
        upd_get CTICPOptions.min_num_residuals e16 (fun _ => rfl),
        upd_get CTICPOptions.min_num_residuals e15 (fun _ => rfl),
        upd_get_own CTICPOptions.min_num_residuals e14 (fun _ => rfl),
        upd_get CTICPOptions.min_num_residuals e13 (fun _ => rfl),
        upd_get CTICPOptions.min_num_residuals e12 (fun _ => rfl),
        upd_get CTICPOptions.min_num_residuals e11 (fun _ => rfl),
        upd_get CTICPOptions.min_num_residuals e10 (fun _ => rfl),
        upd_get CTICPOptions.min_num_residuals e9 (fun _ => rfl),
        upd_get CTICPOptions.min_num_residuals e8 (fun _ => rfl),
        upd_get CTICPOptions.min_num_residuals e7 (fun _ => rfl),
        upd_get CTICPOptions.min_num_residuals e6 (fun _ => rfl),
        upd_get CTICPOptions.min_num_residuals e5 (fun _ => rfl),
        upd_get CTICPOptions.min_num_residuals e4 (fun _ => rfl),
        upd_get CTICPOptions.min_num_residuals e3 (fun _ => rfl),
        upd_get CTICPOptions.min_num_residuals e2 (fun _ => rfl),
        upd_get CTICPOptions.min_num_residuals e1 (fun _ => rfl)]
  · rw [upd_get CTICPOptions.max_num_residuals e34 (fun _ => rfl),
        upd_get CTICPOptions.max_num_residuals e33 (fun _ => rfl),
        upd_get CTICPOptions.max_num_residuals e32 (fun _ => rfl),
        upd_get CTICPOptions.max_num_residuals e31 (fun _ => rfl),
        upd_get CTICPOptions.max_num_residuals e30 (fun _ => rfl),
        upd_get CTICPOptions.max_num_residuals e29 (fun _ => rfl),
        upd_get CTICPOptions.max_num_residuals e28 (fun _ => rfl),
        upd_get CTICPOptions.max_num_residuals e27 (fun _ => rfl),
        upd_get CTICPOptions.max_num_residuals e26 (fun _ => rfl),
        upd_get CTICPOptions.max_num_residuals e25 (fun _ => rfl),
        upd_get CTICPOptions.max_num_residuals e24 (fun _ => rfl),
        upd_get CTICPOptions.max_num_residuals e23 (fun _ => rfl),
        upd_get CTICPOptions.max_num_residuals e22 (fun _ => rfl),
        upd_get CTICPOptions.max_num_residuals e21 (fun _ => rfl),
        upd_get CTICPOptions.max_num_residuals e20 (fun _ => rfl),
        upd_get CTICPOptions.max_num_residuals e19 (fun _ => rfl),
        upd_get CTICPOptions.max_num_residuals e18 (fun _ => rfl),
        upd_get CTICPOptions.max_num_residuals e17 (fun _ => rfl),
        upd_get CTICPOptions.max_num_residuals e16 (fun _ => rfl),
        upd_get_own CTICPOptions.max_num_residuals e15 (fun _ => rfl),
        upd_get CTICPOptions.max_num_residuals e14 (fun _ => rfl),
        upd_get CTICPOptions.max_num_residuals e13 (fun _ => rfl),
        upd_get CTICPOptions.max_num_residuals e12 (fun _ => rfl),
        upd_get CTICPOptions.max_num_residuals e11 (fun _ => rfl),
        upd_get CTICPOptions.max_num_residuals e10 (fun _ => rfl),
        upd_get CTICPOptions.max_num_residuals e9 (fun _ => rfl),
        upd_get CTICPOptions.max_num_residuals e8 (fun _ => rfl),
        upd_get CTICPOptions.max_num_residuals e7 (fun _ => rfl),
        upd_get CTICPOptions.max_num_residuals e6 (fun _ => rfl),
        upd_get CTICPOptions.max_num_residuals e5 (fun _ => rfl),
        upd_get CTICPOptions.max_num_residuals e4 (fun _ => rfl),
        upd_get CTICPOptions.max_num_residuals e3 (fun _ => rfl),
        upd_get CTICPOptions.max_num_residuals e2 (fun _ => rfl),
        upd_get CTICPOptions.max_num_residuals e1 (fun _ => rfl)]
  · rw [upd_get CTICPOptions.weight_alpha e34 (fun _ => rfl),
        upd_get CTICPOptions.weight_alpha e33 (fun _ => rfl),
        upd_get CTICPOptions.weight_alpha e32 (fun _ => rfl),
        upd_get CTICPOptions.weight_alpha e31 (fun _ => rfl),
        upd_get CTICPOptions.weight_alpha e30 (fun _ => rfl),
        upd_get CTICPOptions.weight_alpha e29 (fun _ => rfl),
        upd_get CTICPOptions.weight_alpha e28 (fun _ => rfl),
        upd_get CTICPOptions.weight_alpha e27 (fun _ => rfl),
        upd_get CTICPOptions.weight_alpha e26 (fun _ => rfl),
        upd_get CTICPOptions.weight_alpha e25 (fun _ => rfl),
        upd_get CTICPOptions.weight_alpha e24 (fun _ => rfl),
        upd_get CTICPOptions.weight_alpha e23 (fun _ => rfl),
        upd_get CTICPOptions.weight_alpha e22 (fun _ => rfl),
        upd_get CTICPOptions.weight_alpha e21 (fun _ => rfl),
        upd_get CTICPOptions.weight_alpha e20 (fun _ => rfl),
        upd_get CTICPOptions.weight_alpha e19 (fun _ => rfl),
        upd_get CTICPOptions.weight_alpha e18 (fun _ => rfl),
        upd_get CTICPOptions.weight_alpha e17 (fun _ => rfl),
        upd_get_own CTICPOptions.weight_alpha e16 (fun _ => rfl),
        upd_get CTICPOptions.weight_alpha e15 (fun _ => rfl),
        upd_get CTICPOptions.weight_alpha e14 (fun _ => rfl),
        upd_get CTICPOptions.weight_alpha e13 (fun _ => rfl),
        upd_get CTICPOptions.weight_alpha e12 (fun _ => rfl),
        upd_get CTICPOptions.weight_alpha e11 (fun _ => rfl),
        upd_get CTICPOptions.weight_alpha e10 (fun _ => rfl),
        upd_get CTICPOptions.weight_alpha e9 (fun _ => rfl),
        upd_get CTICPOptions.weight_alpha e8 (fun _ => rfl),
        upd_get CTICPOptions.weight_alpha e7 (fun _ => rfl),
        upd_get CTICPOptions.weight_alpha e6 (fun _ => rfl),
        upd_get CTICPOptions.weight_alpha e5 (fun _ => rfl),
        upd_get CTICPOptions.weight_alpha e4 (fun _ => rfl),
        upd_get CTICPOptions.weight_alpha e3 (fun _ => rfl),
        upd_get CTICPOptions.weight_alpha e2 (fun _ => rfl),
        upd_get CTICPOptions.weight_alpha e1 (fun _ => rfl)]
  · rw [upd_get CTICPOptions.weight_neighborhood e34 (fun _ => rfl),
        upd_get CTICPOptions.weight_neighborhood e33 (fun _ => rfl),
        upd_get CTICPOptions.weight_neighborhood e32 (fun _ => rfl),
        upd_get CTICPOptions.weight_neighborhood e31 (fun _ => rfl),
        upd_get CTICPOptions.weight_neighborhood e30 (fun _ => rfl),
        upd_get CTICPOptions.weight_neighborhood e29 (fun _ => rfl),
        upd_get CTICPOptions.weight_neighborhood e28 (fun _ => rfl),
        upd_get CTICPOptions.weight_neighborhood e27 (fun _ => rfl),
        upd_get CTICPOptions.weight_neighborhood e26 (fun _ => rfl),
        upd_get CTICPOptions.weight_neighborhood e25 (fun _ => rfl),
        upd_get CTICPOptions.weight_neighborhood e24 (fun _ => rfl),
        upd_get CTICPOptions.weight_neighborhood e23 (fun _ => rfl),
        upd_get CTICPOptions.weight_neighborhood e22 (fun _ => rfl),
        upd_get CTICPOptions.weight_neighborhood e21 (fun _ => rfl),
        upd_get CTICPOptions.weight_neighborhood e20 (fun _ => rfl),
        upd_get CTICPOptions.weight_neighborhood e19 (fun _ => rfl),
        upd_get CTICPOptions.weight_neighborhood e18 (fun _ => rfl),
        upd_get_own CTICPOptions.weight_neighborhood e17 (fun _ => rfl),
        upd_get CTICPOptions.weight_neighborhood e16 (fun _ => rfl),
        upd_get CTICPOptions.weight_neighborhood e15 (fun _ => rfl),
        upd_get CTICPOptions.weight_neighborhood e14 (fun _ => rfl),
        upd_get CTICPOptions.weight_neighborhood e13 (fun _ => rfl),
        upd_get CTICPOptions.weight_neighborhood e12 (fun _ => rfl),
        upd_get CTICPOptions.weight_neighborhood e11 (fun _ => rfl),
        upd_get CTICPOptions.weight_neighborhood e10 (fun _ => rfl),
        upd_get CTICPOptions.weight_neighborhood e9 (fun _ => rfl),
        upd_get CTICPOptions.weight_neighborhood e8 (fun _ => rfl),
        upd_get CTICPOptions.weight_neighborhood e7 (fun _ => rfl),
        upd_get CTICPOptions.weight_neighborhood e6 (fun _ => rfl),
        upd_get CTICPOptions.weight_neighborhood e5 (fun _ => rfl),
        upd_get CTICPOptions.weight_neighborhood e4 (fun _ => rfl),
        upd_get CTICPOptions.weight_neighborhood e3 (fun _ => rfl),
        upd_get CTICPOptions.weight_neighborhood e2 (fun _ => rfl),
        upd_get CTICPOptions.weight_neighborhood e1 (fun _ => rfl)]
  · rw [upd_get CTICPOptions.ls_tolerant_min_threshold e34 (fun _ => rfl),
        upd_get CTICPOptions.ls_tolerant_min_threshold e33 (fun _ => rfl),
        upd_get CTICPOptions.ls_tolerant_min_threshold e32 (fun _ => rfl),
        upd_get CTICPOptions.ls_tolerant_min_threshold e31 (fun _ => rfl),
        upd_get CTICPOptions.ls_tolerant_min_threshold e30 (fun _ => rfl),
        upd_get CTICPOptions.ls_tolerant_min_threshold e29 (fun _ => rfl),
        upd_get CTICPOptions.ls_tolerant_min_threshold e28 (fun _ => rfl),
        upd_get CTICPOptions.ls_tolerant_min_threshold e27 (fun _ => rfl),
        upd_get CTICPOptions.ls_tolerant_min_threshold e26 (fun _ => rfl),
        upd_get CTICPOptions.ls_tolerant_min_threshold e25 (fun _ => rfl),
        upd_get CTICPOptions.ls_tolerant_min_threshold e24 (fun _ => rfl),
        upd_get CTICPOptions.ls_tolerant_min_threshold e23 (fun _ => rfl),
        upd_get CTICPOptions.ls_tolerant_min_threshold e22 (fun _ => rfl),
        upd_get CTICPOptions.ls_tolerant_min_threshold e21 (fun _ => rfl),
        upd_get CTICPOptions.ls_tolerant_min_threshold e20 (fun _ => rfl),
        upd_get CTICPOptions.ls_tolerant_min_threshold e19 (fun _ => rfl),
        upd_get_own CTICPOptions.ls_tolerant_min_threshold e18 (fun _ => rfl),
        upd_get CTICPOptions.ls_tolerant_min_threshold e17 (fun _ => rfl),
        upd_get CTICPOptions.ls_tolerant_min_threshold e16 (fun _ => rfl),
        upd_get CTICPOptions.ls_tolerant_min_threshold e15 (fun _ => rfl),
        upd_get CTICPOptions.ls_tolerant_min_threshold e14 (fun _ => rfl),
        upd_get CTICPOptions.ls_tolerant_min_threshold e13 (fun _ => rfl),
        upd_get CTICPOptions.ls_tolerant_min_threshold e12 (fun _ => rfl),
        upd_get CTICPOptions.ls_tolerant_min_threshold e11 (fun _ => rfl),
        upd_get CTICPOptions.ls_tolerant_min_threshold e10 (fun _ => rfl),
        upd_get CTICPOptions.ls_tolerant_min_threshold e9 (fun _ => rfl),
        upd_get CTICPOptions.ls_tolerant_min_threshold e8 (fun _ => rfl),
        upd_get CTICPOptions.ls_tolerant_min_threshold e7 (fun _ => rfl),
        upd_get CTICPOptions.ls_tolerant_min_threshold e6 (fun _ => rfl),
        upd_get CTICPOptions.ls_tolerant_min_threshold e5 (fun _ => rfl),
        upd_get CTICPOptions.ls_tolerant_min_threshold e4 (fun _ => rfl),
        upd_get CTICPOptions.ls_tolerant_min_threshold e3 (fun _ => rfl),
        upd_get CTICPOptions.ls_tolerant_min_threshold e2 (fun _ => rfl),
        upd_get CTICPOptions.ls_tolerant_min_threshold e1 (fun _ => rfl)]
  · rw [upd_get CTICPOptions.power_planarity e34 (fun _ => rfl),
        upd_get CTICPOptions.power_planarity e33 (fun _ => rfl),
        upd_get CTICPOptions.power_planarity e32 (fun _ => rfl),
        upd_get CTICPOptions.power_planarity e31 (fun _ => rfl),
        upd_get CTICPOptions.power_planarity e30 (fun _ => rfl),
        upd_get CTICPOptions.power_planarity e29 (fun _ => rfl),
        upd_get CTICPOptions.power_planarity e28 (fun _ => rfl),
        upd_get CTICPOptions.power_planarity e27 (fun _ => rfl),
        upd_get CTICPOptions.power_planarity e26 (fun _ => rfl),
        upd_get CTICPOptions.power_planarity e25 (fun _ => rfl),
        upd_get CTICPOptions.power_planarity e24 (fun _ => rfl),
        upd_get CTICPOptions.power_planarity e23 (fun _ => rfl),
        upd_get CTICPOptions.power_planarity e22 (fun _ => rfl),
        upd_get CTICPOptions.power_planarity e21 (fun _ => rfl),
        upd_get CTICPOptions.power_planarity e20 (fun _ => rfl),
        upd_get_own CTICPOptions.power_planarity e19 (fun _ => rfl),
        upd_get CTICPOptions.power_planarity e18 (fun _ => rfl),
        upd_get CTICPOptions.power_planarity e17 (fun _ => rfl),
        upd_get CTICPOptions.power_planarity e16 (fun _ => rfl),
        upd_get CTICPOptions.power_planarity e15 (fun _ => rfl),
        upd_get CTICPOptions.power_planarity e14 (fun _ => rfl),
        upd_get CTICPOptions.power_planarity e13 (fun _ => rfl),
        upd_get CTICPOptions.power_planarity e12 (fun _ => rfl),
        upd_get CTICPOptions.power_planarity e11 (fun _ => rfl),
        upd_get CTICPOptions.power_planarity e10 (fun _ => rfl),
        upd_get CTICPOptions.power_planarity e9 (fun _ => rfl),
        upd_get CTICPOptions.power_planarity e8 (fun _ => rfl),
        upd_get CTICPOptions.power_planarity e7 (fun _ => rfl),
        upd_get CTICPOptions.power_planarity e6 (fun _ => rfl),
        upd_get CTICPOptions.power_planarity e5 (fun _ => rfl),
        upd_get CTICPOptions.power_planarity e4 (fun _ => rfl),
        upd_get CTICPOptions.power_planarity e3 (fun _ => rfl),
        upd_get CTICPOptions.power_planarity e2 (fun _ => rfl),
        upd_get CTICPOptions.power_planarity e1 (fun _ => rfl)]
  · rw [upd_get CTICPOptions.output_normals e34 (fun _ => rfl),
        upd_get CTICPOptions.output_normals e33 (fun _ => rfl),
        upd_get CTICPOptions.output_normals e32 (fun _ => rfl),
        upd_get CTICPOptions.output_normals e31 (fun _ => rfl),
        upd_get CTICPOptions.output_normals e30 (fun _ => rfl),
        upd_get CTICPOptions.output_normals e29 (fun _ => rfl),
        upd_get CTICPOptions.output_normals e28 (fun _ => rfl),
        upd_get CTICPOptions.output_normals e27 (fun _ => rfl),
        upd_get CTICPOptions.output_normals e26 (fun _ => rfl),
        upd_get CTICPOptions.output_normals e25 (fun _ => rfl),
        upd_get CTICPOptions.output_normals e24 (fun _ => rfl),
        upd_get CTICPOptions.output_normals e23 (fun _ => rfl),
        upd_get CTICPOptions.output_normals e22 (fun _ => rfl),
        upd_get_own CTICPOptions.output_normals e21 (fun _ => rfl),
        upd_get CTICPOptions.output_normals e20 (fun _ => rfl),
        upd_get CTICPOptions.output_normals e19 (fun _ => rfl),
        upd_get CTICPOptions.output_normals e18 (fun _ => rfl),
        upd_get CTICPOptions.output_normals e17 (fun _ => rfl),
        upd_get CTICPOptions.output_normals e16 (fun _ => rfl),
        upd_get CTICPOptions.output_normals e15 (fun _ => rfl),
        upd_get CTICPOptions.output_normals e14 (fun _ => rfl),
        upd_get CTICPOptions.output_normals e13 (fun _ => rfl),
        upd_get CTICPOptions.output_normals e12 (fun _ => rfl),
        upd_get CTICPOptions.output_normals e11 (fun _ => rfl),
        upd_get CTICPOptions.output_normals e10 (fun _ => rfl),
        upd_get CTICPOptions.output_normals e9 (fun _ => rfl),
        upd_get CTICPOptions.output_normals e8 (fun _ => rfl),
        upd_get CTICPOptions.output_normals e7 (fun _ => rfl),
        upd_get CTICPOptions.output_normals e6 (fun _ => rfl),
        upd_get CTICPOptions.output_normals e5 (fun _ => rfl),
        upd_get CTICPOptions.output_normals e4 (fun _ => rfl),
        upd_get CTICPOptions.output_normals e3 (fun _ => rfl),
        upd_get CTICPOptions.output_normals e2 (fun _ => rfl),
        upd_get CTICPOptions.output_normals e1 (fun _ => rfl)]
  · rw [upd_get CTICPOptions.output_lines e34 (fun _ => rfl),
        upd_get CTICPOptions.output_lines e33 (fun _ => rfl),
        upd_get CTICPOptions.output_lines e32 (fun _ => rfl),
        upd_get CTICPOptions.output_lines e31 (fun _ => rfl),
        upd_get CTICPOptions.output_lines e30 (fun _ => rfl),
        upd_get CTICPOptions.output_lines e29 (fun _ => rfl),
        upd_get CTICPOptions.output_lines e28 (fun _ => rfl),
        upd_get CTICPOptions.output_lines e27 (fun _ => rfl),
        upd_get CTICPOptions.output_lines e26 (fun _ => rfl),
        upd_get CTICPOptions.output_lines e25 (fun _ => rfl),
        upd_get CTICPOptions.output_lines e24 (fun _ => rfl),
        upd_get CTICPOptions.output_lines e23 (fun _ => rfl),
        upd_get_own CTICPOptions.output_lines e22 (fun _ => rfl),
        upd_get CTICPOptions.output_lines e21 (fun _ => rfl),
        upd_get CTICPOptions.output_lines e20 (fun _ => rfl),
        upd_get CTICPOptions.output_lines e19 (fun _ => rfl),
        upd_get CTICPOptions.output_lines e18 (fun _ => rfl),
        upd_get CTICPOptions.output_lines e17 (fun _ => rfl),
        upd_get CTICPOptions.output_lines e16 (fun _ => rfl),
        upd_get CTICPOptions.output_lines e15 (fun _ => rfl),
        upd_get CTICPOptions.output_lines e14 (fun _ => rfl),
        upd_get CTICPOptions.output_lines e13 (fun _ => rfl),
        upd_get CTICPOptions.output_lines e12 (fun _ => rfl),
        upd_get CTICPOptions.output_lines e11 (fun _ => rfl),
        upd_get CTICPOptions.output_lines e10 (fun _ => rfl),
        upd_get CTICPOptions.output_lines e9 (fun _ => rfl),
        upd_get CTICPOptions.output_lines e8 (fun _ => rfl),
        upd_get CTICPOptions.output_lines e7 (fun _ => rfl),
        upd_get CTICPOptions.output_lines e6 (fun _ => rfl),
        upd_get CTICPOptions.output_lines e5 (fun _ => rfl),
        upd_get CTICPOptions.output_lines e4 (fun _ => rfl),
        upd_get CTICPOptions.output_lines e3 (fun _ => rfl),
        upd_get CTICPOptions.output_lines e2 (fun _ => rfl),
        upd_get CTICPOptions.output_lines e1 (fun _ => rfl)]
  · rw [upd_get CTICPOptions.output_weights e34 (fun _ => rfl),
        upd_get CTICPOptions.output_weights e33 (fun _ => rfl),
        upd_get CTICPOptions.output_weights e32 (fun _ => rfl),
        upd_get CTICPOptions.output_weights e31 (fun _ => rfl),
        upd_get CTICPOptions.output_weights e30 (fun _ => rfl),
        upd_get CTICPOptions.output_weights e29 (fun _ => rfl),
        upd_get CTICPOptions.output_weights e28 (fun _ => rfl),
        upd_get CTICPOptions.output_weights e27 (fun _ => rfl),
        upd_get CTICPOptions.output_weights e26 (fun _ => rfl),
        upd_get CTICPOptions.output_weights e25 (fun _ => rfl),
        upd_get CTICPOptions.output_weights e24 (fun _ => rfl),
        upd_get_own CTICPOptions.output_weights e23 (fun _ => rfl),
        upd_get CTICPOptions.output_weights e22 (fun _ => rfl),
        upd_get CTICPOptions.output_weights e21 (fun _ => rfl),
        upd_get CTICPOptions.output_weights e20 (fun _ => rfl),
        upd_get CTICPOptions.output_weights e19 (fun _ => rfl),
        upd_get CTICPOptions.output_weights e18 (fun _ => rfl),
        upd_get CTICPOptions.output_weights e17 (fun _ => rfl),
        upd_get CTICPOptions.output_weights e16 (fun _ => rfl),
        upd_get CTICPOptions.output_weights e15 (fun _ => rfl),
        upd_get CTICPOptions.output_weights e14 (fun _ => rfl),
        upd_get CTICPOptions.output_weights e13 (fun _ => rfl),
        upd_get CTICPOptions.output_weights e12 (fun _ => rfl),
        upd_get CTICPOptions.output_weights e11 (fun _ => rfl),
        upd_get CTICPOptions.output_weights e10 (fun _ => rfl),
        upd_get CTICPOptions.output_weights e9 (fun _ => rfl),
        upd_get CTICPOptions.output_weights e8 (fun _ => rfl),
        upd_get CTICPOptions.output_weights e7 (fun _ => rfl),
        upd_get CTICPOptions.output_weights e6 (fun _ => rfl),
        upd_get CTICPOptions.output_weights e5 (fun _ => rfl),
        upd_get CTICPOptions.output_weights e4 (fun _ => rfl),
        upd_get CTICPOptions.output_weights e3 (fun _ => rfl),
        upd_get CTICPOptions.output_weights e2 (fun _ => rfl),
        upd_get CTICPOptions.output_weights e1 (fun _ => rfl)]
  · rw [upd_get CTICPOptions.output_residuals e34 (fun _ => rfl),
        upd_get CTICPOptions.output_residuals e33 (fun _ => rfl),
        upd_get CTICPOptions.output_residuals e32 (fun _ => rfl),
        upd_get CTICPOptions.output_residuals e31 (fun _ => rfl),
        upd_get CTICPOptions.output_residuals e30 (fun _ => rfl),
        upd_get CTICPOptions.output_residuals e29 (fun _ => rfl),
        upd_get CTICPOptions.output_residuals e28 (fun _ => rfl),
        upd_get CTICPOptions.output_residuals e27 (fun _ => rfl),
        upd_get CTICPOptions.output_residuals e26 (fun _ => rfl),
        upd_get CTICPOptions.output_residuals e25 (fun _ => rfl),
        upd_get_own CTICPOptions.output_residuals e24 (fun _ => rfl),
        upd_get CTICPOptions.output_residuals e23 (fun _ => rfl),
        upd_get CTICPOptions.output_residuals e22 (fun _ => rfl),
        upd_get CTICPOptions.output_residuals e21 (fun _ => rfl),
        upd_get CTICPOptions.output_residuals e20 (fun _ => rfl),
        upd_get CTICPOptions.output_residuals e19 (fun _ => rfl),
        upd_get CTICPOptions.output_residuals e18 (fun _ => rfl),
        upd_get CTICPOptions.output_residuals e17 (fun _ => rfl),
        upd_get CTICPOptions.output_residuals e16 (fun _ => rfl),
        upd_get CTICPOptions.output_residuals e15 (fun _ => rfl),
        upd_get CTICPOptions.output_residuals e14 (fun _ => rfl),
        upd_get CTICPOptions.output_residuals e13 (fun _ => rfl),
        upd_get CTICPOptions.output_residuals e12 (fun _ => rfl),
        upd_get CTICPOptions.output_residuals e11 (fun _ => rfl),
        upd_get CTICPOptions.output_residuals e10 (fun _ => rfl),
        upd_get CTICPOptions.output_residuals e9 (fun _ => rfl),
        upd_get CTICPOptions.output_residuals e8 (fun _ => rfl),
        upd_get CTICPOptions.output_residuals e7 (fun _ => rfl),
        upd_get CTICPOptions.output_residuals e6 (fun _ => rfl),
        upd_get CTICPOptions.output_residuals e5 (fun _ => rfl),
        upd_get CTICPOptions.output_residuals e4 (fun _ => rfl),
        upd_get CTICPOptions.output_residuals e3 (fun _ => rfl),
        upd_get CTICPOptions.output_residuals e2 (fun _ => rfl),
        upd_get CTICPOptions.output_residuals e1 (fun _ => rfl)]
  · rw [upd_get CTICPOptions.output_neighborhood_info e34 (fun _ => rfl),
        upd_get CTICPOptions.output_neighborhood_info e33 (fun _ => rfl),
        upd_get CTICPOptions.output_neighborhood_info e32 (fun _ => rfl),
        upd_get CTICPOptions.output_neighborhood_info e31 (fun _ => rfl),
        upd_get CTICPOptions.output_neighborhood_info e30 (fun _ => rfl),
        upd_get CTICPOptions.output_neighborhood_info e29 (fun _ => rfl),
        upd_get CTICPOptions.output_neighborhood_info e28 (fun _ => rfl),
        upd_get CTICPOptions.output_neighborhood_info e27 (fun _ => rfl),
        upd_get CTICPOptions.output_neighborhood_info e26 (fun _ => rfl),
        upd_get_own CTICPOptions.output_neighborhood_info e25 (fun _ => rfl),
        upd_get CTICPOptions.output_neighborhood_info e24 (fun _ => rfl),
        upd_get CTICPOptions.output_neighborhood_info e23 (fun _ => rfl),
        upd_get CTICPOptions.output_neighborhood_info e22 (fun _ => rfl),
        upd_get CTICPOptions.output_neighborhood_info e21 (fun _ => rfl),
        upd_get CTICPOptions.output_neighborhood_info e20 (fun _ => rfl),
        upd_get CTICPOptions.output_neighborhood_info e19 (fun _ => rfl),
        upd_get CTICPOptions.output_neighborhood_info e18 (fun _ => rfl),
        upd_get CTICPOptions.output_neighborhood_info e17 (fun _ => rfl),
        upd_get CTICPOptions.output_neighborhood_info e16 (fun _ => rfl),
        upd_get CTICPOptions.output_neighborhood_info e15 (fun _ => rfl),
        upd_get CTICPOptions.output_neighborhood_info e14 (fun _ => rfl),
        upd_get CTICPOptions.output_neighborhood_info e13 (fun _ => rfl),
        upd_get CTICPOptions.output_neighborhood_info e12 (fun _ => rfl),
        upd_get CTICPOptions.output_neighborhood_info e11 (fun _ => rfl),
        upd_get CTICPOptions.output_neighborhood_info e10 (fun _ => rfl),
        upd_get CTICPOptions.output_neighborhood_info e9 (fun _ => rfl),
        upd_get CTICPOptions.output_neighborhood_info e8 (fun _ => rfl),
        upd_get CTICPOptions.output_neighborhood_info e7 (fun _ => rfl),
        upd_get CTICPOptions.output_neighborhood_info e6 (fun _ => rfl),
        upd_get CTICPOptions.output_neighborhood_info e5 (fun _ => rfl),
        upd_get CTICPOptions.output_neighborhood_info e4 (fun _ => rfl),
        upd_get CTICPOptions.output_neighborhood_info e3 (fun _ => rfl),
        upd_get CTICPOptions.output_neighborhood_info e2 (fun _ => rfl),
        upd_get CTICPOptions.output_neighborhood_info e1 (fun _ => rfl)]
  · rw [upd_get CTICPOptions.threshold_linearity e34 (fun _ => rfl),
        upd_get CTICPOptions.threshold_linearity e33 (fun _ => rfl),
        upd_get CTICPOptions.threshold_linearity e32 (fun _ => rfl),
        upd_get CTICPOptions.threshold_linearity e31 (fun _ => rfl),
        upd_get CTICPOptions.threshold_linearity e30 (fun _ => rfl),
        upd_get CTICPOptions.threshold_linearity e29 (fun _ => rfl),
        upd_get CTICPOptions.threshold_linearity e28 (fun _ => rfl),
        upd_get CTICPOptions.threshold_linearity e27 (fun _ => rfl),
        upd_get_own CTICPOptions.threshold_linearity e26 (fun _ => rfl),
        upd_get CTICPOptions.threshold_linearity e25 (fun _ => rfl),
        upd_get CTICPOptions.threshold_linearity e24 (fun _ => rfl),
        upd_get CTICPOptions.threshold_linearity e23 (fun _ => rfl),
        upd_get CTICPOptions.threshold_linearity e22 (fun _ => rfl),
        upd_get CTICPOptions.threshold_linearity e21 (fun _ => rfl),
        upd_get CTICPOptions.threshold_linearity e20 (fun _ => rfl),
        upd_get CTICPOptions.threshold_linearity e19 (fun _ => rfl),
        upd_get CTICPOptions.threshold_linearity e18 (fun _ => rfl),
        upd_get CTICPOptions.threshold_linearity e17 (fun _ => rfl),
        upd_get CTICPOptions.threshold_linearity e16 (fun _ => rfl),
        upd_get CTICPOptions.threshold_linearity e15 (fun _ => rfl),
        upd_get CTICPOptions.threshold_linearity e14 (fun _ => rfl),
        upd_get CTICPOptions.threshold_linearity e13 (fun _ => rfl),
        upd_get CTICPOptions.threshold_linearity e12 (fun _ => rfl),
        upd_get CTICPOptions.threshold_linearity e11 (fun _ => rfl),
        upd_get CTICPOptions.threshold_linearity e10 (fun _ => rfl),
        upd_get CTICPOptions.threshold_linearity e9 (fun _ => rfl),
        upd_get CTICPOptions.threshold_linearity e8 (fun _ => rfl),
        upd_get CTICPOptions.threshold_linearity e7 (fun _ => rfl),
        upd_get CTICPOptions.threshold_linearity e6 (fun _ => rfl),
        upd_get CTICPOptions.threshold_linearity e5 (fun _ => rfl),
        upd_get CTICPOptions.threshold_linearity e4 (fun _ => rfl),
        upd_get CTICPOptions.threshold_linearity e3 (fun _ => rfl),
        upd_get CTICPOptions.threshold_linearity e2 (fun _ => rfl),
        upd_get CTICPOptions.threshold_linearity e1 (fun _ => rfl)]
  · rw [upd_get CTICPOptions.threshold_planarity e34 (fun _ => rfl),
        upd_get CTICPOptions.threshold_planarity e33 (fun _ => rfl),
        upd_get CTICPOptions.threshold_planarity e32 (fun _ => rfl),
        upd_get CTICPOptions.threshold_planarity e31 (fun _ => rfl),
        upd_get CTICPOptions.threshold_planarity e30 (fun _ => rfl),
        upd_get CTICPOptions.threshold_planarity e29 (fun _ => rfl),
        upd_get CTICPOptions.threshold_planarity e28 (fun _ => rfl),
        upd_get_own CTICPOptions.threshold_planarity e27 (fun _ => rfl),
        upd_get CTICPOptions.threshold_planarity e26 (fun _ => rfl),
        upd_get CTICPOptions.threshold_planarity e25 (fun _ => rfl),
        upd_get CTICPOptions.threshold_planarity e24 (fun _ => rfl),
        upd_get CTICPOptions.threshold_planarity e23 (fun _ => rfl),
        upd_get CTICPOptions.threshold_planarity e22 (fun _ => rfl),
        upd_get CTICPOptions.threshold_planarity e21 (fun _ => rfl),
        upd_get CTICPOptions.threshold_planarity e20 (fun _ => rfl),
        upd_get CTICPOptions.threshold_planarity e19 (fun _ => rfl),
        upd_get CTICPOptions.threshold_planarity e18 (fun _ => rfl),
        upd_get CTICPOptions.threshold_planarity e17 (fun _ => rfl),
        upd_get CTICPOptions.threshold_planarity e16 (fun _ => rfl),
        upd_get CTICPOptions.threshold_planarity e15 (fun _ => rfl),
        upd_get CTICPOptions.threshold_planarity e14 (fun _ => rfl),
        upd_get CTICPOptions.threshold_planarity e13 (fun _ => rfl),
        upd_get CTICPOptions.threshold_planarity e12 (fun _ => rfl),
        upd_get CTICPOptions.threshold_planarity e11 (fun _ => rfl),
        upd_get CTICPOptions.threshold_planarity e10 (fun _ => rfl),
        upd_get CTICPOptions.threshold_planarity e9 (fun _ => rfl),
        upd_get CTICPOptions.threshold_planarity e8 (fun _ => rfl),
        upd_get CTICPOptions.threshold_planarity e7 (fun _ => rfl),
        upd_get CTICPOptions.threshold_planarity e6 (fun _ => rfl),
        upd_get CTICPOptions.threshold_planarity e5 (fun _ => rfl),
        upd_get CTICPOptions.threshold_planarity e4 (fun _ => rfl),
        upd_get CTICPOptions.threshold_planarity e3 (fun _ => rfl),
        upd_get CTICPOptions.threshold_planarity e2 (fun _ => rfl),
        upd_get CTICPOptions.threshold_planarity e1 (fun _ => rfl)]
  · rw [upd_get CTICPOptions.weight_point_to_point e34 (fun _ => rfl),
        upd_get CTICPOptions.weight_point_to_point e33 (fun _ => rfl),
        upd_get CTICPOptions.weight_point_to_point e32 (fun _ => rfl),
        upd_get CTICPOptions.weight_point_to_point e31 (fun _ => rfl),
        upd_get CTICPOptions.weight_point_to_point e30 (fun _ => rfl),
        upd_get CTICPOptions.weight_point_to_point e29 (fun _ => rfl),
        upd_get_own CTICPOptions.weight_point_to_point e28 (fun _ => rfl),
        upd_get CTICPOptions.weight_point_to_point e27 (fun _ => rfl),
        upd_get CTICPOptions.weight_point_to_point e26 (fun _ => rfl),
        upd_get CTICPOptions.weight_point_to_point e25 (fun _ => rfl),
        upd_get CTICPOptions.weight_point_to_point e24 (fun _ => rfl),
        upd_get CTICPOptions.weight_point_to_point e23 (fun _ => rfl),
        upd_get CTICPOptions.weight_point_to_point e22 (fun _ => rfl),
        upd_get CTICPOptions.weight_point_to_point e21 (fun _ => rfl),
        upd_get CTICPOptions.weight_point_to_point e20 (fun _ => rfl),
        upd_get CTICPOptions.weight_point_to_point e19 (fun _ => rfl),
        upd_get CTICPOptions.weight_point_to_point e18 (fun _ => rfl),
        upd_get CTICPOptions.weight_point_to_point e17 (fun _ => rfl),
        upd_get CTICPOptions.weight_point_to_point e16 (fun _ => rfl),
        upd_get CTICPOptions.weight_point_to_point e15 (fun _ => rfl),
        upd_get CTICPOptions.weight_point_to_point e14 (fun _ => rfl),
        upd_get CTICPOptions.weight_point_to_point e13 (fun _ => rfl),
        upd_get CTICPOptions.weight_point_to_point e12 (fun _ => rfl),
        upd_get CTICPOptions.weight_point_to_point e11 (fun _ => rfl),
        upd_get CTICPOptions.weight_point_to_point e10 (fun _ => rfl),
        upd_get CTICPOptions.weight_point_to_point e9 (fun _ => rfl),
        upd_get CTICPOptions.weight_point_to_point e8 (fun _ => rfl),
        upd_get CTICPOptions.weight_point_to_point e7 (fun _ => rfl),
        upd_get CTICPOptions.weight_point_to_point e6 (fun _ => rfl),
        upd_get CTICPOptions.weight_point_to_point e5 (fun _ => rfl),
        upd_get CTICPOptions.weight_point_to_point e4 (fun _ => rfl),
        upd_get CTICPOptions.weight_point_to_point e3 (fun _ => rfl),
        upd_get CTICPOptions.weight_point_to_point e2 (fun _ => rfl),
        upd_get CTICPOptions.weight_point_to_point e1 (fun _ => rfl)]
  · rw [upd_get CTICPOptions.outlier_distance e34 (fun _ => rfl),
        upd_get CTICPOptions.outlier_distance e33 (fun _ => rfl),
        upd_get CTICPOptions.outlier_distance e32 (fun _ => rfl),
        upd_get CTICPOptions.outlier_distance e31 (fun _ => rfl),
        upd_get CTICPOptions.outlier_distance e30 (fun _ => rfl),
        upd_get_own CTICPOptions.outlier_distance e29 (fun _ => rfl),
        upd_get CTICPOptions.outlier_distance e28 (fun _ => rfl),
        upd_get CTICPOptions.outlier_distance e27 (fun _ => rfl),
        upd_get CTICPOptions.outlier_distance e26 (fun _ => rfl),
        upd_get CTICPOptions.outlier_distance e25 (fun _ => rfl),
        upd_get CTICPOptions.outlier_distance e24 (fun _ => rfl),
        upd_get CTICPOptions.outlier_distance e23 (fun _ => rfl),
        upd_get CTICPOptions.outlier_distance e22 (fun _ => rfl),
        upd_get CTICPOptions.outlier_distance e21 (fun _ => rfl),
        upd_get CTICPOptions.outlier_distance e20 (fun _ => rfl),
        upd_get CTICPOptions.outlier_distance e19 (fun _ => rfl),
        upd_get CTICPOptions.outlier_distance e18 (fun _ => rfl),
        upd_get CTICPOptions.outlier_distance e17 (fun _ => rfl),
        upd_get CTICPOptions.outlier_distance e16 (fun _ => rfl),
        upd_get CTICPOptions.outlier_distance e15 (fun _ => rfl),
        upd_get CTICPOptions.outlier_distance e14 (fun _ => rfl),
        upd_get CTICPOptions.outlier_distance e13 (fun _ => rfl),
        upd_get CTICPOptions.outlier_distance e12 (fun _ => rfl),
        upd_get CTICPOptions.outlier_distance e11 (fun _ => rfl),
        upd_get CTICPOptions.outlier_distance e10 (fun _ => rfl),
        upd_get CTICPOptions.outlier_distance e9 (fun _ => rfl),
        upd_get CTICPOptions.outlier_distance e8 (fun _ => rfl),
        upd_get CTICPOptions.outlier_distance e7 (fun _ => rfl),
        upd_get CTICPOptions.outlier_distance e6 (fun _ => rfl),
        upd_get CTICPOptions.outlier_distance e5 (fun _ => rfl),
        upd_get CTICPOptions.outlier_distance e4 (fun _ => rfl),
        upd_get CTICPOptions.outlier_distance e3 (fun _ => rfl),
        upd_get CTICPOptions.outlier_distance e2 (fun _ => rfl),
        upd_get CTICPOptions.outlier_distance e1 (fun _ => rfl)]
  · rw [upd_get CTICPOptions.use_barycenter e34 (fun _ => rfl),
        upd_get CTICPOptions.use_barycenter e33 (fun _ => rfl),
        upd_get CTICPOptions.use_barycenter e32 (fun _ => rfl),
        upd_get CTICPOptions.use_barycenter e31 (fun _ => rfl),
        upd_get_own CTICPOptions.use_barycenter e30 (fun _ => rfl),
        upd_get CTICPOptions.use_barycenter e29 (fun _ => rfl),
        upd_get CTICPOptions.use_barycenter e28 (fun _ => rfl),
        upd_get CTICPOptions.use_barycenter e27 (fun _ => rfl),
        upd_get CTICPOptions.use_barycenter e26 (fun _ => rfl),
        upd_get CTICPOptions.use_barycenter e25 (fun _ => rfl),
        upd_get CTICPOptions.use_barycenter e24 (fun _ => rfl),
        upd_get CTICPOptions.use_barycenter e23 (fun _ => rfl),
        upd_get CTICPOptions.use_barycenter e22 (fun _ => rfl),
        upd_get CTICPOptions.use_barycenter e21 (fun _ => rfl),
        upd_get CTICPOptions.use_barycenter e20 (fun _ => rfl),
        upd_get CTICPOptions.use_barycenter e19 (fun _ => rfl),
        upd_get CTICPOptions.use_barycenter e18 (fun _ => rfl),
        upd_get CTICPOptions.use_barycenter e17 (fun _ => rfl),
        upd_get CTICPOptions.use_barycenter e16 (fun _ => rfl),
        upd_get CTICPOptions.use_barycenter e15 (fun _ => rfl),
        upd_get CTICPOptions.use_barycenter e14 (fun _ => rfl),
        upd_get CTICPOptions.use_barycenter e13 (fun _ => rfl),
        upd_get CTICPOptions.use_barycenter e12 (fun _ => rfl),
        upd_get CTICPOptions.use_barycenter e11 (fun _ => rfl),
        upd_get CTICPOptions.use_barycenter e10 (fun _ => rfl),
        upd_get CTICPOptions.use_barycenter e9 (fun _ => rfl),
        upd_get CTICPOptions.use_barycenter e8 (fun _ => rfl),
        upd_get CTICPOptions.use_barycenter e7 (fun _ => rfl),
        upd_get CTICPOptions.use_barycenter e6 (fun _ => rfl),
        upd_get CTICPOptions.use_barycenter e5 (fun _ => rfl),
        upd_get CTICPOptions.use_barycenter e4 (fun _ => rfl),
        upd_get CTICPOptions.use_barycenter e3 (fun _ => rfl),
        upd_get CTICPOptions.use_barycenter e2 (fun _ => rfl),
        upd_get CTICPOptions.use_barycenter e1 (fun _ => rfl)]
  · rw [upd_get CTICPOptions.distance e34 (fun _ => rfl),
        upd_get CTICPOptions.distance e33 (fun _ => rfl),
        upd_get CTICPOptions.distance e32 (fun _ => rfl),
        upd_get_own CTICPOptions.distance e31 (fun _ => rfl),
        upd_get CTICPOptions.distance e30 (fun _ => rfl),
        upd_get CTICPOptions.distance e29 (fun _ => rfl),
        upd_get CTICPOptions.distance e28 (fun _ => rfl),
        upd_get CTICPOptions.distance e27 (fun _ => rfl),
        upd_get CTICPOptions.distance e26 (fun _ => rfl),
        upd_get CTICPOptions.distance e25 (fun _ => rfl),
        upd_get CTICPOptions.distance e24 (fun _ => rfl),
        upd_get CTICPOptions.distance e23 (fun _ => rfl),
        upd_get CTICPOptions.distance e22 (fun _ => rfl),
        upd_get CTICPOptions.distance e21 (fun _ => rfl),
        upd_get CTICPOptions.distance e20 (fun _ => rfl),
        upd_get CTICPOptions.distance e19 (fun _ => rfl),
        upd_get CTICPOptions.distance e18 (fun _ => rfl),
        upd_get CTICPOptions.distance e17 (fun _ => rfl),
        upd_get CTICPOptions.distance e16 (fun _ => rfl),
        upd_get CTICPOptions.distance e15 (fun _ => rfl),
        upd_get CTICPOptions.distance e14 (fun _ => rfl),
        upd_get CTICPOptions.distance e13 (fun _ => rfl),
        upd_get CTICPOptions.distance e12 (fun _ => rfl),
        upd_get CTICPOptions.distance e11 (fun _ => rfl),
        upd_get CTICPOptions.distance e10 (fun _ => rfl),
        upd_get CTICPOptions.distance e9 (fun _ => rfl),
        upd_get CTICPOptions.distance e8 (fun _ => rfl),
        upd_get CTICPOptions.distance e7 (fun _ => rfl),
        upd_get CTICPOptions.distance e6 (fun _ => rfl),
        upd_get CTICPOptions.distance e5 (fun _ => rfl),
        upd_get CTICPOptions.distance e4 (fun _ => rfl),
        upd_get CTICPOptions.distance e3 (fun _ => rfl),
        upd_get CTICPOptions.distance e2 (fun _ => rfl),
        upd_get CTICPOptions.distance e1 (fun _ => rfl)]
  · rw [upd_get CTICPOptions.parametrization e34 (fun _ => rfl),
        upd_get CTICPOptions.parametrization e33 (fun _ => rfl),
        upd_get_own CTICPOptions.parametrization e32 (fun _ => rfl),
        upd_get CTICPOptions.parametrization e31 (fun _ => rfl),
        upd_get CTICPOptions.parametrization e30 (fun _ => rfl),
        upd_get CTICPOptions.parametrization e29 (fun _ => rfl),
        upd_get CTICPOptions.parametrization e28 (fun _ => rfl),
        upd_get CTICPOptions.parametrization e27 (fun _ => rfl),
        upd_get CTICPOptions.parametrization e26 (fun _ => rfl),
        upd_get CTICPOptions.parametrization e25 (fun _ => rfl),
        upd_get CTICPOptions.parametrization e24 (fun _ => rfl),
        upd_get CTICPOptions.parametrization e23 (fun _ => rfl),
        upd_get CTICPOptions.parametrization e22 (fun _ => rfl),
        upd_get CTICPOptions.parametrization e21 (fun _ => rfl),
        upd_get CTICPOptions.parametrization e20 (fun _ => rfl),
        upd_get CTICPOptions.parametrization e19 (fun _ => rfl),
        upd_get CTICPOptions.parametrization e18 (fun _ => rfl),
        upd_get CTICPOptions.parametrization e17 (fun _ => rfl),
        upd_get CTICPOptions.parametrization e16 (fun _ => rfl),
        upd_get CTICPOptions.parametrization e15 (fun _ => rfl),
        upd_get CTICPOptions.parametrization e14 (fun _ => rfl),
        upd_get CTICPOptions.parametrization e13 (fun _ => rfl),
        upd_get CTICPOptions.parametrization e12 (fun _ => rfl),
        upd_get CTICPOptions.parametrization e11 (fun _ => rfl),
        upd_get CTICPOptions.parametrization e10 (fun _ => rfl),
        upd_get CTICPOptions.parametrization e9 (fun _ => rfl),
        upd_get CTICPOptions.parametrization e8 (fun _ => rfl),
        upd_get CTICPOptions.parametrization e7 (fun _ => rfl),
        upd_get CTICPOptions.parametrization e6 (fun _ => rfl),
        upd_get CTICPOptions.parametrization e5 (fun _ => rfl),
        upd_get CTICPOptions.parametrization e4 (fun _ => rfl),
        upd_get CTICPOptions.parametrization e3 (fun _ => rfl),
        upd_get CTICPOptions.parametrization e2 (fun _ => rfl),
        upd_get CTICPOptions.parametrization e1 (fun _ => rfl)]
  · rw [upd_get CTICPOptions.solver e34 (fun _ => rfl),
        upd_get_own CTICPOptions.solver e33 (fun _ => rfl),
        upd_get CTICPOptions.solver e32 (fun _ => rfl),
        upd_get CTICPOptions.solver e31 (fun _ => rfl),
        upd_get CTICPOptions.solver e30 (fun _ => rfl),
        upd_get CTICPOptions.solver e29 (fun _ => rfl),
        upd_get CTICPOptions.solver e28 (fun _ => rfl),
        upd_get CTICPOptions.solver e27 (fun _ => rfl),
        upd_get CTICPOptions.solver e26 (fun _ => rfl),
        upd_get CTICPOptions.solver e25 (fun _ => rfl),
        upd_get CTICPOptions.solver e24 (fun _ => rfl),
        upd_get CTICPOptions.solver e23 (fun _ => rfl),
        upd_get CTICPOptions.solver e22 (fun _ => rfl),
        upd_get CTICPOptions.solver e21 (fun _ => rfl),
        upd_get CTICPOptions.solver e20 (fun _ => rfl),
        upd_get CTICPOptions.solver e19 (fun _ => rfl),
        upd_get CTICPOptions.solver e18 (fun _ => rfl),
        upd_get CTICPOptions.solver e17 (fun _ => rfl),
        upd_get CTICPOptions.solver e16 (fun _ => rfl),
        upd_get CTICPOptions.solver e15 (fun _ => rfl),
        upd_get CTICPOptions.solver e14 (fun _ => rfl),
        upd_get CTICPOptions.solver e13 (fun _ => rfl),
        upd_get CTICPOptions.solver e12 (fun _ => rfl),
        upd_get CTICPOptions.solver e11 (fun _ => rfl),
        upd_get CTICPOptions.solver e10 (fun _ => rfl),
        upd_get CTICPOptions.solver e9 (fun _ => rfl),
        upd_get CTICPOptions.solver e8 (fun _ => rfl),
        upd_get CTICPOptions.solver e7 (fun _ => rfl),
        upd_get CTICPOptions.solver e6 (fun _ => rfl),
        upd_get CTICPOptions.solver e5 (fun _ => rfl),
        upd_get CTICPOptions.solver e4 (fun _ => rfl),
        upd_get CTICPOptions.solver e3 (fun _ => rfl),
        upd_get CTICPOptions.solver e2 (fun _ => rfl),
        upd_get CTICPOptions.solver e1 (fun _ => rfl)]
  · rw [upd_get_own CTICPOptions.loss_function e34 (fun _ => rfl),
        upd_get CTICPOptions.loss_function e33 (fun _ => rfl),
        upd_get CTICPOptions.loss_function e32 (fun _ => rfl),
        upd_get CTICPOptions.loss_function e31 (fun _ => rfl),
        upd_get CTICPOptions.loss_function e30 (fun _ => rfl),
        upd_get CTICPOptions.loss_function e29 (fun _ => rfl),
        upd_get CTICPOptions.loss_function e28 (fun _ => rfl),
        upd_get CTICPOptions.loss_function e27 (fun _ => rfl),
        upd_get CTICPOptions.loss_function e26 (fun _ => rfl),
        upd_get CTICPOptions.loss_function e25 (fun _ => rfl),
        upd_get CTICPOptions.loss_function e24 (fun _ => rfl),
        upd_get CTICPOptions.loss_function e23 (fun _ => rfl),
        upd_get CTICPOptions.loss_function e22 (fun _ => rfl),
        upd_get CTICPOptions.loss_function e21 (fun _ => rfl),
        upd_get CTICPOptions.loss_function e20 (fun _ => rfl),
        upd_get CTICPOptions.loss_function e19 (fun _ => rfl),
        upd_get CTICPOptions.loss_function e18 (fun _ => rfl),
        upd_get CTICPOptions.loss_function e17 (fun _ => rfl),
        upd_get CTICPOptions.loss_function e16 (fun _ => rfl),
        upd_get CTICPOptions.loss_function e15 (fun _ => rfl),
        upd_get CTICPOptions.loss_function e14 (fun _ => rfl),
        upd_get CTICPOptions.loss_function e13 (fun _ => rfl),
        upd_get CTICPOptions.loss_function e12 (fun _ => rfl),
        upd_get CTICPOptions.loss_function e11 (fun _ => rfl),
        upd_get CTICPOptions.loss_function e10 (fun _ => rfl),
        upd_get CTICPOptions.loss_function e9 (fun _ => rfl),
        upd_get CTICPOptions.loss_function e8 (fun _ => rfl),
        upd_get CTICPOptions.loss_function e7 (fun _ => rfl),
        upd_get CTICPOptions.loss_function e6 (fun _ => rfl),
        upd_get CTICPOptions.loss_function e5 (fun _ => rfl),
        upd_get CTICPOptions.loss_function e4 (fun _ => rfl),
        upd_get CTICPOptions.loss_function e3 (fun _ => rfl),
        upd_get CTICPOptions.loss_function e2 (fun _ => rfl),
        upd_get CTICPOptions.loss_function e1 (fun _ => rfl)]

/-- A successful `yaml_to_ct_icp_options_from` run implies every supplied
enum tag was recognized. -/
theorem cticp_tags {init : CTICPOptions} {node : Yaml} {r : CTICPOptions}
    (h : yaml_to_ct_icp_options_from init node = .ok r) :
    (∀ s, node.findStr "distance" = some s → (distanceOfTag s).isSome) ∧
    (∀ s, node.findStr "parametrization" = some s → (parametrizationOfTag s).isSome) ∧
    (∀ s, node.findStr "solver" = some s → (solverOfTag s).isSome) ∧
    (∀ s, node.findStr "loss_function" = some s → (lossOfTag s).isSome) := by
  unfold yaml_to_ct_icp_options_from at h
  obtain ⟨o1, h1, h⟩ := bind_ok h
  obtain ⟨o2, h2, h⟩ := bind_ok h
  obtain ⟨o3, h3, h⟩ := bind_ok h
  obtain ⟨o4, h4, h⟩ := bind_ok h
  obtain ⟨o5, h5, h⟩ := bind_ok h
  obtain ⟨o6, h6, h⟩ := bind_ok h
  obtain ⟨o7, h7, h⟩ := bind_ok h
  obtain ⟨o8, h8, h⟩ := bind_ok h
  obtain ⟨o9, h9, h⟩ := bind_ok h
  obtain ⟨o10, h10, h⟩ := bind_ok h
  obtain ⟨o11, h11, h⟩ := bind_ok h
  obtain ⟨o12, h12, h⟩ := bind_ok h
  obtain ⟨o13, h13, h⟩ := bind_ok h
  obtain ⟨o14, h14, h⟩ := bind_ok h
  obtain ⟨o15, h15, h⟩ := bind_ok h
  obtain ⟨o16, h16, h⟩ := bind_ok h
  obtain ⟨o17, h17, h⟩ := bind_ok h
  obtain ⟨o18, h18, h⟩ := bind_ok h
  obtain ⟨o19, h19, h⟩ := bind_ok h
  obtain ⟨o20, h20, h⟩ := bind_ok h
  obtain ⟨o21, h21, h⟩ := bind_ok h
  obtain ⟨o22, h22, h⟩ := bind_ok h
  obtain ⟨o23, h23, h⟩ := bind_ok h
  obtain ⟨o24, h24, h⟩ := bind_ok h
  obtain ⟨o25, h25, h⟩ := bind_ok h
  obtain ⟨o26, h26, h⟩ := bind_ok h
  obtain ⟨o27, h27, h⟩ := bind_ok h
  obtain ⟨o28, h28, h⟩ := bind_ok h
  obtain ⟨o29, h29, h⟩ := bind_ok h
  obtain ⟨o30, h30, h⟩ := bind_ok h
  obtain ⟨o31, h31, h⟩ := bind_ok h
  obtain ⟨o32, h32, h⟩ := bind_ok h
  obtain ⟨o33, h33, h⟩ := bind_ok h
  obtain ⟨o34, h34, h⟩ := bind_ok h
  exact ⟨fun s hs => distanceClause_ok_tag h31 hs, fun s hs => parametrizationClause_ok_tag h32 hs, fun s hs => solverClause_ok_tag h33 hs, fun s hs => lossFunctionClause_ok_tag h34 hs⟩

/-- Full field-by-field characterization of `yaml_to_odometry_options_from`
for the plainly-parsed fields, the map options and the logged warnings. -/
theorem odo_fields {init : OdometryOptions} {node : Yaml}
    {pr : OdometryOptions × List String}
    (h : yaml_to_odometry_options_from init node = .ok pr) :
    pr.1.voxel_size = (node.findRat "voxel_size").getD init.voxel_size ∧
    pr.1.max_distance = (node.findRat "max_distance").getD init.max_distance ∧
    pr.1.distance_error_threshold = (node.findRat "distance_error_threshold").getD init.distance_error_threshold ∧
    pr.1.orientation_error_threshold = (node.findRat "orientation_error_threshold").getD init.orientation_error_threshold ∧
    pr.1.max_num_keypoints = (node.findInt "max_num_keypoints").getD init.max_num_keypoints ∧
    pr.1.sample_voxel_size = (node.findRat "sample_voxel_size").getD init.sample_voxel_size ∧
    pr.1.min_distance_points = (node.findRat "min_distance_points").getD init.min_distance_points ∧
    pr.1.max_num_points_in_voxel = (node.findInt "max_num_points_in_voxel").getD init.max_num_points_in_voxel ∧
    pr.1.size_voxel_map = (node.findRat "size_voxel_map").getD init.size_voxel_map ∧
    pr.1.voxel_neighborhood = (node.findInt "voxel_neighborhood").getD init.voxel_neighborhood ∧
    pr.1.max_radius_neighborhood = (node.findRat "max_radius_neighborhood").getD init.max_radius_neighborhood ∧
    pr.1.init_num_frames = (node.findInt "init_num_frames").getD init.init_num_frames ∧
    pr.1.init_voxel_size = (node.findRat "init_voxel_size").getD init.init_voxel_size ∧
    pr.1.init_sample_voxel_size = (node.findRat "init_sample_voxel_size").getD init.init_sample_voxel_size ∧
    pr.1.log_to_file = (node.findBool "log_to_file").getD init.log_to_file ∧
    pr.1.log_file_destination = (node.findStr "log_file_destination").getD init.log_file_destination ∧
    pr.1.debug_print = (node.findBool "debug_print").getD init.debug_print ∧
    pr.1.debug_viz = (node.findBool "debug_viz").getD init.debug_viz ∧
    pr.1.do_no_insert = (node.findBool "do_no_insert").getD init.do_no_insert ∧
    pr.1.always_insert = (node.findBool "always_insert").getD init.always_insert ∧
    pr.1.robust_minimal_level = (node.findInt "robust_minimal_level").getD init.robust_minimal_level ∧
    pr.1.robust_registration = (node.findBool "robust_registration").getD init.robust_registration ∧
    pr.1.robust_full_voxel_threshold = (node.findRat "robust_full_voxel_threshold").getD init.robust_full_voxel_threshold ∧
    pr.1.robust_fail_early = (node.findBool "robust_fail_early").getD init.robust_fail_early ∧
    pr.1.robust_num_attempts = (node.findInt "robust_num_attempts").getD init.robust_num_attempts ∧
    pr.1.robust_max_voxel_neighborhood = (node.findInt "robust_max_voxel_neighborhood").getD init.robust_max_voxel_neighborhood ∧
    pr.1.robust_threshold_relative_orientation = (node.findRat "robust_threshold_relative_orientation").getD init.robust_threshold_relative_orientation ∧
    pr.1.robust_threshold_ego_orientation = (node.findRat "robust_threshold_ego_orientation").getD init.robust_threshold_ego_orientation ∧
    pr.1.motion_compensation = ((node.findStr "motion_compensation").bind motionCompensationOfTag).getD init.motion_compensation ∧
    pr.1.sampling = ((node.findStr "sampling").bind samplingOfTag).getD init.sampling ∧
    pr.1.initialization = ((node.findStr "initialization").bind initializationOfTag).getD init.initialization ∧
    pr.1.map_options = yaml_to_map_options ((node.find "map_options").getD node) ∧
    pr.2 = mapOptionsWarning node ++ strategyWarnings node init.neighborhood_strategy := by
  unfold yaml_to_odometry_options_from at h
  obtain ⟨o1, h1, h⟩ := bind_ok h
  obtain ⟨o2, h2, h⟩ := bind_ok h
  obtain ⟨o3, h3, h⟩ := bind_ok h
  obtain ⟨o4, h4, h⟩ := bind_ok h
  obtain ⟨o5, h5, h⟩ := bind_ok h
  obtain ⟨o6, h6, h⟩ := bind_ok h
  obtain ⟨p, h7, h⟩ := bind_ok h
  obtain ⟨o8, h8, h⟩ := bind_ok h
  obtain ⟨o9, h9, h⟩ := bind_ok h
  obtain ⟨o10, h10, h⟩ := bind_ok h
  obtain ⟨o11, h11, h⟩ := bind_ok h
  obtain ⟨o12, h12, h⟩ := bind_ok h
  obtain ⟨o13, h13, h⟩ := bind_ok h
  obtain ⟨o14, h14, h⟩ := bind_ok h
  obtain ⟨o15, h15, h⟩ := bind_ok h
  obtain ⟨o16, h16, h⟩ := bind_ok h
  obtain ⟨o17, h17, h⟩ := bind_ok h
  obtain ⟨o18, h18, h⟩ := bind_ok h
  obtain ⟨o19, h19, h⟩ := bind_ok h
  obtain ⟨o20, h20, h⟩ := bind_ok h
  obtain ⟨o21, h21, h⟩ := bind_ok h
  obtain ⟨o22, h22, h⟩ := bind_ok h
  obtain ⟨o23, h23, h⟩ := bind_ok h
  obtain ⟨o24, h24, h⟩ := bind_ok h
  obtain ⟨o25, h25, h⟩ := bind_ok h
  obtain ⟨o26, h26, h⟩ := bind_ok h
  obtain ⟨o27, h27, h⟩ := bind_ok h
  obtain ⟨o28, h28, h⟩ := bind_ok h
  obtain ⟨o29, h29, h⟩ := bind_ok h
  obtain ⟨o30, h30, h⟩ := bind_ok h
  obtain ⟨o31, h31, h⟩ := bind_ok h
  obtain ⟨o32, h32, h⟩ := bind_ok h
  obtain ⟨o33, h33, h⟩ := bind_ok h
  obtain ⟨o34, h34, h⟩ := bind_ok h
  have hr := pure_ok h
  subst hr
  have e1 := ratClause_ok h1
  have e2 := ratClause_ok h2
  have e3 := ratClause_ok h3
  have e4 := ratClause_ok h4
  have e5 := intClause_ok h5
  have e6 := ratClause_ok h6
  have e8 := ratClause_ok h8
  have e9 := intClause_ok h9
  have e10 := ratClause_ok h10
  have e11 := intClause_ok h11
  have e12 := ratClause_ok h12
  have e13 := intClause_ok h13
  have e14 := ratClause_ok h14
  have e15 := ratClause_ok h15
  have e16 := boolClause_ok h16
  have e17 := strClause_ok h17
  have e18 := boolClause_ok h18
  have e19 := boolClause_ok h19
  have e20 := boolClause_ok h20
  have e21 := boolClause_ok h21
  have e22 := intClause_ok h22
  have e23 := boolClause_ok h23
  have e24 := ratClause_ok h24
  have e25 := boolClause_ok h25
  have e26 := intClause_ok h26
  have e27 := intClause_ok h27
  have e28 := ratClause_ok h28
  have e29 := ratClause_ok h29
  have e31 := motionCompensationClause_ok h31
  have e32 := samplingClause_ok h32
  have e33 := initializationClause_ok h33
  refine ⟨?_, ?_, ?_, ?_, ?_, ?_, ?_, ?_, ?_, ?_, ?_, ?_, ?_, ?_, ?_, ?_, ?_, ?_, ?_, ?_, ?_, ?_, ?_, ?_, ?_, ?_, ?_, ?_, ?_, ?_, ?_, ?_, ?_⟩
  · show o34.voxel_size = _
    rw [ctIcpOptionsStep_get OdometryOptions.voxel_size h34 (fun _ => rfl),
        upd_get OdometryOptions.voxel_size e33 (fun _ => rfl),
        upd_get OdometryOptions.voxel_size e32 (fun _ => rfl),
        upd_get OdometryOptions.voxel_size e31 (fun _ => rfl),
        motionModelStep_get OdometryOptions.voxel_size h30 (fun _ => rfl),
        upd_get OdometryOptions.voxel_size e29 (fun _ => rfl),
        upd_get OdometryOptions.voxel_size e28 (fun _ => rfl),
        upd_get OdometryOptions.voxel_size e27 (fun _ => rfl),
        upd_get OdometryOptions.voxel_size e26 (fun _ => rfl),
        upd_get OdometryOptions.voxel_size e25 (fun _ => rfl),
        upd_get OdometryOptions.voxel_size e24 (fun _ => rfl),
        upd_get OdometryOptions.voxel_size e23 (fun _ => rfl),
        upd_get OdometryOptions.voxel_size e22 (fun _ => rfl),
        upd_get OdometryOptions.voxel_size e21 (fun _ => rfl),
        upd_get OdometryOptions.voxel_size e20 (fun _ => rfl),
        upd_get OdometryOptions.voxel_size e19 (fun _ => rfl),
        upd_get OdometryOptions.voxel_size e18 (fun _ => rfl),
        upd_get OdometryOptions.voxel_size e17 (fun _ => rfl),
        upd_get OdometryOptions.voxel_size e16 (fun _ => rfl),
        upd_get OdometryOptions.voxel_size e15 (fun _ => rfl),
        upd_get OdometryOptions.voxel_size e14 (fun _ => rfl),
        upd_get OdometryOptions.voxel_size e13 (fun _ => rfl),
        upd_get OdometryOptions.voxel_size e12 (fun _ => rfl),
        upd_get OdometryOptions.voxel_size e11 (fun _ => rfl),
        upd_get OdometryOptions.voxel_size e10 (fun _ => rfl),
        upd_get OdometryOptions.voxel_size e9 (fun _ => rfl),
        upd_get OdometryOptions.voxel_size e8 (fun _ => rfl),
        strategyStep_get OdometryOptions.voxel_size h7 (fun _ => rfl),
        mapOptionsStep_get OdometryOptions.voxel_size (fun _ => rfl),
        upd_get OdometryOptions.voxel_size e6 (fun _ => rfl),
        upd_get OdometryOptions.voxel_size e5 (fun _ => rfl),
        upd_get OdometryOptions.voxel_size e4 (fun _ => rfl),
        upd_get OdometryOptions.voxel_size e3 (fun _ => rfl),
        upd_get OdometryOptions.voxel_size e2 (fun _ => rfl),
        upd_get_own OdometryOptions.voxel_size e1 (fun _ => rfl)]
  · show o34.max_distance = _
    rw [ctIcpOptionsStep_get OdometryOptions.max_distance h34 (fun _ => rfl),
        upd_get OdometryOptions.max_distance e33 (fun _ => rfl),
        upd_get OdometryOptions.max_distance e32 (fun _ => rfl),
        upd_get OdometryOptions.max_distance e31 (fun _ => rfl),
        motionModelStep_get OdometryOptions.max_distance h30 (fun _ => rfl),
        upd_get OdometryOptions.max_distance e29 (fun _ => rfl),
        upd_get OdometryOptions.max_distance e28 (fun _ => rfl),
        upd_get OdometryOptions.max_distance e27 (fun _ => rfl),
        upd_get OdometryOptions.max_distance e26 (fun _ => rfl),
        upd_get OdometryOptions.max_distance e25 (fun _ => rfl),
        upd_get OdometryOptions.max_distance e24 (fun _ => rfl),
        upd_get OdometryOptions.max_distance e23 (fun _ => rfl),
        upd_get OdometryOptions.max_distance e22 (fun _ => rfl),
        upd_get OdometryOptions.max_distance e21 (fun _ => rfl),
        upd_get OdometryOptions.max_distance e20 (fun _ => rfl),
        upd_get OdometryOptions.max_distance e19 (fun _ => rfl),
        upd_get OdometryOptions.max_distance e18 (fun _ => rfl),
        upd_get OdometryOptions.max_distance e17 (fun _ => rfl),
        upd_get OdometryOptions.max_distance e16 (fun _ => rfl),
        upd_get OdometryOptions.max_distance e15 (fun _ => rfl),
        upd_get OdometryOptions.max_distance e14 (fun _ => rfl),
        upd_get OdometryOptions.max_distance e13 (fun _ => rfl),
        upd_get OdometryOptions.max_distance e12 (fun _ => rfl),
        upd_get OdometryOptions.max_distance e11 (fun _ => rfl),
        upd_get OdometryOptions.max_distance e10 (fun _ => rfl),
        upd_get OdometryOptions.max_distance e9 (fun _ => rfl),
        upd_get OdometryOptions.max_distance e8 (fun _ => rfl),
        strategyStep_get OdometryOptions.max_distance h7 (fun _ => rfl),
        mapOptionsStep_get OdometryOptions.max_distance (fun _ => rfl),
        upd_get OdometryOptions.max_distance e6 (fun _ => rfl),
        upd_get OdometryOptions.max_distance e5 (fun _ => rfl),
        upd_get OdometryOptions.max_distance e4 (fun _ => rfl),
        upd_get OdometryOptions.max_distance e3 (fun _ => rfl),
        upd_get_own OdometryOptions.max_distance e2 (fun _ => rfl),
        upd_get OdometryOptions.max_distance e1 (fun _ => rfl)]
  · show o34.distance_error_threshold = _
    rw [ctIcpOptionsStep_get OdometryOptions.distance_error_threshold h34 (fun _ => rfl),
        upd_get OdometryOptions.distance_error_threshold e33 (fun _ => rfl),
        upd_get OdometryOptions.distance_error_threshold e32 (fun _ => rfl),
        upd_get OdometryOptions.distance_error_threshold e31 (fun _ => rfl),
        motionModelStep_get OdometryOptions.distance_error_threshold h30 (fun _ => rfl),
        upd_get OdometryOptions.distance_error_threshold e29 (fun _ => rfl),
        upd_get OdometryOptions.distance_error_threshold e28 (fun _ => rfl),
        upd_get OdometryOptions.distance_error_threshold e27 (fun _ => rfl),
        upd_get OdometryOptions.distance_error_threshold e26 (fun _ => rfl),
        upd_get OdometryOptions.distance_error_threshold e25 (fun _ => rfl),
        upd_get OdometryOptions.distance_error_threshold e24 (fun _ => rfl),
        upd_get OdometryOptions.distance_error_threshold e23 (fun _ => rfl),
        upd_get OdometryOptions.distance_error_threshold e22 (fun _ => rfl),
        upd_get OdometryOptions.distance_error_threshold e21 (fun _ => rfl),
        upd_get OdometryOptions.distance_error_threshold e20 (fun _ => rfl),
        upd_get OdometryOptions.distance_error_threshold e19 (fun _ => rfl),
        upd_get OdometryOptions.distance_error_threshold e18 (fun _ => rfl),
        upd_get OdometryOptions.distance_error_threshold e17 (fun _ => rfl),
        upd_get OdometryOptions.distance_error_threshold e16 (fun _ => rfl),
        upd_get OdometryOptions.distance_error_threshold e15 (fun _ => rfl),
        upd_get OdometryOptions.distance_error_threshold e14 (fun _ => rfl),
        upd_get OdometryOptions.distance_error_threshold e13 (fun _ => rfl),
        upd_get OdometryOptions.distance_error_threshold e12 (fun _ => rfl),
        upd_get OdometryOptions.distance_error_threshold e11 (fun _ => rfl),
        upd_get OdometryOptions.distance_error_threshold e10 (fun _ => rfl),
        upd_get OdometryOptions.distance_error_threshold e9 (fun _ => rfl),
        upd_get OdometryOptions.distance_error_threshold e8 (fun _ => rfl),
        strategyStep_get OdometryOptions.distance_error_threshold h7 (fun _ => rfl),
        mapOptionsStep_get OdometryOptions.distance_error_threshold (fun _ => rfl),
        upd_get OdometryOptions.distance_error_threshold e6 (fun _ => rfl),
        upd_get OdometryOptions.distance_error_threshold e5 (fun _ => rfl),
        upd_get OdometryOptions.distance_error_threshold e4 (fun _ => rfl),
        upd_get_own OdometryOptions.distance_error_threshold e3 (fun _ => rfl),
        upd_get OdometryOptions.distance_error_threshold e2 (fun _ => rfl),
        upd_get OdometryOptions.distance_error_threshold e1 (fun _ => rfl)]
  · show o34.orientation_error_threshold = _
    rw [ctIcpOptionsStep_get OdometryOptions.orientation_error_threshold h34 (fun _ => rfl),
        upd_get OdometryOptions.orientation_error_threshold e33 (fun _ => rfl),
        upd_get OdometryOptions.orientation_error_threshold e32 (fun _ => rfl),
        upd_get OdometryOptions.orientation_error_threshold e31 (fun _ => rfl),
        motionModelStep_get OdometryOptions.orientation_error_threshold h30 (fun _ => rfl),
        upd_get OdometryOptions.orientation_error_threshold e29 (fun _ => rfl),
        upd_get OdometryOptions.orientation_error_threshold e28 (fun _ => rfl),
        upd_get OdometryOptions.orientation_error_threshold e27 (fun _ => rfl),
        upd_get OdometryOptions.orientation_error_threshold e26 (fun _ => rfl),
        upd_get OdometryOptions.orientation_error_threshold e25 (fun _ => rfl),
        upd_get OdometryOptions.orientation_error_threshold e24 (fun _ => rfl),
        upd_get OdometryOptions.orientation_error_threshold e23 (fun _ => rfl),
        upd_get OdometryOptions.orientation_error_threshold e22 (fun _ => rfl),
        upd_get OdometryOptions.orientation_error_threshold e21 (fun _ => rfl),
        upd_get OdometryOptions.orientation_error_threshold e20 (fun _ => rfl),
        upd_get OdometryOptions.orientation_error_threshold e19 (fun _ => rfl),
        upd_get OdometryOptions.orientation_error_threshold e18 (fun _ => rfl),
        upd_get OdometryOptions.orientation_error_threshold e17 (fun _ => rfl),
        upd_get OdometryOptions.orientation_error_threshold e16 (fun _ => rfl),
        upd_get OdometryOptions.orientation_error_threshold e15 (fun _ => rfl),
        upd_get OdometryOptions.orientation_error_threshold e14 (fun _ => rfl),
        upd_get OdometryOptions.orientation_error_threshold e13 (fun _ => rfl),
        upd_get OdometryOptions.orientation_error_threshold e12 (fun _ => rfl),
        upd_get OdometryOptions.orientation_error_threshold e11 (fun _ => rfl),
        upd_get OdometryOptions.orientation_error_threshold e10 (fun _ => rfl),
        upd_get OdometryOptions.orientation_error_threshold e9 (fun _ => rfl),
        upd_get OdometryOptions.orientation_error_threshold e8 (fun _ => rfl),
        strategyStep_get OdometryOptions.orientation_error_threshold h7 (fun _ => rfl),
        mapOptionsStep_get OdometryOptions.orientation_error_threshold (fun _ => rfl),
        upd_get OdometryOptions.orientation_error_threshold e6 (fun _ => rfl),
        upd_get OdometryOptions.orientation_error_threshold e5 (fun _ => rfl),
        upd_get_own OdometryOptions.orientation_error_threshold e4 (fun _ => rfl),
        upd_get OdometryOptions.orientation_error_threshold e3 (fun _ => rfl),
        upd_get OdometryOptions.orientation_error_threshold e2 (fun _ => rfl),
        upd_get OdometryOptions.orientation_error_threshold e1 (fun _ => rfl)]
  · show o34.max_num_keypoints = _
    rw [ctIcpOptionsStep_get OdometryOptions.max_num_keypoints h34 (fun _ => rfl),
        upd_get OdometryOptions.max_num_keypoints e33 (fun _ => rfl),
        upd_get OdometryOptions.max_num_keypoints e32 (fun _ => rfl),
        upd_get OdometryOptions.max_num_keypoints e31 (fun _ => rfl),
        motionModelStep_get OdometryOptions.max_num_keypoints h30 (fun _ => rfl),
        upd_get OdometryOptions.max_num_keypoints e29 (fun _ => rfl),
        upd_get OdometryOptions.max_num_keypoints e28 (fun _ => rfl),
        upd_get OdometryOptions.max_num_keypoints e27 (fun _ => rfl),
        upd_get OdometryOptions.max_num_keypoints e26 (fun _ => rfl),
        upd_get OdometryOptions.max_num_keypoints e25 (fun _ => rfl),
        upd_get OdometryOptions.max_num_keypoints e24 (fun _ => rfl),
        upd_get OdometryOptions.max_num_keypoints e23 (fun _ => rfl),
        upd_get OdometryOptions.max_num_keypoints e22 (fun _ => rfl),
        upd_get OdometryOptions.max_num_keypoints e21 (fun _ => rfl),
        upd_get OdometryOptions.max_num_keypoints e20 (fun _ => rfl),
        upd_get OdometryOptions.max_num_keypoints e19 (fun _ => rfl),
        upd_get OdometryOptions.max_num_keypoints e18 (fun _ => rfl),
        upd_get OdometryOptions.max_num_keypoints e17 (fun _ => rfl),
        upd_get OdometryOptions.max_num_keypoints e16 (fun _ => rfl),
        upd_get OdometryOptions.max_num_keypoints e15 (fun _ => rfl),
        upd_get OdometryOptions.max_num_keypoints e14 (fun _ => rfl),
        upd_get OdometryOptions.max_num_keypoints e13 (fun _ => rfl),
        upd_get OdometryOptions.max_num_keypoints e12 (fun _ => rfl),
        upd_get OdometryOptions.max_num_keypoints e11 (fun _ => rfl),
        upd_get OdometryOptions.max_num_keypoints e10 (fun _ => rfl),
        upd_get OdometryOptions.max_num_keypoints e9 (fun _ => rfl),
        upd_get OdometryOptions.max_num_keypoints e8 (fun _ => rfl),
        strategyStep_get OdometryOptions.max_num_keypoints h7 (fun _ => rfl),
        mapOptionsStep_get OdometryOptions.max_num_keypoints (fun _ => rfl),
        upd_get OdometryOptions.max_num_keypoints e6 (fun _ => rfl),
        upd_get_own OdometryOptions.max_num_keypoints e5 (fun _ => rfl),
        upd_get OdometryOptions.max_num_keypoints e4 (fun _ => rfl),
        upd_get OdometryOptions.max_num_keypoints e3 (fun _ => rfl),
        upd_get OdometryOptions.max_num_keypoints e2 (fun _ => rfl),
        upd_get OdometryOptions.max_num_keypoints e1 (fun _ => rfl)]
  · show o34.sample_voxel_size = _
    rw [ctIcpOptionsStep_get OdometryOptions.sample_voxel_size h34 (fun _ => rfl),
        upd_get OdometryOptions.sample_voxel_size e33 (fun _ => rfl),
        upd_get OdometryOptions.sample_voxel_size e32 (fun _ => rfl),
        upd_get OdometryOptions.sample_voxel_size e31 (fun _ => rfl),
        motionModelStep_get OdometryOptions.sample_voxel_size h30 (fun _ => rfl),
        upd_get OdometryOptions.sample_voxel_size e29 (fun _ => rfl),
        upd_get OdometryOptions.sample_voxel_size e28 (fun _ => rfl),
        upd_get OdometryOptions.sample_voxel_size e27 (fun _ => rfl),
        upd_get OdometryOptions.sample_voxel_size e26 (fun _ => rfl),
        upd_get OdometryOptions.sample_voxel_size e25 (fun _ => rfl),
        upd_get OdometryOptions.sample_voxel_size e24 (fun _ => rfl),
        upd_get OdometryOptions.sample_voxel_size e23 (fun _ => rfl),
        upd_get OdometryOptions.sample_voxel_size e22 (fun _ => rfl),
        upd_get OdometryOptions.sample_voxel_size e21 (fun _ => rfl),
        upd_get OdometryOptions.sample_voxel_size e20 (fun _ => rfl),
        upd_get OdometryOptions.sample_voxel_size e19 (fun _ => rfl),
        upd_get OdometryOptions.sample_voxel_size e18 (fun _ => rfl),
        upd_get OdometryOptions.sample_voxel_size e17 (fun _ => rfl),
        upd_get OdometryOptions.sample_voxel_size e16 (fun _ => rfl),
        upd_get OdometryOptions.sample_voxel_size e15 (fun _ => rfl),
        upd_get OdometryOptions.sample_voxel_size e14 (fun _ => rfl),
        upd_get OdometryOptions.sample_voxel_size e13 (fun _ => rfl),
        upd_get OdometryOptions.sample_voxel_size e12 (fun _ => rfl),
        upd_get OdometryOptions.sample_voxel_size e11 (fun _ => rfl),
        upd_get OdometryOptions.sample_voxel_size e10 (fun _ => rfl),
        upd_get OdometryOptions.sample_voxel_size e9 (fun _ => rfl),
        upd_get OdometryOptions.sample_voxel_size e8 (fun _ => rfl),
        strategyStep_get OdometryOptions.sample_voxel_size h7 (fun _ => rfl),
        mapOptionsStep_get OdometryOptions.sample_voxel_size (fun _ => rfl),
        upd_get_own OdometryOptions.sample_voxel_size e6 (fun _ => rfl),
        upd_get OdometryOptions.sample_voxel_size e5 (fun _ => rfl),
        upd_get OdometryOptions.sample_voxel_size e4 (fun _ => rfl),
        upd_get OdometryOptions.sample_voxel_size e3 (fun _ => rfl),
        upd_get OdometryOptions.sample_voxel_size e2 (fun _ => rfl),
        upd_get OdometryOptions.sample_voxel_size e1 (fun _ => rfl)]
  · show o34.min_distance_points = _
    rw [ctIcpOptionsStep_get OdometryOptions.min_distance_points h34 (fun _ => rfl),
        upd_get OdometryOptions.min_distance_points e33 (fun _ => rfl),
        upd_get OdometryOptions.min_distance_points e32 (fun _ => rfl),
        upd_get OdometryOptions.min_distance_points e31 (fun _ => rfl),
        motionModelStep_get OdometryOptions.min_distance_points h30 (fun _ => rfl),
        upd_get OdometryOptions.min_distance_points e29 (fun _ => rfl),
        upd_get OdometryOptions.min_distance_points e28 (fun _ => rfl),
        upd_get OdometryOptions.min_distance_points e27 (fun _ => rfl),
        upd_get OdometryOptions.min_distance_points e26 (fun _ => rfl),
        upd_get OdometryOptions.min_distance_points e25 (fun _ => rfl),
        upd_get OdometryOptions.min_distance_points e24 (fun _ => rfl),
        upd_get OdometryOptions.min_distance_points e23 (fun _ => rfl),
        upd_get OdometryOptions.min_distance_points e22 (fun _ => rfl),
        upd_get OdometryOptions.min_distance_points e21 (fun _ => rfl),
        upd_get OdometryOptions.min_distance_points e20 (fun _ => rfl),
        upd_get OdometryOptions.min_distance_points e19 (fun _ => rfl),
        upd_get OdometryOptions.min_distance_points e18 (fun _ => rfl),
        upd_get OdometryOptions.min_distance_points e17 (fun _ => rfl),
        upd_get OdometryOptions.min_distance_points e16 (fun _ => rfl),
        upd_get OdometryOptions.min_distance_points e15 (fun _ => rfl),
        upd_get OdometryOptions.min_distance_points e14 (fun _ => rfl),
        upd_get OdometryOptions.min_distance_points e13 (fun _ => rfl),
        upd_get OdometryOptions.min_distance_points e12 (fun _ => rfl),
        upd_get OdometryOptions.min_distance_points e11 (fun _ => rfl),
        upd_get OdometryOptions.min_distance_points e10 (fun _ => rfl),
        upd_get OdometryOptions.min_distance_points e9 (fun _ => rfl),
        upd_get_own OdometryOptions.min_distance_points e8 (fun _ => rfl),
        strategyStep_get OdometryOptions.min_distance_points h7 (fun _ => rfl),
        mapOptionsStep_get OdometryOptions.min_distance_points (fun _ => rfl),
        upd_get OdometryOptions.min_distance_points e6 (fun _ => rfl),
        upd_get OdometryOptions.min_distance_points e5 (fun _ => rfl),
        upd_get OdometryOptions.min_distance_points e4 (fun _ => rfl),
        upd_get OdometryOptions.min_distance_points e3 (fun _ => rfl),
        upd_get OdometryOptions.min_distance_points e2 (fun _ => rfl),
        upd_get OdometryOptions.min_distance_points e1 (fun _ => rfl)]
  · show o34.max_num_points_in_voxel = _
    rw [ctIcpOptionsStep_get OdometryOptions.max_num_points_in_voxel h34 (fun _ => rfl),
        upd_get OdometryOptions.max_num_points_in_voxel e33 (fun _ => rfl),
        upd_get OdometryOptions.max_num_points_in_voxel e32 (fun _ => rfl),
        upd_get OdometryOptions.max_num_points_in_voxel e31 (fun _ => rfl),
        motionModelStep_get OdometryOptions.max_num_points_in_voxel h30 (fun _ => rfl),
        upd_get OdometryOptions.max_num_points_in_voxel e29 (fun _ => rfl),
        upd_get OdometryOptions.max_num_points_in_voxel e28 (fun _ => rfl),
        upd_get OdometryOptions.max_num_points_in_voxel e27 (fun _ => rfl),
        upd_get OdometryOptions.max_num_points_in_voxel e26 (fun _ => rfl),
        upd_get OdometryOptions.max_num_points_in_voxel e25 (fun _ => rfl),
        upd_get OdometryOptions.max_num_points_in_voxel e24 (fun _ => rfl),
        upd_get OdometryOptions.max_num_points_in_voxel e23 (fun _ => rfl),
        upd_get OdometryOptions.max_num_points_in_voxel e22 (fun _ => rfl),
        upd_get OdometryOptions.max_num_points_in_voxel e21 (fun _ => rfl),
        upd_get OdometryOptions.max_num_points_in_voxel e20 (fun _ => rfl),
        upd_get OdometryOptions.max_num_points_in_voxel e19 (fun _ => rfl),
        upd_get OdometryOptions.max_num_points_in_voxel e18 (fun _ => rfl),
        upd_get OdometryOptions.max_num_points_in_voxel e17 (fun _ => rfl),
        upd_get OdometryOptions.max_num_points_in_voxel e16 (fun _ => rfl),
        upd_get OdometryOptions.max_num_points_in_voxel e15 (fun _ => rfl),
        upd_get OdometryOptions.max_num_points_in_voxel e14 (fun _ => rfl),
        upd_get OdometryOptions.max_num_points_in_voxel e13 (fun _ => rfl),
        upd_get OdometryOptions.max_num_points_in_voxel e12 (fun _ => rfl),
        upd_get OdometryOptions.max_num_points_in_voxel e11 (fun _ => rfl),
        upd_get OdometryOptions.max_num_points_in_voxel e10 (fun _ => rfl),
        upd_get_own OdometryOptions.max_num_points_in_voxel e9 (fun _ => rfl),
        upd_get OdometryOptions.max_num_points_in_voxel e8 (fun _ => rfl),
        strategyStep_get OdometryOptions.max_num_points_in_voxel h7 (fun _ => rfl),
        mapOptionsStep_get OdometryOptions.max_num_points_in_voxel (fun _ => rfl),
        upd_get OdometryOptions.max_num_points_in_voxel e6 (fun _ => rfl),
        upd_get OdometryOptions.max_num_points_in_voxel e5 (fun _ => rfl),
        upd_get OdometryOptions.max_num_points_in_voxel e4 (fun _ => rfl),
        upd_get OdometryOptions.max_num_points_in_voxel e3 (fun _ => rfl),
        upd_get OdometryOptions.max_num_points_in_voxel e2 (fun _ => rfl),
        upd_get OdometryOptions.max_num_points_in_voxel e1 (fun _ => rfl)]
  · show o34.size_voxel_map = _
    rw [ctIcpOptionsStep_get OdometryOptions.size_voxel_map h34 (fun _ => rfl),
        upd_get OdometryOptions.size_voxel_map e33 (fun _ => rfl),
        upd_get OdometryOptions.size_voxel_map e32 (fun _ => rfl),
        upd_get OdometryOptions.size_voxel_map e31 (fun _ => rfl),
        motionModelStep_get OdometryOptions.size_voxel_map h30 (fun _ => rfl),
        upd_get OdometryOptions.size_voxel_map e29 (fun _ => rfl),
        upd_get OdometryOptions.size_voxel_map e28 (fun _ => rfl),
        upd_get OdometryOptions.size_voxel_map e27 (fun _ => rfl),
        upd_get OdometryOptions.size_voxel_map e26 (fun _ => rfl),
        upd_get OdometryOptions.size_voxel_map e25 (fun _ => rfl),
        upd_get OdometryOptions.size_voxel_map e24 (fun _ => rfl),
        upd_get OdometryOptions.size_voxel_map e23 (fun _ => rfl),
        upd_get OdometryOptions.size_voxel_map e22 (fun _ => rfl),
        upd_get OdometryOptions.size_voxel_map e21 (fun _ => rfl),
        upd_get OdometryOptions.size_voxel_map e20 (fun _ => rfl),
        upd_get OdometryOptions.size_voxel_map e19 (fun _ => rfl),
        upd_get OdometryOptions.size_voxel_map e18 (fun _ => rfl),
        upd_get OdometryOptions.size_voxel_map e17 (fun _ => rfl),
        upd_get OdometryOptions.size_voxel_map e16 (fun _ => rfl),
        upd_get OdometryOptions.size_voxel_map e15 (fun _ => rfl),
        upd_get OdometryOptions.size_voxel_map e14 (fun _ => rfl),
        upd_get OdometryOptions.size_voxel_map e13 (fun _ => rfl),
        upd_get OdometryOptions.size_voxel_map e12 (fun _ => rfl),
        upd_get OdometryOptions.size_voxel_map e11 (fun _ => rfl),
        upd_get_own OdometryOptions.size_voxel_map e10 (fun _ => rfl),
        upd_get OdometryOptions.size_voxel_map e9 (fun _ => rfl),
        upd_get OdometryOptions.size_voxel_map e8 (fun _ => rfl),
        strategyStep_get OdometryOptions.size_voxel_map h7 (fun _ => rfl),
        mapOptionsStep_get OdometryOptions.size_voxel_map (fun _ => rfl),
        upd_get OdometryOptions.size_voxel_map e6 (fun _ => rfl),
        upd_get OdometryOptions.size_voxel_map e5 (fun _ => rfl),
        upd_get OdometryOptions.size_voxel_map e4 (fun _ => rfl),
        upd_get OdometryOptions.size_voxel_map e3 (fun _ => rfl),
        upd_get OdometryOptions.size_voxel_map e2 (fun _ => rfl),
        upd_get OdometryOptions.size_voxel_map e1 (fun _ => rfl)]
  · show o34.voxel_neighborhood = _
    rw [ctIcpOptionsStep_get OdometryOptions.voxel_neighborhood h34 (fun _ => rfl),
        upd_get OdometryOptions.voxel_neighborhood e33 (fun _ => rfl),
        upd_get OdometryOptions.voxel_neighborhood e32 (fun _ => rfl),
        upd_get OdometryOptions.voxel_neighborhood e31 (fun _ => rfl),
        motionModelStep_get OdometryOptions.voxel_neighborhood h30 (fun _ => rfl),
        upd_get OdometryOptions.voxel_neighborhood e29 (fun _ => rfl),
        upd_get OdometryOptions.voxel_neighborhood e28 (fun _ => rfl),
        upd_get OdometryOptions.voxel_neighborhood e27 (fun _ => rfl),
        upd_get OdometryOptions.voxel_neighborhood e26 (fun _ => rfl),
        upd_get OdometryOptions.voxel_neighborhood e25 (fun _ => rfl),
        upd_get OdometryOptions.voxel_neighborhood e24 (fun _ => rfl),
        upd_get OdometryOptions.voxel_neighborhood e23 (fun _ => rfl),
        upd_get OdometryOptions.voxel_neighborhood e22 (fun _ => rfl),
        upd_get OdometryOptions.voxel_neighborhood e21 (fun _ => rfl),
        upd_get OdometryOptions.voxel_neighborhood e20 (fun _ => rfl),
        upd_get OdometryOptions.voxel_neighborhood e19 (fun _ => rfl),
        upd_get OdometryOptions.voxel_neighborhood e18 (fun _ => rfl),
        upd_get OdometryOptions.voxel_neighborhood e17 (fun _ => rfl),
        upd_get OdometryOptions.voxel_neighborhood e16 (fun _ => rfl),
        upd_get OdometryOptions.voxel_neighborhood e15 (fun _ => rfl),
        upd_get OdometryOptions.voxel_neighborhood e14 (fun _ => rfl),
        upd_get OdometryOptions.voxel_neighborhood e13 (fun _ => rfl),
        upd_get OdometryOptions.voxel_neighborhood e12 (fun _ => rfl),
        upd_get_own OdometryOptions.voxel_neighborhood e11 (fun _ => rfl),
        upd_get OdometryOptions.voxel_neighborhood e10 (fun _ => rfl),
        upd_get OdometryOptions.voxel_neighborhood e9 (fun _ => rfl),
        upd_get OdometryOptions.voxel_neighborhood e8 (fun _ => rfl),
        strategyStep_get OdometryOptions.voxel_neighborhood h7 (fun _ => rfl),
        mapOptionsStep_get OdometryOptions.voxel_neighborhood (fun _ => rfl),
        upd_get OdometryOptions.voxel_neighborhood e6 (fun _ => rfl),
        upd_get OdometryOptions.voxel_neighborhood e5 (fun _ => rfl),
        upd_get OdometryOptions.voxel_neighborhood e4 (fun _ => rfl),
        upd_get OdometryOptions.voxel_neighborhood e3 (fun _ => rfl),
        upd_get OdometryOptions.voxel_neighborhood e2 (fun _ => rfl),
        upd_get OdometryOptions.voxel_neighborhood e1 (fun _ => rfl)]
  · show o34.max_radius_neighborhood = _
    rw [ctIcpOptionsStep_get OdometryOptions.max_radius_neighborhood h34 (fun _ => rfl),
        upd_get OdometryOptions.max_radius_neighborhood e33 (fun _ => rfl),
        upd_get OdometryOptions.max_radius_neighborhood e32 (fun _ => rfl),
        upd_get OdometryOptions.max_radius_neighborhood e31 (fun _ => rfl),
        motionModelStep_get OdometryOptions.max_radius_neighborhood h30 (fun _ => rfl),
        upd_get OdometryOptions.max_radius_neighborhood e29 (fun _ => rfl),
        upd_get OdometryOptions.max_radius_neighborhood e28 (fun _ => rfl),
        upd_get OdometryOptions.max_radius_neighborhood e27 (fun _ => rfl),
        upd_get OdometryOptions.max_radius_neighborhood e26 (fun _ => rfl),
        upd_get OdometryOptions.max_radius_neighborhood e25 (fun _ => rfl),
        upd_get OdometryOptions.max_radius_neighborhood e24 (fun _ => rfl),
        upd_get OdometryOptions.max_radius_neighborhood e23 (fun _ => rfl),
        upd_get OdometryOptions.max_radius_neighborhood e22 (fun _ => rfl),
        upd_get OdometryOptions.max_radius_neighborhood e21 (fun _ => rfl),
        upd_get OdometryOptions.max_radius_neighborhood e20 (fun _ => rfl),
        upd_get OdometryOptions.max_radius_neighborhood e19 (fun _ => rfl),
        upd_get OdometryOptions.max_radius_neighborhood e18 (fun _ => rfl),
        upd_get OdometryOptions.max_radius_neighborhood e17 (fun _ => rfl),
        upd_get OdometryOptions.max_radius_neighborhood e16 (fun _ => rfl),
        upd_get OdometryOptions.max_radius_neighborhood e15 (fun _ => rfl),
        upd_get OdometryOptions.max_radius_neighborhood e14 (fun _ => rfl),
        upd_get OdometryOptions.max_radius_neighborhood e13 (fun _ => rfl),
        upd_get_own OdometryOptions.max_radius_neighborhood e12 (fun _ => rfl),
        upd_get OdometryOptions.max_radius_neighborhood e11 (fun _ => rfl),
        upd_get OdometryOptions.max_radius_neighborhood e10 (fun _ => rfl),
        upd_get OdometryOptions.max_radius_neighborhood e9 (fun _ => rfl),
        upd_get OdometryOptions.max_radius_neighborhood e8 (fun _ => rfl),
        strategyStep_get OdometryOptions.max_radius_neighborhood h7 (fun _ => rfl),
        mapOptionsStep_get OdometryOptions.max_radius_neighborhood (fun _ => rfl),
        upd_get OdometryOptions.max_radius_neighborhood e6 (fun _ => rfl),
        upd_get OdometryOptions.max_radius_neighborhood e5 (fun _ => rfl),
        upd_get OdometryOptions.max_radius_neighborhood e4 (fun _ => rfl),
        upd_get OdometryOptions.max_radius_neighborhood e3 (fun _ => rfl),
        upd_get OdometryOptions.max_radius_neighborhood e2 (fun _ => rfl),
        upd_get OdometryOptions.max_radius_neighborhood e1 (fun _ => rfl)]
  · show o34.init_num_frames = _
    rw [ctIcpOptionsStep_get OdometryOptions.init_num_frames h34 (fun _ => rfl),
        upd_get OdometryOptions.init_num_frames e33 (fun _ => rfl),
        upd_get OdometryOptions.init_num_frames e32 (fun _ => rfl),
        upd_get OdometryOptions.init_num_frames e31 (fun _ => rfl),
        motionModelStep_get OdometryOptions.init_num_frames h30 (fun _ => rfl),
        upd_get OdometryOptions.init_num_frames e29 (fun _ => rfl),
        upd_get OdometryOptions.init_num_frames e28 (fun _ => rfl),
        upd_get OdometryOptions.init_num_frames e27 (fun _ => rfl),
        upd_get OdometryOptions.init_num_frames e26 (fun _ => rfl),
        upd_get OdometryOptions.init_num_frames e25 (fun _ => rfl),
        upd_get OdometryOptions.init_num_frames e24 (fun _ => rfl),
        upd_get OdometryOptions.init_num_frames e23 (fun _ => rfl),
        upd_get OdometryOptions.init_num_frames e22 (fun _ => rfl),
        upd_get OdometryOptions.init_num_frames e21 (fun _ => rfl),
        upd_get OdometryOptions.init_num_frames e20 (fun _ => rfl),
        upd_get OdometryOptions.init_num_frames e19 (fun _ => rfl),
        upd_get OdometryOptions.init_num_frames e18 (fun _ => rfl),
        upd_get OdometryOptions.init_num_frames e17 (fun _ => rfl),
        upd_get OdometryOptions.init_num_frames e16 (fun _ => rfl),
        upd_get OdometryOptions.init_num_frames e15 (fun _ => rfl),
        upd_get OdometryOptions.init_num_frames e14 (fun _ => rfl),
        upd_get_own OdometryOptions.init_num_frames e13 (fun _ => rfl),
        upd_get OdometryOptions.init_num_frames e12 (fun _ => rfl),
        upd_get OdometryOptions.init_num_frames e11 (fun _ => rfl),
        upd_get OdometryOptions.init_num_frames e10 (fun _ => rfl),
        upd_get OdometryOptions.init_num_frames e9 (fun _ => rfl),
        upd_get OdometryOptions.init_num_frames e8 (fun _ => rfl),
        strategyStep_get OdometryOptions.init_num_frames h7 (fun _ => rfl),
        mapOptionsStep_get OdometryOptions.init_num_frames (fun _ => rfl),
        upd_get OdometryOptions.init_num_frames e6 (fun _ => rfl),
        upd_get OdometryOptions.init_num_frames e5 (fun _ => rfl),
        upd_get OdometryOptions.init_num_frames e4 (fun _ => rfl),
        upd_get OdometryOptions.init_num_frames e3 (fun _ => rfl),
        upd_get OdometryOptions.init_num_frames e2 (fun _ => rfl),
        upd_get OdometryOptions.init_num_frames e1 (fun _ => rfl)]
  · show o34.init_voxel_size = _
    rw [ctIcpOptionsStep_get OdometryOptions.init_voxel_size h34 (fun _ => rfl),
        upd_get OdometryOptions.init_voxel_size e33 (fun _ => rfl),
        upd_get OdometryOptions.init_voxel_size e32 (fun _ => rfl),
        upd_get OdometryOptions.init_voxel_size e31 (fun _ => rfl),
        motionModelStep_get OdometryOptions.init_voxel_size h30 (fun _ => rfl),
        upd_get OdometryOptions.init_voxel_size e29 (fun _ => rfl),
        upd_get OdometryOptions.init_voxel_size e28 (fun _ => rfl),
        upd_get OdometryOptions.init_voxel_size e27 (fun _ => rfl),
        upd_get OdometryOptions.init_voxel_size e26 (fun _ => rfl),
        upd_get OdometryOptions.init_voxel_size e25 (fun _ => rfl),
        upd_get OdometryOptions.init_voxel_size e24 (fun _ => rfl),
        upd_get OdometryOptions.init_voxel_size e23 (fun _ => rfl),
        upd_get OdometryOptions.init_voxel_size e22 (fun _ => rfl),
        upd_get OdometryOptions.init_voxel_size e21 (fun _ => rfl),
        upd_get OdometryOptions.init_voxel_size e20 (fun _ => rfl),
        upd_get OdometryOptions.init_voxel_size e19 (fun _ => rfl),
        upd_get OdometryOptions.init_voxel_size e18 (fun _ => rfl),
        upd_get OdometryOptions.init_voxel_size e17 (fun _ => rfl),
        upd_get OdometryOptions.init_voxel_size e16 (fun _ => rfl),
        upd_get OdometryOptions.init_voxel_size e15 (fun _ => rfl),
        upd_get_own OdometryOptions.init_voxel_size e14 (fun _ => rfl),
        upd_get OdometryOptions.init_voxel_size e13 (fun _ => rfl),
        upd_get OdometryOptions.init_voxel_size e12 (fun _ => rfl),
        upd_get OdometryOptions.init_voxel_size e11 (fun _ => rfl),
        upd_get OdometryOptions.init_voxel_size e10 (fun _ => rfl),
        upd_get OdometryOptions.init_voxel_size e9 (fun _ => rfl),
        upd_get OdometryOptions.init_voxel_size e8 (fun _ => rfl),
        strategyStep_get OdometryOptions.init_voxel_size h7 (fun _ => rfl),
        mapOptionsStep_get OdometryOptions.init_voxel_size (fun _ => rfl),
        upd_get OdometryOptions.init_voxel_size e6 (fun _ => rfl),
        upd_get OdometryOptions.init_voxel_size e5 (fun _ => rfl),
        upd_get OdometryOptions.init_voxel_size e4 (fun _ => rfl),
        upd_get OdometryOptions.init_voxel_size e3 (fun _ => rfl),
        upd_get OdometryOptions.init_voxel_size e2 (fun _ => rfl),
        upd_get OdometryOptions.init_voxel_size e1 (fun _ => rfl)]
  · show o34.init_sample_voxel_size = _
    rw [ctIcpOptionsStep_get OdometryOptions.init_sample_voxel_size h34 (fun _ => rfl),
        upd_get OdometryOptions.init_sample_voxel_size e33 (fun _ => rfl),
        upd_get OdometryOptions.init_sample_voxel_size e32 (fun _ => rfl),
        upd_get OdometryOptions.init_sample_voxel_size e31 (fun _ => rfl),
        motionModelStep_get OdometryOptions.init_sample_voxel_size h30 (fun _ => rfl),
        upd_get OdometryOptions.init_sample_voxel_size e29 (fun _ => rfl),
        upd_get OdometryOptions.init_sample_voxel_size e28 (fun _ => rfl),
        upd_get OdometryOptions.init_sample_voxel_size e27 (fun _ => rfl),
        upd_get OdometryOptions.init_sample_voxel_size e26 (fun _ => rfl),
        upd_get OdometryOptions.init_sample_voxel_size e25 (fun _ => rfl),
        upd_get OdometryOptions.init_sample_voxel_size e24 (fun _ => rfl),
        upd_get OdometryOptions.init_sample_voxel_size e23 (fun _ => rfl),
        upd_get OdometryOptions.init_sample_voxel_size e22 (fun _ => rfl),
        upd_get OdometryOptions.init_sample_voxel_size e21 (fun _ => rfl),
        upd_get OdometryOptions.init_sample_voxel_size e20 (fun _ => rfl),
        upd_get OdometryOptions.init_sample_voxel_size e19 (fun _ => rfl),
        upd_get OdometryOptions.init_sample_voxel_size e18 (fun _ => rfl),
        upd_get OdometryOptions.init_sample_voxel_size e17 (fun _ => rfl),
        upd_get OdometryOptions.init_sample_voxel_size e16 (fun _ => rfl),
        upd_get_own OdometryOptions.init_sample_voxel_size e15 (fun _ => rfl),
        upd_get OdometryOptions.init_sample_voxel_size e14 (fun _ => rfl),
        upd_get OdometryOptions.init_sample_voxel_size e13 (fun _ => rfl),
        upd_get OdometryOptions.init_sample_voxel_size e12 (fun _ => rfl),
        upd_get OdometryOptions.init_sample_voxel_size e11 (fun _ => rfl),
        upd_get OdometryOptions.init_sample_voxel_size e10 (fun _ => rfl),
        upd_get OdometryOptions.init_sample_voxel_size e9 (fun _ => rfl),
        upd_get OdometryOptions.init_sample_voxel_size e8 (fun _ => rfl),
        strategyStep_get OdometryOptions.init_sample_voxel_size h7 (fun _ => rfl),
        mapOptionsStep_get OdometryOptions.init_sample_voxel_size (fun _ => rfl),
        upd_get OdometryOptions.init_sample_voxel_size e6 (fun _ => rfl),
        upd_get OdometryOptions.init_sample_voxel_size e5 (fun _ => rfl),
        upd_get OdometryOptions.init_sample_voxel_size e4 (fun _ => rfl),
        upd_get OdometryOptions.init_sample_voxel_size e3 (fun _ => rfl),
        upd_get OdometryOptions.init_sample_voxel_size e2 (fun _ => rfl),
        upd_get OdometryOptions.init_sample_voxel_size e1 (fun _ => rfl)]
  · show o34.log_to_file = _
    rw [ctIcpOptionsStep_get OdometryOptions.log_to_file h34 (fun _ => rfl),
        upd_get OdometryOptions.log_to_file e33 (fun _ => rfl),
        upd_get OdometryOptions.log_to_file e32 (fun _ => rfl),
        upd_get OdometryOptions.log_to_file e31 (fun _ => rfl),
        motionModelStep_get OdometryOptions.log_to_file h30 (fun _ => rfl),
        upd_get OdometryOptions.log_to_file e29 (fun _ => rfl),
        upd_get OdometryOptions.log_to_file e28 (fun _ => rfl),
        upd_get OdometryOptions.log_to_file e27 (fun _ => rfl),
        upd_get OdometryOptions.log_to_file e26 (fun _ => rfl),
        upd_get OdometryOptions.log_to_file e25 (fun _ => rfl),
        upd_get OdometryOptions.log_to_file e24 (fun _ => rfl),
        upd_get OdometryOptions.log_to_file e23 (fun _ => rfl),
        upd_get OdometryOptions.log_to_file e22 (fun _ => rfl),
        upd_get OdometryOptions.log_to_file e21 (fun _ => rfl),
        upd_get OdometryOptions.log_to_file e20 (fun _ => rfl),
        upd_get OdometryOptions.log_to_file e19 (fun _ => rfl),
        upd_get OdometryOptions.log_to_file e18 (fun _ => rfl),
        upd_get OdometryOptions.log_to_file e17 (fun _ => rfl),
        upd_get_own OdometryOptions.log_to_file e16 (fun _ => rfl),
        upd_get OdometryOptions.log_to_file e15 (fun _ => rfl),
        upd_get OdometryOptions.log_to_file e14 (fun _ => rfl),
        upd_get OdometryOptions.log_to_file e13 (fun _ => rfl),
        upd_get OdometryOptions.log_to_file e12 (fun _ => rfl),
        upd_get OdometryOptions.log_to_file e11 (fun _ => rfl),
        upd_get OdometryOptions.log_to_file e10 (fun _ => rfl),
        upd_get OdometryOptions.log_to_file e9 (fun _ => rfl),
        upd_get OdometryOptions.log_to_file e8 (fun _ => rfl),
        strategyStep_get OdometryOptions.log_to_file h7 (fun _ => rfl),
        mapOptionsStep_get OdometryOptions.log_to_file (fun _ => rfl),
        upd_get OdometryOptions.log_to_file e6 (fun _ => rfl),
        upd_get OdometryOptions.log_to_file e5 (fun _ => rfl),
        upd_get OdometryOptions.log_to_file e4 (fun _ => rfl),
        upd_get OdometryOptions.log_to_file e3 (fun _ => rfl),
        upd_get OdometryOptions.log_to_file e2 (fun _ => rfl),
        upd_get OdometryOptions.log_to_file e1 (fun _ => rfl)]
  · show o34.log_file_destination = _
    rw [ctIcpOptionsStep_get OdometryOptions.log_file_destination h34 (fun _ => rfl),
        upd_get OdometryOptions.log_file_destination e33 (fun _ => rfl),
        upd_get OdometryOptions.log_file_destination e32 (fun _ => rfl),
        upd_get OdometryOptions.log_file_destination e31 (fun _ => rfl),
        motionModelStep_get OdometryOptions.log_file_destination h30 (fun _ => rfl),
        upd_get OdometryOptions.log_file_destination e29 (fun _ => rfl),
        upd_get OdometryOptions.log_file_destination e28 (fun _ => rfl),
        upd_get OdometryOptions.log_file_destination e27 (fun _ => rfl),
        upd_get OdometryOptions.log_file_destination e26 (fun _ => rfl),
        upd_get OdometryOptions.log_file_destination e25 (fun _ => rfl),
        upd_get OdometryOptions.log_file_destination e24 (fun _ => rfl),
        upd_get OdometryOptions.log_file_destination e23 (fun _ => rfl),
        upd_get OdometryOptions.log_file_destination e22 (fun _ => rfl),
        upd_get OdometryOptions.log_file_destination e21 (fun _ => rfl),
        upd_get OdometryOptions.log_file_destination e20 (fun _ => rfl),
        upd_get OdometryOptions.log_file_destination e19 (fun _ => rfl),
        upd_get OdometryOptions.log_file_destination e18 (fun _ => rfl),
        upd_get_own OdometryOptions.log_file_destination e17 (fun _ => rfl),
        upd_get OdometryOptions.log_file_destination e16 (fun _ => rfl),
        upd_get OdometryOptions.log_file_destination e15 (fun _ => rfl),
        upd_get OdometryOptions.log_file_destination e14 (fun _ => rfl),
        upd_get OdometryOptions.log_file_destination e13 (fun _ => rfl),
        upd_get OdometryOptions.log_file_destination e12 (fun _ => rfl),
        upd_get OdometryOptions.log_file_destination e11 (fun _ => rfl),
        upd_get OdometryOptions.log_file_destination e10 (fun _ => rfl),
        upd_get OdometryOptions.log_file_destination e9 (fun _ => rfl),
        upd_get OdometryOptions.log_file_destination e8 (fun _ => rfl),
        strategyStep_get OdometryOptions.log_file_destination h7 (fun _ => rfl),
        mapOptionsStep_get OdometryOptions.log_file_destination (fun _ => rfl),
        upd_get OdometryOptions.log_file_destination e6 (fun _ => rfl),
        upd_get OdometryOptions.log_file_destination e5 (fun _ => rfl),
        upd_get OdometryOptions.log_file_destination e4 (fun _ => rfl),
        upd_get OdometryOptions.log_file_destination e3 (fun _ => rfl),
        upd_get OdometryOptions.log_file_destination e2 (fun _ => rfl),
        upd_get OdometryOptions.log_file_destination e1 (fun _ => rfl)]
  · show o34.debug_print = _
    rw [ctIcpOptionsStep_get OdometryOptions.debug_print h34 (fun _ => rfl),
        upd_get OdometryOptions.debug_print e33 (fun _ => rfl),
        upd_get OdometryOptions.debug_print e32 (fun _ => rfl),
        upd_get OdometryOptions.debug_print e31 (fun _ => rfl),
        motionModelStep_get OdometryOptions.debug_print h30 (fun _ => rfl),
        upd_get OdometryOptions.debug_print e29 (fun _ => rfl),
        upd_get OdometryOptions.debug_print e28 (fun _ => rfl),
        upd_get OdometryOptions.debug_print e27 (fun _ => rfl),
        upd_get OdometryOptions.debug_print e26 (fun _ => rfl),
        upd_get OdometryOptions.debug_print e25 (fun _ => rfl),
        upd_get OdometryOptions.debug_print e24 (fun _ => rfl),
        upd_get OdometryOptions.debug_print e23 (fun _ => rfl),
        upd_get OdometryOptions.debug_print e22 (fun _ => rfl),
        upd_get OdometryOptions.debug_print e21 (fun _ => rfl),
        upd_get OdometryOptions.debug_print e20 (fun _ => rfl),
        upd_get OdometryOptions.debug_print e19 (fun _ => rfl),
        upd_get_own OdometryOptions.debug_print e18 (fun _ => rfl),
        upd_get OdometryOptions.debug_print e17 (fun _ => rfl),
        upd_get OdometryOptions.debug_print e16 (fun _ => rfl),
        upd_get OdometryOptions.debug_print e15 (fun _ => rfl),
        upd_get OdometryOptions.debug_print e14 (fun _ => rfl),
        upd_get OdometryOptions.debug_print e13 (fun _ => rfl),
        upd_get OdometryOptions.debug_print e12 (fun _ => rfl),
        upd_get OdometryOptions.debug_print e11 (fun _ => rfl),
        upd_get OdometryOptions.debug_print e10 (fun _ => rfl),
        upd_get OdometryOptions.debug_print e9 (fun _ => rfl),
        upd_get OdometryOptions.debug_print e8 (fun _ => rfl),
        strategyStep_get OdometryOptions.debug_print h7 (fun _ => rfl),
        mapOptionsStep_get OdometryOptions.debug_print (fun _ => rfl),
        upd_get OdometryOptions.debug_print e6 (fun _ => rfl),
        upd_get OdometryOptions.debug_print e5 (fun _ => rfl),
        upd_get OdometryOptions.debug_print e4 (fun _ => rfl),
        upd_get OdometryOptions.debug_print e3 (fun _ => rfl),
        upd_get OdometryOptions.debug_print e2 (fun _ => rfl),
        upd_get OdometryOptions.debug_print e1 (fun _ => rfl)]
  · show o34.debug_viz = _
    rw [ctIcpOptionsStep_get OdometryOptions.debug_viz h34 (fun _ => rfl),
        upd_get OdometryOptions.debug_viz e33 (fun _ => rfl),
        upd_get OdometryOptions.debug_viz e32 (fun _ => rfl),
        upd_get OdometryOptions.debug_viz e31 (fun _ => rfl),
        motionModelStep_get OdometryOptions.debug_viz h30 (fun _ => rfl),
        upd_get OdometryOptions.debug_viz e29 (fun _ => rfl),
        upd_get OdometryOptions.debug_viz e28 (fun _ => rfl),
        upd_get OdometryOptions.debug_viz e27 (fun _ => rfl),
        upd_get OdometryOptions.debug_viz e26 (fun _ => rfl),
        upd_get OdometryOptions.debug_viz e25 (fun _ => rfl),
        upd_get OdometryOptions.debug_viz e24 (fun _ => rfl),
        upd_get OdometryOptions.debug_viz e23 (fun _ => rfl),
        upd_get OdometryOptions.debug_viz e22 (fun _ => rfl),
        upd_get OdometryOptions.debug_viz e21 (fun _ => rfl),
        upd_get OdometryOptions.debug_viz e20 (fun _ => rfl),
        upd_get_own OdometryOptions.debug_viz e19 (fun _ => rfl),
        upd_get OdometryOptions.debug_viz e18 (fun _ => rfl),
        upd_get OdometryOptions.debug_viz e17 (fun _ => rfl),
        upd_get OdometryOptions.debug_viz e16 (fun _ => rfl),
        upd_get OdometryOptions.debug_viz e15 (fun _ => rfl),
        upd_get OdometryOptions.debug_viz e14 (fun _ => rfl),
        upd_get OdometryOptions.debug_viz e13 (fun _ => rfl),
        upd_get OdometryOptions.debug_viz e12 (fun _ => rfl),
        upd_get OdometryOptions.debug_viz e11 (fun _ => rfl),
        upd_get OdometryOptions.debug_viz e10 (fun _ => rfl),
        upd_get OdometryOptions.debug_viz e9 (fun _ => rfl),
        upd_get OdometryOptions.debug_viz e8 (fun _ => rfl),
        strategyStep_get OdometryOptions.debug_viz h7 (fun _ => rfl),
        mapOptionsStep_get OdometryOptions.debug_viz (fun _ => rfl),
        upd_get OdometryOptions.debug_viz e6 (fun _ => rfl),
        upd_get OdometryOptions.debug_viz e5 (fun _ => rfl),
        upd_get OdometryOptions.debug_viz e4 (fun _ => rfl),
        upd_get OdometryOptions.debug_viz e3 (fun _ => rfl),
        upd_get OdometryOptions.debug_viz e2 (fun _ => rfl),
        upd_get OdometryOptions.debug_viz e1 (fun _ => rfl)]
  · show o34.do_no_insert = _
    rw [ctIcpOptionsStep_get OdometryOptions.do_no_insert h34 (fun _ => rfl),
        upd_get OdometryOptions.do_no_insert e33 (fun _ => rfl),
        upd_get OdometryOptions.do_no_insert e32 (fun _ => rfl),
        upd_get OdometryOptions.do_no_insert e31 (fun _ => rfl),
        motionModelStep_get OdometryOptions.do_no_insert h30 (fun _ => rfl),
        upd_get OdometryOptions.do_no_insert e29 (fun _ => rfl),
        upd_get OdometryOptions.do_no_insert e28 (fun _ => rfl),
        upd_get OdometryOptions.do_no_insert e27 (fun _ => rfl),
        upd_get OdometryOptions.do_no_insert e26 (fun _ => rfl),
        upd_get OdometryOptions.do_no_insert e25 (fun _ => rfl),
        upd_get OdometryOptions.do_no_insert e24 (fun _ => rfl),
        upd_get OdometryOptions.do_no_insert e23 (fun _ => rfl),
        upd_get OdometryOptions.do_no_insert e22 (fun _ => rfl),
        upd_get OdometryOptions.do_no_insert e21 (fun _ => rfl),
        upd_get_own OdometryOptions.do_no_insert e20 (fun _ => rfl),
        upd_get OdometryOptions.do_no_insert e19 (fun _ => rfl),
        upd_get OdometryOptions.do_no_insert e18 (fun _ => rfl),
        upd_get OdometryOptions.do_no_insert e17 (fun _ => rfl),
        upd_get OdometryOptions.do_no_insert e16 (fun _ => rfl),
        upd_get OdometryOptions.do_no_insert e15 (fun _ => rfl),
        upd_get OdometryOptions.do_no_insert e14 (fun _ => rfl),
        upd_get OdometryOptions.do_no_insert e13 (fun _ => rfl),
        upd_get OdometryOptions.do_no_insert e12 (fun _ => rfl),
        upd_get OdometryOptions.do_no_insert e11 (fun _ => rfl),
        upd_get OdometryOptions.do_no_insert e10 (fun _ => rfl),
        upd_get OdometryOptions.do_no_insert e9 (fun _ => rfl),
        upd_get OdometryOptions.do_no_insert e8 (fun _ => rfl),
        strategyStep_get OdometryOptions.do_no_insert h7 (fun _ => rfl),
        mapOptionsStep_get OdometryOptions.do_no_insert (fun _ => rfl),
        upd_get OdometryOptions.do_no_insert e6 (fun _ => rfl),
        upd_get OdometryOptions.do_no_insert e5 (fun _ => rfl),
        upd_get OdometryOptions.do_no_insert e4 (fun _ => rfl),
        upd_get OdometryOptions.do_no_insert e3 (fun _ => rfl),
        upd_get OdometryOptions.do_no_insert e2 (fun _ => rfl),
        upd_get OdometryOptions.do_no_insert e1 (fun _ => rfl)]
  · show o34.always_insert = _
    rw [ctIcpOptionsStep_get OdometryOptions.always_insert h34 (fun _ => rfl),
        upd_get OdometryOptions.always_insert e33 (fun _ => rfl),
        upd_get OdometryOptions.always_insert e32 (fun _ => rfl),
        upd_get OdometryOptions.always_insert e31 (fun _ => rfl),
        motionModelStep_get OdometryOptions.always_insert h30 (fun _ => rfl),
        upd_get OdometryOptions.always_insert e29 (fun _ => rfl),
        upd_get OdometryOptions.always_insert e28 (fun _ => rfl),
        upd_get OdometryOptions.always_insert e27 (fun _ => rfl),
        upd_get OdometryOptions.always_insert e26 (fun _ => rfl),
        upd_get OdometryOptions.always_insert e25 (fun _ => rfl),
        upd_get OdometryOptions.always_insert e24 (fun _ => rfl),
        upd_get OdometryOptions.always_insert e23 (fun _ => rfl),
        upd_get OdometryOptions.always_insert e22 (fun _ => rfl),
        upd_get_own OdometryOptions.always_insert e21 (fun _ => rfl),
        upd_get OdometryOptions.always_insert e20 (fun _ => rfl),
        upd_get OdometryOptions.always_insert e19 (fun _ => rfl),
        upd_get OdometryOptions.always_insert e18 (fun _ => rfl),
        upd_get OdometryOptions.always_insert e17 (fun _ => rfl),
        upd_get OdometryOptions.always_insert e16 (fun _ => rfl),
        upd_get OdometryOptions.always_insert e15 (fun _ => rfl),
        upd_get OdometryOptions.always_insert e14 (fun _ => rfl),
        upd_get OdometryOptions.always_insert e13 (fun _ => rfl),
        upd_get OdometryOptions.always_insert e12 (fun _ => rfl),
        upd_get OdometryOptions.always_insert e11 (fun _ => rfl),
        upd_get OdometryOptions.always_insert e10 (fun _ => rfl),
        upd_get OdometryOptions.always_insert e9 (fun _ => rfl),
        upd_get OdometryOptions.always_insert e8 (fun _ => rfl),
        strategyStep_get OdometryOptions.always_insert h7 (fun _ => rfl),
        mapOptionsStep_get OdometryOptions.always_insert (fun _ => rfl),
        upd_get OdometryOptions.always_insert e6 (fun _ => rfl),
        upd_get OdometryOptions.always_insert e5 (fun _ => rfl),
        upd_get OdometryOptions.always_insert e4 (fun _ => rfl),
        upd_get OdometryOptions.always_insert e3 (fun _ => rfl),
        upd_get OdometryOptions.always_insert e2 (fun _ => rfl),
        upd_get OdometryOptions.always_insert e1 (fun _ => rfl)]
  · show o34.robust_minimal_level = _
    rw [ctIcpOptionsStep_get OdometryOptions.robust_minimal_level h34 (fun _ => rfl),
        upd_get OdometryOptions.robust_minimal_level e33 (fun _ => rfl),
        upd_get OdometryOptions.robust_minimal_level e32 (fun _ => rfl),
        upd_get OdometryOptions.robust_minimal_level e31 (fun _ => rfl),
        motionModelStep_get OdometryOptions.robust_minimal_level h30 (fun _ => rfl),
        upd_get OdometryOptions.robust_minimal_level e29 (fun _ => rfl),
        upd_get OdometryOptions.robust_minimal_level e28 (fun _ => rfl),
        upd_get OdometryOptions.robust_minimal_level e27 (fun _ => rfl),
        upd_get OdometryOptions.robust_minimal_level e26 (fun _ => rfl),
        upd_get OdometryOptions.robust_minimal_level e25 (fun _ => rfl),
        upd_get OdometryOptions.robust_minimal_level e24 (fun _ => rfl),
        upd_get OdometryOptions.robust_minimal_level e23 (fun _ => rfl),
        upd_get_own OdometryOptions.robust_minimal_level e22 (fun _ => rfl),
        upd_get OdometryOptions.robust_minimal_level e21 (fun _ => rfl),
        upd_get OdometryOptions.robust_minimal_level e20 (fun _ => rfl),
        upd_get OdometryOptions.robust_minimal_level e19 (fun _ => rfl),
        upd_get OdometryOptions.robust_minimal_level e18 (fun _ => rfl),
        upd_get OdometryOptions.robust_minimal_level e17 (fun _ => rfl),
        upd_get OdometryOptions.robust_minimal_level e16 (fun _ => rfl),
        upd_get OdometryOptions.robust_minimal_level e15 (fun _ => rfl),
        upd_get OdometryOptions.robust_minimal_level e14 (fun _ => rfl),
        upd_get OdometryOptions.robust_minimal_level e13 (fun _ => rfl),
        upd_get OdometryOptions.robust_minimal_level e12 (fun _ => rfl),
        upd_get OdometryOptions.robust_minimal_level e11 (fun _ => rfl),
        upd_get OdometryOptions.robust_minimal_level e10 (fun _ => rfl),
        upd_get OdometryOptions.robust_minimal_level e9 (fun _ => rfl),
        upd_get OdometryOptions.robust_minimal_level e8 (fun _ => rfl),
        strategyStep_get OdometryOptions.robust_minimal_level h7 (fun _ => rfl),
        mapOptionsStep_get OdometryOptions.robust_minimal_level (fun _ => rfl),
        upd_get OdometryOptions.robust_minimal_level e6 (fun _ => rfl),
        upd_get OdometryOptions.robust_minimal_level e5 (fun _ => rfl),
        upd_get OdometryOptions.robust_minimal_level e4 (fun _ => rfl),
        upd_get OdometryOptions.robust_minimal_level e3 (fun _ => rfl),
        upd_get OdometryOptions.robust_minimal_level e2 (fun _ => rfl),
        upd_get OdometryOptions.robust_minimal_level e1 (fun _ => rfl)]
  · show o34.robust_registration = _
    rw [ctIcpOptionsStep_get OdometryOptions.robust_registration h34 (fun _ => rfl),
        upd_get OdometryOptions.robust_registration e33 (fun _ => rfl),
        upd_get OdometryOptions.robust_registration e32 (fun _ => rfl),
        upd_get OdometryOptions.robust_registration e31 (fun _ => rfl),
        motionModelStep_get OdometryOptions.robust_registration h30 (fun _ => rfl),
        upd_get OdometryOptions.robust_registration e29 (fun _ => rfl),
        upd_get OdometryOptions.robust_registration e28 (fun _ => rfl),
        upd_get OdometryOptions.robust_registration e27 (fun _ => rfl),
        upd_get OdometryOptions.robust_registration e26 (fun _ => rfl),
        upd_get OdometryOptions.robust_registration e25 (fun _ => rfl),
        upd_get OdometryOptions.robust_registration e24 (fun _ => rfl),
        upd_get_own OdometryOptions.robust_registration e23 (fun _ => rfl),
        upd_get OdometryOptions.robust_registration e22 (fun _ => rfl),
        upd_get OdometryOptions.robust_registration e21 (fun _ => rfl),
        upd_get OdometryOptions.robust_registration e20 (fun _ => rfl),
        upd_get OdometryOptions.robust_registration e19 (fun _ => rfl),
        upd_get OdometryOptions.robust_registration e18 (fun _ => rfl),
        upd_get OdometryOptions.robust_registration e17 (fun _ => rfl),
        upd_get OdometryOptions.robust_registration e16 (fun _ => rfl),
        upd_get OdometryOptions.robust_registration e15 (fun _ => rfl),
        upd_get OdometryOptions.robust_registration e14 (fun _ => rfl),
        upd_get OdometryOptions.robust_registration e13 (fun _ => rfl),
        upd_get OdometryOptions.robust_registration e12 (fun _ => rfl),
        upd_get OdometryOptions.robust_registration e11 (fun _ => rfl),
        upd_get OdometryOptions.robust_registration e10 (fun _ => rfl),
        upd_get OdometryOptions.robust_registration e9 (fun _ => rfl),
        upd_get OdometryOptions.robust_registration e8 (fun _ => rfl),
        strategyStep_get OdometryOptions.robust_registration h7 (fun _ => rfl),
        mapOptionsStep_get OdometryOptions.robust_registration (fun _ => rfl),
        upd_get OdometryOptions.robust_registration e6 (fun _ => rfl),
        upd_get OdometryOptions.robust_registration e5 (fun _ => rfl),
        upd_get OdometryOptions.robust_registration e4 (fun _ => rfl),
        upd_get OdometryOptions.robust_registration e3 (fun _ => rfl),
        upd_get OdometryOptions.robust_registration e2 (fun _ => rfl),
        upd_get OdometryOptions.robust_registration e1 (fun _ => rfl)]
  · show o34.robust_full_voxel_threshold = _
    rw [ctIcpOptionsStep_get OdometryOptions.robust_full_voxel_threshold h34 (fun _ => rfl),
        upd_get OdometryOptions.robust_full_voxel_threshold e33 (fun _ => rfl),
        upd_get OdometryOptions.robust_full_voxel_threshold e32 (fun _ => rfl),
        upd_get OdometryOptions.robust_full_voxel_threshold e31 (fun _ => rfl),
        motionModelStep_get OdometryOptions.robust_full_voxel_threshold h30 (fun _ => rfl),
        upd_get OdometryOptions.robust_full_voxel_threshold e29 (fun _ => rfl),
        upd_get OdometryOptions.robust_full_voxel_threshold e28 (fun _ => rfl),
        upd_get OdometryOptions.robust_full_voxel_threshold e27 (fun _ => rfl),
        upd_get OdometryOptions.robust_full_voxel_threshold e26 (fun _ => rfl),
        upd_get OdometryOptions.robust_full_voxel_threshold e25 (fun _ => rfl),
        upd_get_own OdometryOptions.robust_full_voxel_threshold e24 (fun _ => rfl),
        upd_get OdometryOptions.robust_full_voxel_threshold e23 (fun _ => rfl),
        upd_get OdometryOptions.robust_full_voxel_threshold e22 (fun _ => rfl),
        upd_get OdometryOptions.robust_full_voxel_threshold e21 (fun _ => rfl),
        upd_get OdometryOptions.robust_full_voxel_threshold e20 (fun _ => rfl),
        upd_get OdometryOptions.robust_full_voxel_threshold e19 (fun _ => rfl),
        upd_get OdometryOptions.robust_full_voxel_threshold e18 (fun _ => rfl),
        upd_get OdometryOptions.robust_full_voxel_threshold e17 (fun _ => rfl),
        upd_get OdometryOptions.robust_full_voxel_threshold e16 (fun _ => rfl),
        upd_get OdometryOptions.robust_full_voxel_threshold e15 (fun _ => rfl),
        upd_get OdometryOptions.robust_full_voxel_threshold e14 (fun _ => rfl),
        upd_get OdometryOptions.robust_full_voxel_threshold e13 (fun _ => rfl),
        upd_get OdometryOptions.robust_full_voxel_threshold e12 (fun _ => rfl),
        upd_get OdometryOptions.robust_full_voxel_threshold e11 (fun _ => rfl),
        upd_get OdometryOptions.robust_full_voxel_threshold e10 (fun _ => rfl),
        upd_get OdometryOptions.robust_full_voxel_threshold e9 (fun _ => rfl),
        upd_get OdometryOptions.robust_full_voxel_threshold e8 (fun _ => rfl),
        strategyStep_get OdometryOptions.robust_full_voxel_threshold h7 (fun _ => rfl),
        mapOptionsStep_get OdometryOptions.robust_full_voxel_threshold (fun _ => rfl),
        upd_get OdometryOptions.robust_full_voxel_threshold e6 (fun _ => rfl),
        upd_get OdometryOptions.robust_full_voxel_threshold e5 (fun _ => rfl),
        upd_get OdometryOptions.robust_full_voxel_threshold e4 (fun _ => rfl),
        upd_get OdometryOptions.robust_full_voxel_threshold e3 (fun _ => rfl),
        upd_get OdometryOptions.robust_full_voxel_threshold e2 (fun _ => rfl),
        upd_get OdometryOptions.robust_full_voxel_threshold e1 (fun _ => rfl)]
  · show o34.robust_fail_early = _
    rw [ctIcpOptionsStep_get OdometryOptions.robust_fail_early h34 (fun _ => rfl),
        upd_get OdometryOptions.robust_fail_early e33 (fun _ => rfl),
        upd_get OdometryOptions.robust_fail_early e32 (fun _ => rfl),
        upd_get OdometryOptions.robust_fail_early e31 (fun _ => rfl),
        motionModelStep_get OdometryOptions.robust_fail_early h30 (fun _ => rfl),
        upd_get OdometryOptions.robust_fail_early e29 (fun _ => rfl),
        upd_get OdometryOptions.robust_fail_early e28 (fun _ => rfl),
        upd_get OdometryOptions.robust_fail_early e27 (fun _ => rfl),
        upd_get OdometryOptions.robust_fail_early e26 (fun _ => rfl),
        upd_get_own OdometryOptions.robust_fail_early e25 (fun _ => rfl),
        upd_get OdometryOptions.robust_fail_early e24 (fun _ => rfl),
        upd_get OdometryOptions.robust_fail_early e23 (fun _ => rfl),
        upd_get OdometryOptions.robust_fail_early e22 (fun _ => rfl),
        upd_get OdometryOptions.robust_fail_early e21 (fun _ => rfl),
        upd_get OdometryOptions.robust_fail_early e20 (fun _ => rfl),
        upd_get OdometryOptions.robust_fail_early e19 (fun _ => rfl),
        upd_get OdometryOptions.robust_fail_early e18 (fun _ => rfl),
        upd_get OdometryOptions.robust_fail_early e17 (fun _ => rfl),
        upd_get OdometryOptions.robust_fail_early e16 (fun _ => rfl),
        upd_get OdometryOptions.robust_fail_early e15 (fun _ => rfl),
        upd_get OdometryOptions.robust_fail_early e14 (fun _ => rfl),
        upd_get OdometryOptions.robust_fail_early e13 (fun _ => rfl),
        upd_get OdometryOptions.robust_fail_early e12 (fun _ => rfl),
        upd_get OdometryOptions.robust_fail_early e11 (fun _ => rfl),
        upd_get OdometryOptions.robust_fail_early e10 (fun _ => rfl),
        upd_get OdometryOptions.robust_fail_early e9 (fun _ => rfl),
        upd_get OdometryOptions.robust_fail_early e8 (fun _ => rfl),
        strategyStep_get OdometryOptions.robust_fail_early h7 (fun _ => rfl),
        mapOptionsStep_get OdometryOptions.robust_fail_early (fun _ => rfl),
        upd_get OdometryOptions.robust_fail_early e6 (fun _ => rfl),
        upd_get OdometryOptions.robust_fail_early e5 (fun _ => rfl),
        upd_get OdometryOptions.robust_fail_early e4 (fun _ => rfl),
        upd_get OdometryOptions.robust_fail_early e3 (fun _ => rfl),
        upd_get OdometryOptions.robust_fail_early e2 (fun _ => rfl),
        upd_get OdometryOptions.robust_fail_early e1 (fun _ => rfl)]
  · show o34.robust_num_attempts = _
    rw [ctIcpOptionsStep_get OdometryOptions.robust_num_attempts h34 (fun _ => rfl),
        upd_get OdometryOptions.robust_num_attempts e33 (fun _ => rfl),
        upd_get OdometryOptions.robust_num_attempts e32 (fun _ => rfl),
        upd_get OdometryOptions.robust_num_attempts e31 (fun _ => rfl),
        motionModelStep_get OdometryOptions.robust_num_attempts h30 (fun _ => rfl),
        upd_get OdometryOptions.robust_num_attempts e29 (fun _ => rfl),
        upd_get OdometryOptions.robust_num_attempts e28 (fun _ => rfl),
        upd_get OdometryOptions.robust_num_attempts e27 (fun _ => rfl),
        upd_get_own OdometryOptions.robust_num_attempts e26 (fun _ => rfl),
        upd_get OdometryOptions.robust_num_attempts e25 (fun _ => rfl),
        upd_get OdometryOptions.robust_num_attempts e24 (fun _ => rfl),
        upd_get OdometryOptions.robust_num_attempts e23 (fun _ => rfl),
        upd_get OdometryOptions.robust_num_attempts e22 (fun _ => rfl),
        upd_get OdometryOptions.robust_num_attempts e21 (fun _ => rfl),
        upd_get OdometryOptions.robust_num_attempts e20 (fun _ => rfl),
        upd_get OdometryOptions.robust_num_attempts e19 (fun _ => rfl),
        upd_get OdometryOptions.robust_num_attempts e18 (fun _ => rfl),
        upd_get OdometryOptions.robust_num_attempts e17 (fun _ => rfl),
        upd_get OdometryOptions.robust_num_attempts e16 (fun _ => rfl),
        upd_get OdometryOptions.robust_num_attempts e15 (fun _ => rfl),
        upd_get OdometryOptions.robust_num_attempts e14 (fun _ => rfl),
        upd_get OdometryOptions.robust_num_attempts e13 (fun _ => rfl),
        upd_get OdometryOptions.robust_num_attempts e12 (fun _ => rfl),
        upd_get OdometryOptions.robust_num_attempts e11 (fun _ => rfl),
        upd_get OdometryOptions.robust_num_attempts e10 (fun _ => rfl),
        upd_get OdometryOptions.robust_num_attempts e9 (fun _ => rfl),
        upd_get OdometryOptions.robust_num_attempts e8 (fun _ => rfl),
        strategyStep_get OdometryOptions.robust_num_attempts h7 (fun _ => rfl),
        mapOptionsStep_get OdometryOptions.robust_num_attempts (fun _ => rfl),
        upd_get OdometryOptions.robust_num_attempts e6 (fun _ => rfl),
        upd_get OdometryOptions.robust_num_attempts e5 (fun _ => rfl),
        upd_get OdometryOptions.robust_num_attempts e4 (fun _ => rfl),
        upd_get OdometryOptions.robust_num_attempts e3 (fun _ => rfl),
        upd_get OdometryOptions.robust_num_attempts e2 (fun _ => rfl),
        upd_get OdometryOptions.robust_num_attempts e1 (fun _ => rfl)]
  · show o34.robust_max_voxel_neighborhood = _
    rw [ctIcpOptionsStep_get OdometryOptions.robust_max_voxel_neighborhood h34 (fun _ => rfl),
        upd_get OdometryOptions.robust_max_voxel_neighborhood e33 (fun _ => rfl),
        upd_get OdometryOptions.robust_max_voxel_neighborhood e32 (fun _ => rfl),
        upd_get OdometryOptions.robust_max_voxel_neighborhood e31 (fun _ => rfl),
        motionModelStep_get OdometryOptions.robust_max_voxel_neighborhood h30 (fun _ => rfl),
        upd_get OdometryOptions.robust_max_voxel_neighborhood e29 (fun _ => rfl),
        upd_get OdometryOptions.robust_max_voxel_neighborhood e28 (fun _ => rfl),
        upd_get_own OdometryOptions.robust_max_voxel_neighborhood e27 (fun _ => rfl),
        upd_get OdometryOptions.robust_max_voxel_neighborhood e26 (fun _ => rfl),
        upd_get OdometryOptions.robust_max_voxel_neighborhood e25 (fun _ => rfl),
        upd_get OdometryOptions.robust_max_voxel_neighborhood e24 (fun _ => rfl),
        upd_get OdometryOptions.robust_max_voxel_neighborhood e23 (fun _ => rfl),
        upd_get OdometryOptions.robust_max_voxel_neighborhood e22 (fun _ => rfl),
        upd_get OdometryOptions.robust_max_voxel_neighborhood e21 (fun _ => rfl),
        upd_get OdometryOptions.robust_max_voxel_neighborhood e20 (fun _ => rfl),
        upd_get OdometryOptions.robust_max_voxel_neighborhood e19 (fun _ => rfl),
        upd_get OdometryOptions.robust_max_voxel_neighborhood e18 (fun _ => rfl),
        upd_get OdometryOptions.robust_max_voxel_neighborhood e17 (fun _ => rfl),
        upd_get OdometryOptions.robust_max_voxel_neighborhood e16 (fun _ => rfl),
        upd_get OdometryOptions.robust_max_voxel_neighborhood e15 (fun _ => rfl),
        upd_get OdometryOptions.robust_max_voxel_neighborhood e14 (fun _ => rfl),
        upd_get OdometryOptions.robust_max_voxel_neighborhood e13 (fun _ => rfl),
        upd_get OdometryOptions.robust_max_voxel_neighborhood e12 (fun _ => rfl),
        upd_get OdometryOptions.robust_max_voxel_neighborhood e11 (fun _ => rfl),
        upd_get OdometryOptions.robust_max_voxel_neighborhood e10 (fun _ => rfl),
        upd_get OdometryOptions.robust_max_voxel_neighborhood e9 (fun _ => rfl),
        upd_get OdometryOptions.robust_max_voxel_neighborhood e8 (fun _ => rfl),
        strategyStep_get OdometryOptions.robust_max_voxel_neighborhood h7 (fun _ => rfl),
        mapOptionsStep_get OdometryOptions.robust_max_voxel_neighborhood (fun _ => rfl),
        upd_get OdometryOptions.robust_max_voxel_neighborhood e6 (fun _ => rfl),
        upd_get OdometryOptions.robust_max_voxel_neighborhood e5 (fun _ => rfl),
        upd_get OdometryOptions.robust_max_voxel_neighborhood e4 (fun _ => rfl),
        upd_get OdometryOptions.robust_max_voxel_neighborhood e3 (fun _ => rfl),
        upd_get OdometryOptions.robust_max_voxel_neighborhood e2 (fun _ => rfl),
        upd_get OdometryOptions.robust_max_voxel_neighborhood e1 (fun _ => rfl)]
  · show o34.robust_threshold_relative_orientation = _
    rw [ctIcpOptionsStep_get OdometryOptions.robust_threshold_relative_orientation h34 (fun _ => rfl),
        upd_get OdometryOptions.robust_threshold_relative_orientation e33 (fun _ => rfl),
        upd_get OdometryOptions.robust_threshold_relative_orientation e32 (fun _ => rfl),
        upd_get OdometryOptions.robust_threshold_relative_orientation e31 (fun _ => rfl),
        motionModelStep_get OdometryOptions.robust_threshold_relative_orientation h30 (fun _ => rfl),
        upd_get OdometryOptions.robust_threshold_relative_orientation e29 (fun _ => rfl),
        upd_get_own OdometryOptions.robust_threshold_relative_orientation e28 (fun _ => rfl),
        upd_get OdometryOptions.robust_threshold_relative_orientation e27 (fun _ => rfl),
        upd_get OdometryOptions.robust_threshold_relative_orientation e26 (fun _ => rfl),
        upd_get OdometryOptions.robust_threshold_relative_orientation e25 (fun _ => rfl),
        upd_get OdometryOptions.robust_threshold_relative_orientation e24 (fun _ => rfl),
        upd_get OdometryOptions.robust_threshold_relative_orientation e23 (fun _ => rfl),
        upd_get OdometryOptions.robust_threshold_relative_orientation e22 (fun _ => rfl),
        upd_get OdometryOptions.robust_threshold_relative_orientation e21 (fun _ => rfl),
        upd_get OdometryOptions.robust_threshold_relative_orientation e20 (fun _ => rfl),
        upd_get OdometryOptions.robust_threshold_relative_orientation e19 (fun _ => rfl),
        upd_get OdometryOptions.robust_threshold_relative_orientation e18 (fun _ => rfl),
        upd_get OdometryOptions.robust_threshold_relative_orientation e17 (fun _ => rfl),
        upd_get OdometryOptions.robust_threshold_relative_orientation e16 (fun _ => rfl),
        upd_get OdometryOptions.robust_threshold_relative_orientation e15 (fun _ => rfl),
        upd_get OdometryOptions.robust_threshold_relative_orientation e14 (fun _ => rfl),
        upd_get OdometryOptions.robust_threshold_relative_orientation e13 (fun _ => rfl),
        upd_get OdometryOptions.robust_threshold_relative_orientation e12 (fun _ => rfl),
        upd_get OdometryOptions.robust_threshold_relative_orientation e11 (fun _ => rfl),
        upd_get OdometryOptions.robust_threshold_relative_orientation e10 (fun _ => rfl),
        upd_get OdometryOptions.robust_threshold_relative_orientation e9 (fun _ => rfl),
        upd_get OdometryOptions.robust_threshold_relative_orientation e8 (fun _ => rfl),
        strategyStep_get OdometryOptions.robust_threshold_relative_orientation h7 (fun _ => rfl),
        mapOptionsStep_get OdometryOptions.robust_threshold_relative_orientation (fun _ => rfl),
        upd_get OdometryOptions.robust_threshold_relative_orientation e6 (fun _ => rfl),
        upd_get OdometryOptions.robust_threshold_relative_orientation e5 (fun _ => rfl),
        upd_get OdometryOptions.robust_threshold_relative_orientation e4 (fun _ => rfl),
        upd_get OdometryOptions.robust_threshold_relative_orientation e3 (fun _ => rfl),
        upd_get OdometryOptions.robust_threshold_relative_orientation e2 (fun _ => rfl),
        upd_get OdometryOptions.robust_threshold_relative_orientation e1 (fun _ => rfl)]
  · show o34.robust_threshold_ego_orientation = _
    rw [ctIcpOptionsStep_get OdometryOptions.robust_threshold_ego_orientation h34 (fun _ => rfl),
        upd_get OdometryOptions.robust_threshold_ego_orientation e33 (fun _ => rfl),
        upd_get OdometryOptions.robust_threshold_ego_orientation e32 (fun _ => rfl),
        upd_get OdometryOptions.robust_threshold_ego_orientation e31 (fun _ => rfl),
        motionModelStep_get OdometryOptions.robust_threshold_ego_orientation h30 (fun _ => rfl),
        upd_get_own OdometryOptions.robust_threshold_ego_orientation e29 (fun _ => rfl),
        upd_get OdometryOptions.robust_threshold_ego_orientation e28 (fun _ => rfl),
        upd_get OdometryOptions.robust_threshold_ego_orientation e27 (fun _ => rfl),
        upd_get OdometryOptions.robust_threshold_ego_orientation e26 (fun _ => rfl),
        upd_get OdometryOptions.robust_threshold_ego_orientation e25 (fun _ => rfl),
        upd_get OdometryOptions.robust_threshold_ego_orientation e24 (fun _ => rfl),
        upd_get OdometryOptions.robust_threshold_ego_orientation e23 (fun _ => rfl),
        upd_get OdometryOptions.robust_threshold_ego_orientation e22 (fun _ => rfl),
        upd_get OdometryOptions.robust_threshold_ego_orientation e21 (fun _ => rfl),
        upd_get OdometryOptions.robust_threshold_ego_orientation e20 (fun _ => rfl),
        upd_get OdometryOptions.robust_threshold_ego_orientation e19 (fun _ => rfl),
        upd_get OdometryOptions.robust_threshold_ego_orientation e18 (fun _ => rfl),
        upd_get OdometryOptions.robust_threshold_ego_orientation e17 (fun _ => rfl),
        upd_get OdometryOptions.robust_threshold_ego_orientation e16 (fun _ => rfl),
        upd_get OdometryOptions.robust_threshold_ego_orientation e15 (fun _ => rfl),
        upd_get OdometryOptions.robust_threshold_ego_orientation e14 (fun _ => rfl),
        upd_get OdometryOptions.robust_threshold_ego_orientation e13 (fun _ => rfl),
        upd_get OdometryOptions.robust_threshold_ego_orientation e12 (fun _ => rfl),
        upd_get OdometryOptions.robust_threshold_ego_orientation e11 (fun _ => rfl),
        upd_get OdometryOptions.robust_threshold_ego_orientation e10 (fun _ => rfl),
        upd_get OdometryOptions.robust_threshold_ego_orientation e9 (fun _ => rfl),
        upd_get OdometryOptions.robust_threshold_ego_orientation e8 (fun _ => rfl),
        strategyStep_get OdometryOptions.robust_threshold_ego_orientation h7 (fun _ => rfl),
        mapOptionsStep_get OdometryOptions.robust_threshold_ego_orientation (fun _ => rfl),
        upd_get OdometryOptions.robust_threshold_ego_orientation e6 (fun _ => rfl),
        upd_get OdometryOptions.robust_threshold_ego_orientation e5 (fun _ => rfl),
        upd_get OdometryOptions.robust_threshold_ego_orientation e4 (fun _ => rfl),
        upd_get OdometryOptions.robust_threshold_ego_orientation e3 (fun _ => rfl),
        upd_get OdometryOptions.robust_threshold_ego_orientation e2 (fun _ => rfl),
        upd_get OdometryOptions.robust_threshold_ego_orientation e1 (fun _ => rfl)]
  · show o34.motion_compensation = _
    rw [ctIcpOptionsStep_get OdometryOptions.motion_compensation h34 (fun _ => rfl),
        upd_get OdometryOptions.motion_compensation e33 (fun _ => rfl),
        upd_get OdometryOptions.motion_compensation e32 (fun _ => rfl),
        upd_get_own OdometryOptions.motion_compensation e31 (fun _ => rfl),
        motionModelStep_get OdometryOptions.motion_compensation h30 (fun _ => rfl),
        upd_get OdometryOptions.motion_compensation e29 (fun _ => rfl),
        upd_get OdometryOptions.motion_compensation e28 (fun _ => rfl),
        upd_get OdometryOptions.motion_compensation e27 (fun _ => rfl),
        upd_get OdometryOptions.motion_compensation e26 (fun _ => rfl),
        upd_get OdometryOptions.motion_compensation e25 (fun _ => rfl),
        upd_get OdometryOptions.motion_compensation e24 (fun _ => rfl),
        upd_get OdometryOptions.motion_compensation e23 (fun _ => rfl),
        upd_get OdometryOptions.motion_compensation e22 (fun _ => rfl),
        upd_get OdometryOptions.motion_compensation e21 (fun _ => rfl),
        upd_get OdometryOptions.motion_compensation e20 (fun _ => rfl),
        upd_get OdometryOptions.motion_compensation e19 (fun _ => rfl),
        upd_get OdometryOptions.motion_compensation e18 (fun _ => rfl),
        upd_get OdometryOptions.motion_compensation e17 (fun _ => rfl),
        upd_get OdometryOptions.motion_compensation e16 (fun _ => rfl),
        upd_get OdometryOptions.motion_compensation e15 (fun _ => rfl),
        upd_get OdometryOptions.motion_compensation e14 (fun _ => rfl),
        upd_get OdometryOptions.motion_compensation e13 (fun _ => rfl),
        upd_get OdometryOptions.motion_compensation e12 (fun _ => rfl),
        upd_get OdometryOptions.motion_compensation e11 (fun _ => rfl),
        upd_get OdometryOptions.motion_compensation e10 (fun _ => rfl),
        upd_get OdometryOptions.motion_compensation e9 (fun _ => rfl),
        upd_get OdometryOptions.motion_compensation e8 (fun _ => rfl),
        strategyStep_get OdometryOptions.motion_compensation h7 (fun _ => rfl),
        mapOptionsStep_get OdometryOptions.motion_compensation (fun _ => rfl),
        upd_get OdometryOptions.motion_compensation e6 (fun _ => rfl),
        upd_get OdometryOptions.motion_compensation e5 (fun _ => rfl),
        upd_get OdometryOptions.motion_compensation e4 (fun _ => rfl),
        upd_get OdometryOptions.motion_compensation e3 (fun _ => rfl),
        upd_get OdometryOptions.motion_compensation e2 (fun _ => rfl),
        upd_get OdometryOptions.motion_compensation e1 (fun _ => rfl)]
  · show o34.sampling = _
    rw [ctIcpOptionsStep_get OdometryOptions.sampling h34 (fun _ => rfl),
        upd_get OdometryOptions.sampling e33 (fun _ => rfl),
        upd_get_own OdometryOptions.sampling e32 (fun _ => rfl),
        upd_get OdometryOptions.sampling e31 (fun _ => rfl),
        motionModelStep_get OdometryOptions.sampling h30 (fun _ => rfl),
        upd_get OdometryOptions.sampling e29 (fun _ => rfl),
        upd_get OdometryOptions.sampling e28 (fun _ => rfl),
        upd_get OdometryOptions.sampling e27 (fun _ => rfl),
        upd_get OdometryOptions.sampling e26 (fun _ => rfl),
        upd_get OdometryOptions.sampling e25 (fun _ => rfl),
        upd_get OdometryOptions.sampling e24 (fun _ => rfl),
        upd_get OdometryOptions.sampling e23 (fun _ => rfl),
        upd_get OdometryOptions.sampling e22 (fun _ => rfl),
        upd_get OdometryOptions.sampling e21 (fun _ => rfl),
        upd_get OdometryOptions.sampling e20 (fun _ => rfl),
        upd_get OdometryOptions.sampling e19 (fun _ => rfl),
        upd_get OdometryOptions.sampling e18 (fun _ => rfl),
        upd_get OdometryOptions.sampling e17 (fun _ => rfl),
        upd_get OdometryOptions.sampling e16 (fun _ => rfl),
        upd_get OdometryOptions.sampling e15 (fun _ => rfl),
        upd_get OdometryOptions.sampling e14 (fun _ => rfl),
        upd_get OdometryOptions.sampling e13 (fun _ => rfl),
        upd_get OdometryOptions.sampling e12 (fun _ => rfl),
        upd_get OdometryOptions.sampling e11 (fun _ => rfl),
        upd_get OdometryOptions.sampling e10 (fun _ => rfl),
        upd_get OdometryOptions.sampling e9 (fun _ => rfl),
        upd_get OdometryOptions.sampling e8 (fun _ => rfl),
        strategyStep_get OdometryOptions.sampling h7 (fun _ => rfl),
        mapOptionsStep_get OdometryOptions.sampling (fun _ => rfl),
        upd_get OdometryOptions.sampling e6 (fun _ => rfl),
        upd_get OdometryOptions.sampling e5 (fun _ => rfl),
        upd_get OdometryOptions.sampling e4 (fun _ => rfl),
        upd_get OdometryOptions.sampling e3 (fun _ => rfl),
        upd_get OdometryOptions.sampling e2 (fun _ => rfl),
        upd_get OdometryOptions.sampling e1 (fun _ => rfl)]
  · show o34.initialization = _
    rw [ctIcpOptionsStep_get OdometryOptions.initialization h34 (fun _ => rfl),
        upd_get_own OdometryOptions.initialization e33 (fun _ => rfl),
        upd_get OdometryOptions.initialization e32 (fun _ => rfl),
        upd_get OdometryOptions.initialization e31 (fun _ => rfl),
        motionModelStep_get OdometryOptions.initialization h30 (fun _ => rfl),
        upd_get OdometryOptions.initialization e29 (fun _ => rfl),
        upd_get OdometryOptions.initialization e28 (fun _ => rfl),
        upd_get OdometryOptions.initialization e27 (fun _ => rfl),
        upd_get OdometryOptions.initialization e26 (fun _ => rfl),
        upd_get OdometryOptions.initialization e25 (fun _ => rfl),
        upd_get OdometryOptions.initialization e24 (fun _ => rfl),
        upd_get OdometryOptions.initialization e23 (fun _ => rfl),
        upd_get OdometryOptions.initialization e22 (fun _ => rfl),
        upd_get OdometryOptions.initialization e21 (fun _ => rfl),
        upd_get OdometryOptions.initialization e20 (fun _ => rfl),
        upd_get OdometryOptions.initialization e19 (fun _ => rfl),
        upd_get OdometryOptions.initialization e18 (fun _ => rfl),
        upd_get OdometryOptions.initialization e17 (fun _ => rfl),
        upd_get OdometryOptions.initialization e16 (fun _ => rfl),
        upd_get OdometryOptions.initialization e15 (fun _ => rfl),
        upd_get OdometryOptions.initialization e14 (fun _ => rfl),
        upd_get OdometryOptions.initialization e13 (fun _ => rfl),
        upd_get OdometryOptions.initialization e12 (fun _ => rfl),
        upd_get OdometryOptions.initialization e11 (fun _ => rfl),
        upd_get OdometryOptions.initialization e10 (fun _ => rfl),
        upd_get OdometryOptions.initialization e9 (fun _ => rfl),
        upd_get OdometryOptions.initialization e8 (fun _ => rfl),
        strategyStep_get OdometryOptions.initialization h7 (fun _ => rfl),
        mapOptionsStep_get OdometryOptions.initialization (fun _ => rfl),
        upd_get OdometryOptions.initialization e6 (fun _ => rfl),
        upd_get OdometryOptions.initialization e5 (fun _ => rfl),
        upd_get OdometryOptions.initialization e4 (fun _ => rfl),
        upd_get OdometryOptions.initialization e3 (fun _ => rfl),
        upd_get OdometryOptions.initialization e2 (fun _ => rfl),
        upd_get OdometryOptions.initialization e1 (fun _ => rfl)]
  · show o34.map_options = _
    rw [ctIcpOptionsStep_get OdometryOptions.map_options h34 (fun _ => rfl),
        upd_get OdometryOptions.map_options e33 (fun _ => rfl),
        upd_get OdometryOptions.map_options e32 (fun _ => rfl),
        upd_get OdometryOptions.map_options e31 (fun _ => rfl),
        motionModelStep_get OdometryOptions.map_options h30 (fun _ => rfl),
        upd_get OdometryOptions.map_options e29 (fun _ => rfl),
        upd_get OdometryOptions.map_options e28 (fun _ => rfl),
        upd_get OdometryOptions.map_options e27 (fun _ => rfl),
        upd_get OdometryOptions.map_options e26 (fun _ => rfl),
        upd_get OdometryOptions.map_options e25 (fun _ => rfl),
        upd_get OdometryOptions.map_options e24 (fun _ => rfl),
        upd_get OdometryOptions.map_options e23 (fun _ => rfl),
        upd_get OdometryOptions.map_options e22 (fun _ => rfl),
        upd_get OdometryOptions.map_options e21 (fun _ => rfl),
        upd_get OdometryOptions.map_options e20 (fun _ => rfl),
        upd_get OdometryOptions.map_options e19 (fun _ => rfl),
        upd_get OdometryOptions.map_options e18 (fun _ => rfl),
        upd_get OdometryOptions.map_options e17 (fun _ => rfl),
        upd_get OdometryOptions.map_options e16 (fun _ => rfl),
        upd_get OdometryOptions.map_options e15 (fun _ => rfl),
        upd_get OdometryOptions.map_options e14 (fun _ => rfl),
        upd_get OdometryOptions.map_options e13 (fun _ => rfl),
        upd_get OdometryOptions.map_options e12 (fun _ => rfl),
        upd_get OdometryOptions.map_options e11 (fun _ => rfl),
        upd_get OdometryOptions.map_options e10 (fun _ => rfl),
        upd_get OdometryOptions.map_options e9 (fun _ => rfl),
        upd_get OdometryOptions.map_options e8 (fun _ => rfl),
        strategyStep_get OdometryOptions.map_options h7 (fun _ => rfl),
        mapOptionsStep_map]
  · show mapOptionsWarning node ++ p.2 = _
    rw [strategyStep_warns h7,
        mapOptionsStep_get OdometryOptions.neighborhood_strategy (fun _ => rfl),
        upd_get OdometryOptions.neighborhood_strategy e6 (fun _ => rfl),
        upd_get OdometryOptions.neighborhood_strategy e5 (fun _ => rfl),
        upd_get OdometryOptions.neighborhood_strategy e4 (fun _ => rfl),
        upd_get OdometryOptions.neighborhood_strategy e3 (fun _ => rfl),
        upd_get OdometryOptions.neighborhood_strategy e2 (fun _ => rfl),
        upd_get OdometryOptions.neighborhood_strategy e1 (fun _ => rfl)]

/-- A successful `yaml_to_odometry_options_from` run implies every supplied
enum tag was recognized. -/
theorem odo_tags {init : OdometryOptions} {node : Yaml}
    {pr : OdometryOptions × List String}
    (h : yaml_to_odometry_options_from init node = .ok pr) :
    (∀ s, node.findStr "motion_compensation" = some s → (motionCompensationOfTag s).isSome) ∧
    (∀ s, node.findStr "sampling" = some s → (samplingOfTag s).isSome) ∧
    (∀ s, node.findStr "initialization" = some s → (initializationOfTag s).isSome) := by
  unfold yaml_to_odometry_options_from at h
  obtain ⟨o1, h1, h⟩ := bind_ok h
  obtain ⟨o2, h2, h⟩ := bind_ok h
  obtain ⟨o3, h3, h⟩ := bind_ok h
  obtain ⟨o4, h4, h⟩ := bind_ok h
  obtain ⟨o5, h5, h⟩ := bind_ok h
  obtain ⟨o6, h6, h⟩ := bind_ok h
  obtain ⟨p, h7, h⟩ := bind_ok h
  obtain ⟨o8, h8, h⟩ := bind_ok h
  obtain ⟨o9, h9, h⟩ := bind_ok h
  obtain ⟨o10, h10, h⟩ := bind_ok h
  obtain ⟨o11, h11, h⟩ := bind_ok h
  obtain ⟨o12, h12, h⟩ := bind_ok h
  obtain ⟨o13, h13, h⟩ := bind_ok h
  obtain ⟨o14, h14, h⟩ := bind_ok h
  obtain ⟨o15, h15, h⟩ := bind_ok h
  obtain ⟨o16, h16, h⟩ := bind_ok h
  obtain ⟨o17, h17, h⟩ := bind_ok h
  obtain ⟨o18, h18, h⟩ := bind_ok h
  obtain ⟨o19, h19, h⟩ := bind_ok h
  obtain ⟨o20, h20, h⟩ := bind_ok h
  obtain ⟨o21, h21, h⟩ := bind_ok h
  obtain ⟨o22, h22, h⟩ := bind_ok h
  obtain ⟨o23, h23, h⟩ := bind_ok h
  obtain ⟨o24, h24, h⟩ := bind_ok h
  obtain ⟨o25, h25, h⟩ := bind_ok h
  obtain ⟨o26, h26, h⟩ := bind_ok h
  obtain ⟨o27, h27, h⟩ := bind_ok h
  obtain ⟨o28, h28, h⟩ := bind_ok h
  obtain ⟨o29, h29, h⟩ := bind_ok h
  obtain ⟨o30, h30, h⟩ := bind_ok h
  obtain ⟨o31, h31, h⟩ := bind_ok h
  obtain ⟨o32, h32, h⟩ := bind_ok h
  obtain ⟨o33, h33, h⟩ := bind_ok h
  obtain ⟨o34, h34, h⟩ := bind_ok h
  exact ⟨fun s hs => motionCompensationClause_ok_tag h31 hs, fun s hs => samplingClause_ok_tag h32 hs, fun s hs => initializationClause_ok_tag h33 hs⟩

/-! ### Characterization of the motion-model loader -/

/-- Field-by-field characterization of `yaml_to_motion_model_options_from`. -/
theorem mm_fields {init : PreviousFrameMotionModel.Options} {node : Yaml}
    {r : PreviousFrameMotionModel.Options}
    (h : yaml_to_motion_model_options_from init node = .ok r) :
    r.beta_location_consistency = (node.findRat "beta_location_consistency").getD init.beta_location_consistency ∧
    r.beta_small_velocity = (node.findRat "beta_small_velocity").getD init.beta_small_velocity ∧
    r.beta_orientation_consistency = (node.findRat "beta_orientation_consistency").getD init.beta_orientation_consistency ∧
    r.beta_constant_velocity = (node.findRat "beta_constant_velocity").getD init.beta_constant_velocity ∧
    r.threshold_orientation_deg = (node.findRat "threshold_orientation_deg").getD init.threshold_orientation_deg ∧
    r.threshold_translation_diff = (node.findRat "threshold_translation_diff").getD init.threshold_translation_diff ∧
    r.log_if_invalid = (node.findBool "log_if_invalid").getD init.log_if_invalid ∧
    r.model = ((node.findStr "model").bind (lookupTag
      [("CONSTANT_VELOCITY", MOTION_MODEL.CONSTANT_VELOCITY),
       ("SMALL_VELOCITY", MOTION_MODEL.SMALL_VELOCITY)])).getD init.model := by
  unfold yaml_to_motion_model_options_from at h
  obtain ⟨o1, h1, h⟩ := bind_ok h
  obtain ⟨o2, h2, h⟩ := bind_ok h
  obtain ⟨o3, h3, h⟩ := bind_ok h
  obtain ⟨o4, h4, h⟩ := bind_ok h
  obtain ⟨o5, h5, h⟩ := bind_ok h
  obtain ⟨o6, h6, h⟩ := bind_ok h
  obtain ⟨o7, h7, h⟩ := bind_ok h
  obtain ⟨m, h8, h⟩ := bind_ok h
  have hr := pure_ok h
  have e1 := ratClause_ok h1
  have e2 := ratClause_ok h2
  have e3 := ratClause_ok h3
  have e4 := ratClause_ok h4
  have e5 := ratClause_ok h5
  have e6 := ratClause_ok h6
  have e7 := boolClause_ok h7
  have em := FindEnumOption_ok h8
  subst hr
  refine ⟨?_, ?_, ?_, ?_, ?_, ?_, ?_, ?_⟩
  · show o7.beta_location_consistency = _
    rw [
        upd_get PreviousFrameMotionModel.Options.beta_location_consistency e7 (fun _ => rfl),
        upd_get PreviousFrameMotionModel.Options.beta_location_consistency e6 (fun _ => rfl),
        upd_get PreviousFrameMotionModel.Options.beta_location_consistency e5 (fun _ => rfl),
        upd_get PreviousFrameMotionModel.Options.beta_location_consistency e4 (fun _ => rfl),
        upd_get PreviousFrameMotionModel.Options.beta_location_consistency e3 (fun _ => rfl),
        upd_get PreviousFrameMotionModel.Options.beta_location_consistency e2 (fun _ => rfl),
        upd_get_own PreviousFrameMotionModel.Options.beta_location_consistency e1 (fun _ => rfl)]
  · show o7.beta_small_velocity = _
    rw [
        upd_get PreviousFrameMotionModel.Options.beta_small_velocity e7 (fun _ => rfl),
        upd_get PreviousFrameMotionModel.Options.beta_small_velocity e6 (fun _ => rfl),
        upd_get PreviousFrameMotionModel.Options.beta_small_velocity e5 (fun _ => rfl),
        upd_get PreviousFrameMotionModel.Options.beta_small_velocity e4 (fun _ => rfl),
        upd_get PreviousFrameMotionModel.Options.beta_small_velocity e3 (fun _ => rfl),
        upd_get_own PreviousFrameMotionModel.Options.beta_small_velocity e2 (fun _ => rfl),
        upd_get PreviousFrameMotionModel.Options.beta_small_velocity e1 (fun _ => rfl)]
  · show o7.beta_orientation_consistency = _
    rw [
        upd_get PreviousFrameMotionModel.Options.beta_orientation_consistency e7 (fun _ => rfl),
        upd_get PreviousFrameMotionModel.Options.beta_orientation_consistency e6 (fun _ => rfl),
        upd_get PreviousFrameMotionModel.Options.beta_orientation_consistency e5 (fun _ => rfl),
        upd_get PreviousFrameMotionModel.Options.beta_orientation_consistency e4 (fun _ => rfl),
        upd_get_own PreviousFrameMotionModel.Options.beta_orientation_consistency e3 (fun _ => rfl),
        upd_get PreviousFrameMotionModel.Options.beta_orientation_consistency e2 (fun _ => rfl),
        upd_get PreviousFrameMotionModel.Options.beta_orientation_consistency e1 (fun _ => rfl)]
  · show o7.beta_constant_velocity = _
    rw [
        upd_get PreviousFrameMotionModel.Options.beta_constant_velocity e7 (fun _ => rfl),
        upd_get PreviousFrameMotionModel.Options.beta_constant_velocity e6 (fun _ => rfl),
        upd_get PreviousFrameMotionModel.Options.beta_constant_velocity e5 (fun _ => rfl),
        upd_get_own PreviousFrameMotionModel.Options.beta_constant_velocity e4 (fun _ => rfl),
        upd_get PreviousFrameMotionModel.Options.beta_constant_velocity e3 (fun _ => rfl),
        upd_get PreviousFrameMotionModel.Options.beta_constant_velocity e2 (fun _ => rfl),
        upd_get PreviousFrameMotionModel.Options.beta_constant_velocity e1 (fun _ => rfl)]
  · show o7.threshold_orientation_deg = _
    rw [
        upd_get PreviousFrameMotionModel.Options.threshold_orientation_deg e7 (fun _ => rfl),
        upd_get PreviousFrameMotionModel.Options.threshold_orientation_deg e6 (fun _ => rfl),
        upd_get_own PreviousFrameMotionModel.Options.threshold_orientation_deg e5 (fun _ => rfl),
        upd_get PreviousFrameMotionModel.Options.threshold_orientation_deg e4 (fun _ => rfl),
        upd_get PreviousFrameMotionModel.Options.threshold_orientation_deg e3 (fun _ => rfl),
        upd_get PreviousFrameMotionModel.Options.threshold_orientation_deg e2 (fun _ => rfl),
        upd_get PreviousFrameMotionModel.Options.threshold_orientation_deg e1 (fun _ => rfl)]
  · show o7.threshold_translation_diff = _
    rw [
        upd_get PreviousFrameMotionModel.Options.threshold_translation_diff e7 (fun _ => rfl),
        upd_get_own PreviousFrameMotionModel.Options.threshold_translation_diff e6 (fun _ => rfl),
        upd_get PreviousFrameMotionModel.Options.threshold_translation_diff e5 (fun _ => rfl),
        upd_get PreviousFrameMotionModel.Options.threshold_translation_diff e4 (fun _ => rfl),
        upd_get PreviousFrameMotionModel.Options.threshold_translation_diff e3 (fun _ => rfl),
        upd_get PreviousFrameMotionModel.Options.threshold_translation_diff e2 (fun _ => rfl),
        upd_get PreviousFrameMotionModel.Options.threshold_translation_diff e1 (fun _ => rfl)]
  · show o7.log_if_invalid = _
    rw [
        upd_get_own PreviousFrameMotionModel.Options.log_if_invalid e7 (fun _ => rfl),
        upd_get PreviousFrameMotionModel.Options.log_if_invalid e6 (fun _ => rfl),
        upd_get PreviousFrameMotionModel.Options.log_if_invalid e5 (fun _ => rfl),
        upd_get PreviousFrameMotionModel.Options.log_if_invalid e4 (fun _ => rfl),
        upd_get PreviousFrameMotionModel.Options.log_if_invalid e3 (fun _ => rfl),
        upd_get PreviousFrameMotionModel.Options.log_if_invalid e2 (fun _ => rfl),
        upd_get PreviousFrameMotionModel.Options.log_if_invalid e1 (fun _ => rfl)]
  · show m = _
    rw [em,
        upd_get PreviousFrameMotionModel.Options.model e7 (fun _ => rfl),
        upd_get PreviousFrameMotionModel.Options.model e6 (fun _ => rfl),
        upd_get PreviousFrameMotionModel.Options.model e5 (fun _ => rfl),
        upd_get PreviousFrameMotionModel.Options.model e4 (fun _ => rfl),
        upd_get PreviousFrameMotionModel.Options.model e3 (fun _ => rfl),
        upd_get PreviousFrameMotionModel.Options.model e2 (fun _ => rfl),
        upd_get PreviousFrameMotionModel.Options.model e1 (fun _ => rfl)]

/-- A successful motion-model load implies the supplied model tag was
recognized. -/
theorem mm_tags {init : PreviousFrameMotionModel.Options} {node : Yaml}
    {r : PreviousFrameMotionModel.Options}
    (h : yaml_to_motion_model_options_from init node = .ok r) :
    ∀ s, node.findStr "model" = some s →
      (lookupTag [("CONSTANT_VELOCITY", MOTION_MODEL.CONSTANT_VELOCITY),
                  ("SMALL_VELOCITY", MOTION_MODEL.SMALL_VELOCITY)] s).isSome := by
  unfold yaml_to_motion_model_options_from at h
  obtain ⟨o1, h1, h⟩ := bind_ok h
  obtain ⟨o2, h2, h⟩ := bind_ok h
  obtain ⟨o3, h3, h⟩ := bind_ok h
  obtain ⟨o4, h4, h⟩ := bind_ok h
  obtain ⟨o5, h5, h⟩ := bind_ok h
  obtain ⟨o6, h6, h⟩ := bind_ok h
  obtain ⟨o7, h7, h⟩ := bind_ok h
  obtain ⟨m, h8, h⟩ := bind_ok h
  exact fun s hs => FindEnumOption_ok_tag h8 hs

/-! ### The tag tables are closed -/

theorem distanceOfTag_mem {s : String} (h : (distanceOfTag s).isSome) : s ∈ ["POINT_TO_PLANE", "POINT_TO_LINE", "POINT_TO_POINT", "POINT_TO_DISTRIBUTION"] := by
  unfold distanceOfTag at h
  split_ifs at h <;> simp_all

theorem parametrizationOfTag_mem {s : String} (h : (parametrizationOfTag s).isSome) : s ∈ ["SIMPLE", "CONTINUOUS_TIME"] := by
  unfold parametrizationOfTag at h
  split_ifs at h <;> simp_all

theorem solverOfTag_mem {s : String} (h : (solverOfTag s).isSome) : s ∈ ["GN", "CERES", "ROBUST"] := by
  unfold solverOfTag at h
  split_ifs at h <;> simp_all

theorem lossOfTag_mem {s : String} (h : (lossOfTag s).isSome) : s ∈ ["STANDARD", "CAUCHY", "HUBER", "TOLERANT", "TRUNCATED"] := by
  unfold lossOfTag at h
  split_ifs at h <;> simp_all

theorem motionCompensationOfTag_mem {s : String} (h : (motionCompensationOfTag s).isSome) : s ∈ ["NONE", "CONSTANT_VELOCITY", "ITERATIVE", "CONTINUOUS"] := by
  unfold motionCompensationOfTag at h
  split_ifs at h <;> simp_all

theorem samplingOfTag_mem {s : String} (h : (samplingOfTag s).isSome) : s ∈ ["NONE", "GRID", "ADAPTIVE"] := by
  unfold samplingOfTag at h
  split_ifs at h <;> simp_all

theorem initializationOfTag_mem {s : String} (h : (initializationOfTag s).isSome) : s ∈ ["INIT_NONE", "INIT_CONSTANT_VELOCITY"] := by
  unfold initializationOfTag at h
  split_ifs at h <;> simp_all

theorem modelTag_mem {s : String}
    (h : (lookupTag [("CONSTANT_VELOCITY", MOTION_MODEL.CONSTANT_VELOCITY),
                     ("SMALL_VELOCITY", MOTION_MODEL.SMALL_VELOCITY)] s).isSome) :
    s ∈ ["CONSTANT_VELOCITY", "SMALL_VELOCITY"] := by
  simp only [lookupTag] at h
  split_ifs at h <;> simp_all

/-! ### The claims -/

/-- C1 counterexample: the document with min_number_neighbors = 5 and
max_number_neighbors = 2 is accepted by loading, and the returned record
violates min ≤ max — loading performs no such validation. -/
theorem c1_counterexample :
    exceptIsOk (yaml_to_ct_icp_options cx1Node) = true ∧
    ¬ ((exceptGetD defaultCTICPOptions (yaml_to_ct_icp_options cx1Node)).min_number_neighbors ≤
       (exceptGetD defaultCTICPOptions (yaml_to_ct_icp_options cx1Node)).max_number_neighbors) := by
  exact ⟨rfl, by decide⟩

/-- C1 (amended): loading copies min_number_neighbors and
max_number_neighbors independently from their own keys (keeping the
default when a key is absent) and performs no min ≤ max check, so
documents violating min ≤ max are accepted. -/
theorem c1_min_max_copied_unchecked {init : CTICPOptions} {node : Yaml}
    {r : CTICPOptions} (h : yaml_to_ct_icp_options_from init node = .ok r) :
    r.min_number_neighbors =
      (node.findInt "min_number_neighbors").getD init.min_number_neighbors ∧
    r.max_number_neighbors =
      (node.findInt "max_number_neighbors").getD init.max_number_neighbors := by
  have H := cticp_fields h
  exact ⟨H.2.2.1, H.2.2.2.1⟩

/-- C1 witness: the amended theorem applied to the violating document. -/
theorem c1_witness :
    (exceptGetD defaultCTICPOptions (yaml_to_ct_icp_options cx1Node)).min_number_neighbors = 5 ∧
    (exceptGetD defaultCTICPOptions (yaml_to_ct_icp_options cx1Node)).max_number_neighbors = 2 := by
  have H := @c1_min_max_copied_unchecked defaultCTICPOptions cx1Node
    (exceptGetD defaultCTICPOptions (yaml_to_ct_icp_options cx1Node)) rfl
  exact ⟨H.1, H.2⟩

/-- C2: for each of the seven enum-valued configuration fields — distance,
parametrization, solver, loss function (registration options) and sampling,
initialization, motion compensation (odometry options) — a supplied string
that is not a recognized tag makes option loading fail fatally, so no
options record is returned.  Frame processing is outside the loading code;
the rejection happens inside the loader itself. -/
theorem c2_unknown_enum_tag_fatal {init : CTICPOptions} {oinit : OdometryOptions}
    {node onode : Yaml} :
    (∀ s, node.findStr "distance" = some s → distanceOfTag s = none →
      exceptIsOk (yaml_to_ct_icp_options_from init node) = false) ∧
    (∀ s, node.findStr "parametrization" = some s → parametrizationOfTag s = none →
      exceptIsOk (yaml_to_ct_icp_options_from init node) = false) ∧
    (∀ s, node.findStr "solver" = some s → solverOfTag s = none →
      exceptIsOk (yaml_to_ct_icp_options_from init node) = false) ∧
    (∀ s, node.findStr "loss_function" = some s → lossOfTag s = none →
      exceptIsOk (yaml_to_ct_icp_options_from init node) = false) ∧
    (∀ s, onode.findStr "motion_compensation" = some s → motionCompensationOfTag s = none →
      exceptIsOk (yaml_to_odometry_options_from oinit onode) = false) ∧
    (∀ s, onode.findStr "sampling" = some s → samplingOfTag s = none →
      exceptIsOk (yaml_to_odometry_options_from oinit onode) = false) ∧
    (∀ s, onode.findStr "initialization" = some s → initializationOfTag s = none →
      exceptIsOk (yaml_to_odometry_options_from oinit onode) = false) := by
  refine ⟨?_, ?_, ?_, ?_, ?_, ?_, ?_⟩
  · intro s hs htag
    cases hres : yaml_to_ct_icp_options_from init node with
    | error e => rfl
    | ok r =>
      have hrec := (cticp_tags hres).1 s hs
      rw [htag] at hrec
      exact absurd hrec (by simp)
  · intro s hs htag
    cases hres : yaml_to_ct_icp_options_from init node with
    | error e => rfl
    | ok r =>
      have hrec := (cticp_tags hres).2.1 s hs
      rw [htag] at hrec
      exact absurd hrec (by simp)
  · intro s hs htag
    cases hres : yaml_to_ct_icp_options_from init node with
    | error e => rfl
    | ok r =>
      have hrec := (cticp_tags hres).2.2.1 s hs
      rw [htag] at hrec
      exact absurd hrec (by simp)
  · intro s hs htag
    cases hres : yaml_to_ct_icp_options_from init node with
    | error e => rfl
    | ok r =>
      have hrec := (cticp_tags hres).2.2.2 s hs
      rw [htag] at hrec
      exact absurd hrec (by simp)
  · intro s hs htag
    cases hres : yaml_to_odometry_options_from oinit onode with
    | error e => rfl
    | ok pr =>
      have hrec := (odo_tags hres).1 s hs
      rw [htag] at hrec
      exact absurd hrec (by simp)
  · intro s hs htag
    cases hres : yaml_to_odometry_options_from oinit onode with
    | error e => rfl
    | ok pr =>
      have hrec := (odo_tags hres).2.1 s hs
      rw [htag] at hrec
      exact absurd hrec (by simp)
  · intro s hs htag
    cases hres : yaml_to_odometry_options_from oinit onode with
    | error e => rfl
    | ok pr =>
      have hrec := (odo_tags hres).2.2 s hs
      rw [htag] at hrec
      exact absurd hrec (by simp)

/-- C2 witness: seven concrete documents with unrecognized tags are all
rejected. -/
theorem c2_witness :
    exceptIsOk (yaml_to_ct_icp_options cxBadDistanceNode) = false ∧
    exceptIsOk (yaml_to_ct_icp_options cxBadParametrizationNode) = false ∧
    exceptIsOk (yaml_to_ct_icp_options cxBadSolverNode) = false ∧
    exceptIsOk (yaml_to_ct_icp_options cxBadLossNode) = false ∧
    exceptIsOk (yaml_to_odometry_options cxBadMotionCompNode) = false ∧
    exceptIsOk (yaml_to_odometry_options cxBadSamplingNode) = false ∧
    exceptIsOk (yaml_to_odometry_options cxBadInitializationNode) = false := by
  refine ⟨?_, ?_, ?_, ?_, ?_, ?_, ?_⟩
  · exact (@c2_unknown_enum_tag_fatal defaultCTICPOptions defaultOdometryOptions
      cxBadDistanceNode (Yaml.node [])).1 "EUCLIDEAN" rfl rfl
  · exact (@c2_unknown_enum_tag_fatal defaultCTICPOptions defaultOdometryOptions
      cxBadParametrizationNode (Yaml.node [])).2.1 "SPLINE" rfl rfl
  · exact (@c2_unknown_enum_tag_fatal defaultCTICPOptions defaultOdometryOptions
      cxBadSolverNode (Yaml.node [])).2.2.1 "LBFGS" rfl rfl
  · exact (@c2_unknown_enum_tag_fatal defaultCTICPOptions defaultOdometryOptions
      cxBadLossNode (Yaml.node [])).2.2.2.1 "GEMAN_MCCLURE" rfl rfl
  · exact (@c2_unknown_enum_tag_fatal defaultCTICPOptions defaultOdometryOptions
      (Yaml.node []) cxBadMotionCompNode).2.2.2.2.1 "SPLINE" rfl rfl
  · exact (@c2_unknown_enum_tag_fatal defaultCTICPOptions defaultOdometryOptions
      (Yaml.node []) cxBadSamplingNode).2.2.2.2.2.1 "RANDOM" rfl rfl
  · exact (@c2_unknown_enum_tag_fatal defaultCTICPOptions defaultOdometryOptions
      (Yaml.node []) cxBadInitializationNode).2.2.2.2.2.2 "IMU" rfl rfl

/-- C3 counterexample: a document with point_to_plane_with_distortion = true
and distance = POINT_TO_POINT loads successfully — no fatal configuration
error is raised at option loading for this combination. -/
theorem c3_counterexample :
    exceptIsOk (yaml_to_ct_icp_options cx3Node) = true ∧
    (exceptGetD defaultCTICPOptions (yaml_to_ct_icp_options cx3Node)).point_to_plane_with_distortion = true ∧
    (exceptGetD defaultCTICPOptions (yaml_to_ct_icp_options cx3Node)).distance = ICP_DISTANCE.POINT_TO_POINT := by
  exact ⟨rfl, rfl, rfl⟩

/-- C3 (amended): option loading performs no check relating
point_to_plane_with_distortion to the distance metric: for every non-plane
distance tag, the document enabling distortion with that metric loads
successfully and keeps both settings. -/
theorem c3_no_distortion_check :
    ∀ t : String, t ∈ ["POINT_TO_LINE", "POINT_TO_POINT", "POINT_TO_DISTRIBUTION"] →
    exceptIsOk (yaml_to_ct_icp_options (distortionNodeOf t)) = true ∧
    (exceptGetD defaultCTICPOptions (yaml_to_ct_icp_options (distortionNodeOf t))).point_to_plane_with_distortion = true ∧
    (exceptGetD defaultCTICPOptions (yaml_to_ct_icp_options (distortionNodeOf t))).distance ≠ ICP_DISTANCE.POINT_TO_PLANE := by
  intro t ht
  simp only [List.mem_cons, List.not_mem_nil, or_false] at ht
  rcases ht with rfl | rfl | rfl <;> exact ⟨rfl, rfl, by decide⟩

/-- C3 witness: the amended theorem at the POINT_TO_LINE tag. -/
theorem c3_witness :
    exceptIsOk (yaml_to_ct_icp_options (distortionNodeOf "POINT_TO_LINE")) = true ∧
    (exceptGetD defaultCTICPOptions (yaml_to_ct_icp_options (distortionNodeOf "POINT_TO_LINE"))).point_to_plane_with_distortion = true ∧
    (exceptGetD defaultCTICPOptions (yaml_to_ct_icp_options (distortionNodeOf "POINT_TO_LINE"))).distance ≠ ICP_DISTANCE.POINT_TO_PLANE := by
  exact c3_no_distortion_check "POINT_TO_LINE" (by simp)

/-- C4 counterexample: a document whose neighborhood_strategy type tag names
no known strategy loads successfully — loading does not fail; it keeps the
default strategy and logs a warning. -/
theorem c4_counterexample :
    exceptIsOk (yaml_to_odometry_options cx4Node) = true ∧
    (exceptGetD (defaultOdometryOptions, []) (yaml_to_odometry_options cx4Node)).1.neighborhood_strategy.kind = STRATEGY_KIND.DEFAULT_NEAREST_NEIGHBOR ∧
    (exceptGetD (defaultOdometryOptions, []) (yaml_to_odometry_options cx4Node)).2 =
      [mapOptionsDeprecationWarning, strategyUnknownWarning "KD_TREE_STRATEGY"] := by
  exact ⟨rfl, rfl, rfl⟩

/-- C4 (amended): an unknown neighborhood-strategy type tag is not a load
failure: loading succeeds, logs a warning naming the tag, and keeps the
strategy already owned by the record (the default), which then reads its
parameters from the strategy node. -/
theorem c4_unknown_strategy_kept {init : OdometryOptions} {node sn : Yaml}
    {ty : String} {pr : OdometryOptions × List String}
    (hn : node.find "neighborhood_strategy" = some sn)
    (htt : sn.find "type" = some (.str ty))
    (hty1 : ty ≠ distanceBasedStrategyTypeName)
    (hty2 : ty ≠ defaultNearestNeighborStrategyTypeName)
    (h : yaml_to_odometry_options_from init node = .ok pr) :
    pr.1.neighborhood_strategy.kind = init.neighborhood_strategy.kind ∧
    strategyUnknownWarning ty ∈ pr.2 := by
  unfold yaml_to_odometry_options_from at h
  obtain ⟨o1, h1, h⟩ := bind_ok h
  obtain ⟨o2, h2, h⟩ := bind_ok h
  obtain ⟨o3, h3, h⟩ := bind_ok h
  obtain ⟨o4, h4, h⟩ := bind_ok h
  obtain ⟨o5, h5, h⟩ := bind_ok h
  obtain ⟨o6, h6, h⟩ := bind_ok h
  obtain ⟨p, h7, h⟩ := bind_ok h
  obtain ⟨o8, h8, h⟩ := bind_ok h
  obtain ⟨o9, h9, h⟩ := bind_ok h
  obtain ⟨o10, h10, h⟩ := bind_ok h
  obtain ⟨o11, h11, h⟩ := bind_ok h
  obtain ⟨o12, h12, h⟩ := bind_ok h
  obtain ⟨o13, h13, h⟩ := bind_ok h
  obtain ⟨o14, h14, h⟩ := bind_ok h
  obtain ⟨o15, h15, h⟩ := bind_ok h
  obtain ⟨o16, h16, h⟩ := bind_ok h
  obtain ⟨o17, h17, h⟩ := bind_ok h
  obtain ⟨o18, h18, h⟩ := bind_ok h
  obtain ⟨o19, h19, h⟩ := bind_ok h
  obtain ⟨o20, h20, h⟩ := bind_ok h
  obtain ⟨o21, h21, h⟩ := bind_ok h
  obtain ⟨o22, h22, h⟩ := bind_ok h
  obtain ⟨o23, h23, h⟩ := bind_ok h
  obtain ⟨o24, h24, h⟩ := bind_ok h
  obtain ⟨o25, h25, h⟩ := bind_ok h
  obtain ⟨o26, h26, h⟩ := bind_ok h
  obtain ⟨o27, h27, h⟩ := bind_ok h
  obtain ⟨o28, h28, h⟩ := bind_ok h
  obtain ⟨o29, h29, h⟩ := bind_ok h
  obtain ⟨o30, h30, h⟩ := bind_ok h
  obtain ⟨o31, h31, h⟩ := bind_ok h
  obtain ⟨o32, h32, h⟩ := bind_ok h
  obtain ⟨o33, h33, h⟩ := bind_ok h
  obtain ⟨o34, h34, h⟩ := bind_ok h
  have hr := pure_ok h
  subst hr
  have e1 := ratClause_ok h1
  have e2 := ratClause_ok h2
  have e3 := ratClause_ok h3
  have e4 := ratClause_ok h4
  have e5 := intClause_ok h5
  have e6 := ratClause_ok h6
  have e8 := ratClause_ok h8
  have e9 := intClause_ok h9
  have e10 := ratClause_ok h10
  have e11 := intClause_ok h11
  have e12 := ratClause_ok h12
  have e13 := intClause_ok h13
  have e14 := ratClause_ok h14
  have e15 := ratClause_ok h15
  have e16 := boolClause_ok h16
  have e17 := strClause_ok h17
  have e18 := boolClause_ok h18
  have e19 := boolClause_ok h19
  have e20 := boolClause_ok h20
  have e21 := boolClause_ok h21
  have e22 := intClause_ok h22
  have e23 := boolClause_ok h23
  have e24 := ratClause_ok h24
  have e25 := boolClause_ok h25
  have e26 := intClause_ok h26
  have e27 := intClause_ok h27
  have e28 := ratClause_ok h28
  have e29 := ratClause_ok h29
  have e31 := motionCompensationClause_ok h31
  have e32 := samplingClause_ok h32
  have e33 := initializationClause_ok h33
  have hstep := @strategyStep_unknown node sn ty (mapOptionsStep node o6) hn htt hty1 hty2
  rw [hstep] at h7
  have hp := Except.ok.inj h7
  constructor
  · show strategyKind o34 = _
    rw [ctIcpOptionsStep_get strategyKind h34 (fun _ => rfl),
        upd_get strategyKind e33 (fun _ => rfl),
        upd_get strategyKind e32 (fun _ => rfl),
        upd_get strategyKind e31 (fun _ => rfl),
        motionModelStep_get strategyKind h30 (fun _ => rfl),
        upd_get strategyKind e29 (fun _ => rfl),
        upd_get strategyKind e28 (fun _ => rfl),
        upd_get strategyKind e27 (fun _ => rfl),
        upd_get strategyKind e26 (fun _ => rfl),
        upd_get strategyKind e25 (fun _ => rfl),
        upd_get strategyKind e24 (fun _ => rfl),
        upd_get strategyKind e23 (fun _ => rfl),
        upd_get strategyKind e22 (fun _ => rfl),
        upd_get strategyKind e21 (fun _ => rfl),
        upd_get strategyKind e20 (fun _ => rfl),
        upd_get strategyKind e19 (fun _ => rfl),
        upd_get strategyKind e18 (fun _ => rfl),
        upd_get strategyKind e17 (fun _ => rfl),
        upd_get strategyKind e16 (fun _ => rfl),
        upd_get strategyKind e15 (fun _ => rfl),
        upd_get strategyKind e14 (fun _ => rfl),
        upd_get strategyKind e13 (fun _ => rfl),
        upd_get strategyKind e12 (fun _ => rfl),
        upd_get strategyKind e11 (fun _ => rfl),
        upd_get strategyKind e10 (fun _ => rfl),
        upd_get strategyKind e9 (fun _ => rfl),
        upd_get strategyKind e8 (fun _ => rfl)]
    rw [← hp]
    show strategyKind (mapOptionsStep node o6) = _
    rw [mapOptionsStep_get strategyKind (fun _ => rfl),
        upd_get strategyKind e6 (fun _ => rfl),
        upd_get strategyKind e5 (fun _ => rfl),
        upd_get strategyKind e4 (fun _ => rfl),
        upd_get strategyKind e3 (fun _ => rfl),
        upd_get strategyKind e2 (fun _ => rfl),
        upd_get strategyKind e1 (fun _ => rfl)]
    rfl
  · show strategyUnknownWarning ty ∈ mapOptionsWarning node ++ p.2
    rw [← hp]
    show strategyUnknownWarning ty ∈ mapOptionsWarning node ++ [strategyUnknownWarning ty]
    simp

/-- C4 witness: the amended theorem at a concrete document with an unknown
strategy tag. -/
theorem c4_witness :
    (exceptGetD (defaultOdometryOptions, []) (yaml_to_odometry_options w4Node)).1.neighborhood_strategy.kind =
      defaultOdometryOptions.neighborhood_strategy.kind ∧
    strategyUnknownWarning "VOXEL_HASH_STRATEGY" ∈
      (exceptGetD (defaultOdometryOptions, []) (yaml_to_odometry_options w4Node)).2 := by
  exact @c4_unknown_strategy_kept defaultOdometryOptions w4Node
    (Yaml.node [("type", Yaml.str "VOXEL_HASH_STRATEGY")]) "VOXEL_HASH_STRATEGY"
    (exceptGetD (defaultOdometryOptions, []) (yaml_to_odometry_options w4Node))
    rfl rfl (by decide) (by decide) rfl

/-- C5: each recognized registration enum tag maps to exactly the named
variant, and no tag outside the closed sets is accepted.  The source names
the external nonlinear-least-squares solver `CERES` (after the Ceres
library it delegates to); the spec calls this solver kind EXTERNAL_NLS. -/
theorem c5_enum_tags_closed {init : CTICPOptions} {node : Yaml} {r : CTICPOptions}
    (h : yaml_to_ct_icp_options_from init node = .ok r) :
    (node.findStr "distance" = some "POINT_TO_PLANE" → r.distance = ICP_DISTANCE.POINT_TO_PLANE) ∧
    (node.findStr "distance" = some "POINT_TO_LINE" → r.distance = ICP_DISTANCE.POINT_TO_LINE) ∧
    (node.findStr "distance" = some "POINT_TO_POINT" → r.distance = ICP_DISTANCE.POINT_TO_POINT) ∧
    (node.findStr "distance" = some "POINT_TO_DISTRIBUTION" → r.distance = ICP_DISTANCE.POINT_TO_DISTRIBUTION) ∧
    (node.findStr "parametrization" = some "SIMPLE" → r.parametrization = POSE_PARAMETRIZATION.SIMPLE) ∧
    (node.findStr "parametrization" = some "CONTINUOUS_TIME" → r.parametrization = POSE_PARAMETRIZATION.CONTINUOUS_TIME) ∧
    (node.findStr "solver" = some "GN" → r.solver = CT_ICP_SOLVER.GN) ∧
    (node.findStr "solver" = some "CERES" → r.solver = CT_ICP_SOLVER.CERES) ∧
    (node.findStr "solver" = some "ROBUST" → r.solver = CT_ICP_SOLVER.ROBUST) ∧
    (node.findStr "loss_function" = some "STANDARD" → r.loss_function = LEAST_SQUARES.STANDARD) ∧
    (node.findStr "loss_function" = some "CAUCHY" → r.loss_function = LEAST_SQUARES.CAUCHY) ∧
    (node.findStr "loss_function" = some "HUBER" → r.loss_function = LEAST_SQUARES.HUBER) ∧
    (node.findStr "loss_function" = some "TOLERANT" → r.loss_function = LEAST_SQUARES.TOLERANT) ∧
    (node.findStr "loss_function" = some "TRUNCATED" → r.loss_function = LEAST_SQUARES.TRUNCATED) ∧
    (∀ s, node.findStr "distance" = some s → s ∈ ["POINT_TO_PLANE", "POINT_TO_LINE", "POINT_TO_POINT", "POINT_TO_DISTRIBUTION"]) ∧
    (∀ s, node.findStr "parametrization" = some s → s ∈ ["SIMPLE", "CONTINUOUS_TIME"]) ∧
    (∀ s, node.findStr "solver" = some s → s ∈ ["GN", "CERES", "ROBUST"]) ∧
    (∀ s, node.findStr "loss_function" = some s → s ∈ ["STANDARD", "CAUCHY", "HUBER", "TOLERANT", "TRUNCATED"]) := by
  have HF := cticp_fields h
  have HT := cticp_tags h
  refine ⟨?_, ?_, ?_, ?_, ?_, ?_, ?_, ?_, ?_, ?_, ?_, ?_, ?_, ?_, ?_, ?_, ?_, ?_⟩
  · intro hs
    have hv := HF.2.2.2.2.2.2.2.2.2.2.2.2.2.2.2.2.2.2.2.2.2.2.2.2.2.2.2.2.2.1
    rw [hs] at hv
    simpa [distanceOfTag] using hv
  · intro hs
    have hv := HF.2.2.2.2.2.2.2.2.2.2.2.2.2.2.2.2.2.2.2.2.2.2.2.2.2.2.2.2.2.1
    rw [hs] at hv
    simpa [distanceOfTag] using hv
  · intro hs
    have hv := HF.2.2.2.2.2.2.2.2.2.2.2.2.2.2.2.2.2.2.2.2.2.2.2.2.2.2.2.2.2.1
    rw [hs] at hv
    simpa [distanceOfTag] using hv
  · intro hs
    have hv := HF.2.2.2.2.2.2.2.2.2.2.2.2.2.2.2.2.2.2.2.2.2.2.2.2.2.2.2.2.2.1
    rw [hs] at hv
    simpa [distanceOfTag] using hv
  · intro hs
    have hv := HF.2.2.2.2.2.2.2.2.2.2.2.2.2.2.2.2.2.2.2.2.2.2.2.2.2.2.2.2.2.2.1
    rw [hs] at hv
    simpa [parametrizationOfTag] using hv
  · intro hs
    have hv := HF.2.2.2.2.2.2.2.2.2.2.2.2.2.2.2.2.2.2.2.2.2.2.2.2.2.2.2.2.2.2.1
    rw [hs] at hv
    simpa [parametrizationOfTag] using hv
  · intro hs
    have hv := HF.2.2.2.2.2.2.2.2.2.2.2.2.2.2.2.2.2.2.2.2.2.2.2.2.2.2.2.2.2.2.2.1
    rw [hs] at hv
    simpa [solverOfTag] using hv
  · intro hs
    have hv := HF.2.2.2.2.2.2.2.2.2.2.2.2.2.2.2.2.2.2.2.2.2.2.2.2.2.2.2.2.2.2.2.1
    rw [hs] at hv
    simpa [solverOfTag] using hv
  · intro hs
    have hv := HF.2.2.2.2.2.2.2.2.2.2.2.2.2.2.2.2.2.2.2.2.2.2.2.2.2.2.2.2.2.2.2.1
    rw [hs] at hv
    simpa [solverOfTag] using hv
  · intro hs
    have hv := HF.2.2.2.2.2.2.2.2.2.2.2.2.2.2.2.2.2.2.2.2.2.2.2.2.2.2.2.2.2.2.2.2
    rw [hs] at hv
    simpa [lossOfTag] using hv
  · intro hs
    have hv := HF.2.2.2.2.2.2.2.2.2.2.2.2.2.2.2.2.2.2.2.2.2.2.2.2.2.2.2.2.2.2.2.2
    rw [hs] at hv
    simpa [lossOfTag] using hv
  · intro hs
    have hv := HF.2.2.2.2.2.2.2.2.2.2.2.2.2.2.2.2.2.2.2.2.2.2.2.2.2.2.2.2.2.2.2.2
    rw [hs] at hv
    simpa [lossOfTag] using hv
  · intro hs
    have hv := HF.2.2.2.2.2.2.2.2.2.2.2.2.2.2.2.2.2.2.2.2.2.2.2.2.2.2.2.2.2.2.2.2
    rw [hs] at hv
    simpa [lossOfTag] using hv
  · intro hs
    have hv := HF.2.2.2.2.2.2.2.2.2.2.2.2.2.2.2.2.2.2.2.2.2.2.2.2.2.2.2.2.2.2.2.2
    rw [hs] at hv
    simpa [lossOfTag] using hv
  · exact fun s hs => distanceOfTag_mem (HT.1 s hs)
  · exact fun s hs => parametrizationOfTag_mem (HT.2.1 s hs)
  · exact fun s hs => solverOfTag_mem (HT.2.2.1 s hs)
  · exact fun s hs => lossOfTag_mem (HT.2.2.2 s hs)

/-- C5 witness: a concrete document setting all four enum fields. -/
theorem c5_witness :
    (exceptGetD defaultCTICPOptions (yaml_to_ct_icp_options c5Node)).distance = ICP_DISTANCE.POINT_TO_LINE ∧
    (exceptGetD defaultCTICPOptions (yaml_to_ct_icp_options c5Node)).parametrization = POSE_PARAMETRIZATION.SIMPLE ∧
    (exceptGetD defaultCTICPOptions (yaml_to_ct_icp_options c5Node)).solver = CT_ICP_SOLVER.CERES ∧
    (exceptGetD defaultCTICPOptions (yaml_to_ct_icp_options c5Node)).loss_function = LEAST_SQUARES.HUBER := by
  have H := @c5_enum_tags_closed defaultCTICPOptions c5Node
    (exceptGetD defaultCTICPOptions (yaml_to_ct_icp_options c5Node)) rfl
  exact ⟨H.2.1 rfl, H.2.2.2.2.1 rfl, H.2.2.2.2.2.2.2.1 rfl, H.2.2.2.2.2.2.2.2.2.2.2.1 rfl⟩

/-- C6: each recognized odometry-level policy tag maps to exactly the named
variant from its closed set: sampling NONE/GRID/ADAPTIVE, initialization
INIT_NONE/INIT_CONSTANT_VELOCITY, motion compensation
NONE/CONSTANT_VELOCITY/ITERATIVE/CONTINUOUS. -/
theorem c6_odometry_policy_tags {init : OdometryOptions} {node : Yaml}
    {pr : OdometryOptions × List String}
    (h : yaml_to_odometry_options_from init node = .ok pr) :
    (node.findStr "sampling" = some "NONE" → pr.1.sampling = SAMPLING.NONE) ∧
    (node.findStr "sampling" = some "GRID" → pr.1.sampling = SAMPLING.GRID) ∧
    (node.findStr "sampling" = some "ADAPTIVE" → pr.1.sampling = SAMPLING.ADAPTIVE) ∧
    (node.findStr "initialization" = some "INIT_NONE" → pr.1.initialization = INITIALIZATION.INIT_NONE) ∧
    (node.findStr "initialization" = some "INIT_CONSTANT_VELOCITY" → pr.1.initialization = INITIALIZATION.INIT_CONSTANT_VELOCITY) ∧
    (node.findStr "motion_compensation" = some "NONE" → pr.1.motion_compensation = MOTION_COMPENSATION.NONE) ∧
    (node.findStr "motion_compensation" = some "CONSTANT_VELOCITY" → pr.1.motion_compensation = MOTION_COMPENSATION.CONSTANT_VELOCITY) ∧
    (node.findStr "motion_compensation" = some "ITERATIVE" → pr.1.motion_compensation = MOTION_COMPENSATION.ITERATIVE) ∧
    (node.findStr "motion_compensation" = some "CONTINUOUS" → pr.1.motion_compensation = MOTION_COMPENSATION.CONTINUOUS) ∧
    (∀ s, node.findStr "sampling" = some s → s ∈ ["NONE", "GRID", "ADAPTIVE"]) ∧
    (∀ s, node.findStr "initialization" = some s → s ∈ ["INIT_NONE", "INIT_CONSTANT_VELOCITY"]) ∧
    (∀ s, node.findStr "motion_compensation" = some s → s ∈ ["NONE", "CONSTANT_VELOCITY", "ITERATIVE", "CONTINUOUS"]) := by
  have HF := odo_fields h
  have HT := odo_tags h
  refine ⟨?_, ?_, ?_, ?_, ?_, ?_, ?_, ?_, ?_, ?_, ?_, ?_⟩
  · intro hs
    have hv := HF.2.2.2.2.2.2.2.2.2.2.2.2.2.2.2.2.2.2.2.2.2.2.2.2.2.2.2.2.2.1
    rw [hs] at hv
    simpa [samplingOfTag] using hv
  · intro hs
    have hv := HF.2.2.2.2.2.2.2.2.2.2.2.2.2.2.2.2.2.2.2.2.2.2.2.2.2.2.2.2.2.1
    rw [hs] at hv
    simpa [samplingOfTag] using hv
  · intro hs
    have hv := HF.2.2.2.2.2.2.2.2.2.2.2.2.2.2.2.2.2.2.2.2.2.2.2.2.2.2.2.2.2.1
    rw [hs] at hv
    simpa [samplingOfTag] using hv
  · intro hs
    have hv := HF.2.2.2.2.2.2.2.2.2.2.2.2.2.2.2.2.2.2.2.2.2.2.2.2.2.2.2.2.2.2.1
    rw [hs] at hv
    simpa [initializationOfTag] using hv
  · intro hs
    have hv := HF.2.2.2.2.2.2.2.2.2.2.2.2.2.2.2.2.2.2.2.2.2.2.2.2.2.2.2.2.2.2.1
    rw [hs] at hv
    simpa [initializationOfTag] using hv
  · intro hs
    have hv := HF.2.2.2.2.2.2.2.2.2.2.2.2.2.2.2.2.2.2.2.2.2.2.2.2.2.2.2.2.1
    rw [hs] at hv
    simpa [motionCompensationOfTag] using hv
  · intro hs
    have hv := HF.2.2.2.2.2.2.2.2.2.2.2.2.2.2.2.2.2.2.2.2.2.2.2.2.2.2.2.2.1
    rw [hs] at hv
    simpa [motionCompensationOfTag] using hv
  · intro hs
    have hv := HF.2.2.2.2.2.2.2.2.2.2.2.2.2.2.2.2.2.2.2.2.2.2.2.2.2.2.2.2.1
    rw [hs] at hv
    simpa [motionCompensationOfTag] using hv
  · intro hs
    have hv := HF.2.2.2.2.2.2.2.2.2.2.2.2.2.2.2.2.2.2.2.2.2.2.2.2.2.2.2.2.1
    rw [hs] at hv
    simpa [motionCompensationOfTag] using hv
  · exact fun s hs => samplingOfTag_mem (HT.2.1 s hs)
  · exact fun s hs => initializationOfTag_mem (HT.2.2 s hs)
  · exact fun s hs => motionCompensationOfTag_mem (HT.1 s hs)

/-- C6 witness: a concrete document setting the three policy fields. -/
theorem c6_witness :
    (exceptGetD (defaultOdometryOptions, []) (yaml_to_odometry_options c6Node)).1.sampling = SAMPLING.ADAPTIVE ∧
    (exceptGetD (defaultOdometryOptions, []) (yaml_to_odometry_options c6Node)).1.initialization = INITIALIZATION.INIT_NONE ∧
    (exceptGetD (defaultOdometryOptions, []) (yaml_to_odometry_options c6Node)).1.motion_compensation = MOTION_COMPENSATION.ITERATIVE := by
  have H := @c6_odometry_policy_tags defaultOdometryOptions c6Node
    (exceptGetD (defaultOdometryOptions, []) (yaml_to_odometry_options c6Node)) rfl
  exact ⟨H.2.2.1 rfl, H.2.2.2.1 rfl, H.2.2.2.2.2.2.2.1 rfl⟩

/-- C7: yaml_to_motion_model_options populates exactly the named
MotionModelOptions fields, each from its same-named key when present (the
default-constructed value otherwise): the four beta regularization weights,
the two divergence thresholds, the log_if_invalid flag, and a model tag
drawn from the closed set CONSTANT_VELOCITY / SMALL_VELOCITY. -/
theorem c7_motion_model_fields {node : Yaml} {r : PreviousFrameMotionModel.Options}
    (h : yaml_to_motion_model_options node = .ok r) :
    r.beta_location_consistency = (node.findRat "beta_location_consistency").getD defaultMotionModelOptions.beta_location_consistency ∧
    r.beta_small_velocity = (node.findRat "beta_small_velocity").getD defaultMotionModelOptions.beta_small_velocity ∧
    r.beta_orientation_consistency = (node.findRat "beta_orientation_consistency").getD defaultMotionModelOptions.beta_orientation_consistency ∧
    r.beta_constant_velocity = (node.findRat "beta_constant_velocity").getD defaultMotionModelOptions.beta_constant_velocity ∧
    r.threshold_orientation_deg = (node.findRat "threshold_orientation_deg").getD defaultMotionModelOptions.threshold_orientation_deg ∧
    r.threshold_translation_diff = (node.findRat "threshold_translation_diff").getD defaultMotionModelOptions.threshold_translation_diff ∧
    r.log_if_invalid = (node.findBool "log_if_invalid").getD defaultMotionModelOptions.log_if_invalid ∧
    (node.findStr "model" = some "CONSTANT_VELOCITY" → r.model = MOTION_MODEL.CONSTANT_VELOCITY) ∧
    (node.findStr "model" = some "SMALL_VELOCITY" → r.model = MOTION_MODEL.SMALL_VELOCITY) ∧
    (∀ s, node.findStr "model" = some s → s ∈ ["CONSTANT_VELOCITY", "SMALL_VELOCITY"]) := by
  have h2 : yaml_to_motion_model_options_from defaultMotionModelOptions node = .ok r := h
  have HF := mm_fields h2
  have HT := mm_tags h2
  refine ⟨HF.1, HF.2.1, HF.2.2.1, HF.2.2.2.1, HF.2.2.2.2.1, HF.2.2.2.2.2.1, HF.2.2.2.2.2.2.1, ?_, ?_, ?_⟩
  · intro hs
    have hv := HF.2.2.2.2.2.2.2
    rw [hs] at hv
    simpa [lookupTag] using hv
  · intro hs
    have hv := HF.2.2.2.2.2.2.2
    rw [hs] at hv
    simpa [lookupTag] using hv
  · exact fun s hs => modelTag_mem (HT s hs)

/-- C7 witness: a concrete motion-model document. -/
theorem c7_witness :
    (exceptGetD defaultMotionModelOptions (yaml_to_motion_model_options c7Node)).beta_small_velocity = 0.2 ∧
    (exceptGetD defaultMotionModelOptions (yaml_to_motion_model_options c7Node)).beta_location_consistency =
      defaultMotionModelOptions.beta_location_consistency ∧
    (exceptGetD defaultMotionModelOptions (yaml_to_motion_model_options c7Node)).model = MOTION_MODEL.SMALL_VELOCITY := by
  have H := @c7_motion_model_fields c7Node
    (exceptGetD defaultMotionModelOptions (yaml_to_motion_model_options c7Node)) rfl
  exact ⟨H.2.1, H.1, H.2.2.2.2.2.2.2.2.1 rfl⟩

/-- C8: for every option field read via an OPTION_CLAUSE in
yaml_to_ct_icp_options or yaml_to_odometry_options, the returned record
satisfies: the field equals the value parsed from its own same-named key
when that key is present, and the default-constructed value when absent.
Since every field is a function of its own key alone, assigning one key
changes no field other than the one it names. -/
theorem c8_option_clause_frame :
    (∀ (node : Yaml) (r : CTICPOptions), yaml_to_ct_icp_options node = .ok r →
      r.threshold_voxel_occupancy = (node.findInt "threshold_voxel_occupancy").getD defaultCTICPOptions.threshold_voxel_occupancy ∧
      r.num_iters_icp = (node.findInt "num_iters_icp").getD defaultCTICPOptions.num_iters_icp ∧
      r.min_number_neighbors = (node.findInt "min_number_neighbors").getD defaultCTICPOptions.min_number_neighbors ∧
      r.max_number_neighbors = (node.findInt "max_number_neighbors").getD defaultCTICPOptions.max_number_neighbors ∧
      r.max_dist_to_plane_ct_icp = (node.findRat "max_dist_to_plane_ct_icp").getD defaultCTICPOptions.max_dist_to_plane_ct_icp ∧
      r.threshold_orientation_norm = (node.findRat "threshold_orientation_norm").getD defaultCTICPOptions.threshold_orientation_norm ∧
      r.threshold_translation_norm = (node.findRat "threshold_translation_norm").getD defaultCTICPOptions.threshold_translation_norm ∧
      r.debug_print = (node.findBool "debug_print").getD defaultCTICPOptions.debug_print ∧
      r.point_to_plane_with_distortion = (node.findBool "point_to_plane_with_distortion").getD defaultCTICPOptions.point_to_plane_with_distortion ∧
      r.num_closest_neighbors = (node.findInt "num_closest_neighbors").getD defaultCTICPOptions.num_closest_neighbors ∧
      r.ls_max_num_iters = (node.findInt "ls_max_num_iters").getD defaultCTICPOptions.ls_max_num_iters ∧
      r.ls_num_threads = (node.findInt "ls_num_threads").getD defaultCTICPOptions.ls_num_threads ∧
      r.ls_sigma = (node.findRat "ls_sigma").getD defaultCTICPOptions.ls_sigma ∧
      r.min_num_residuals = (node.findInt "min_num_residuals").getD defaultCTICPOptions.min_num_residuals ∧
      r.max_num_residuals = (node.findInt "max_num_residuals").getD defaultCTICPOptions.max_num_residuals ∧
      r.weight_alpha = (node.findRat "weight_alpha").getD defaultCTICPOptions.weight_alpha ∧
      r.weight_neighborhood = (node.findRat "weight_neighborhood").getD defaultCTICPOptions.weight_neighborhood ∧
      r.ls_tolerant_min_threshold = (node.findRat "ls_tolerant_min_threshold").getD defaultCTICPOptions.ls_tolerant_min_threshold ∧
      r.power_planarity = (node.findRat "power_planarity").getD defaultCTICPOptions.power_planarity ∧
      r.output_normals = (node.findBool "output_normals").getD defaultCTICPOptions.output_normals ∧
      r.output_lines = (node.findBool "output_lines").getD defaultCTICPOptions.output_lines ∧
      r.output_weights = (node.findBool "output_weights").getD defaultCTICPOptions.output_weights ∧
      r.output_residuals = (node.findBool "output_residuals").getD defaultCTICPOptions.output_residuals ∧
      r.output_neighborhood_info = (node.findBool "output_neighborhood_info").getD defaultCTICPOptions.output_neighborhood_info ∧
      r.threshold_linearity = (node.findRat "threshold_linearity").getD defaultCTICPOptions.threshold_linearity ∧
      r.threshold_planarity = (node.findRat "threshold_planarity").getD defaultCTICPOptions.threshold_planarity ∧
      r.weight_point_to_point = (node.findRat "weight_point_to_point").getD defaultCTICPOptions.weight_point_to_point ∧
      r.outlier_distance = (node.findRat "outlier_distance").getD defaultCTICPOptions.outlier_distance ∧
      r.use_barycenter = (node.findBool "use_barycenter").getD defaultCTICPOptions.use_barycenter) ∧
    (∀ (node : Yaml) (pr : OdometryOptions × List String), yaml_to_odometry_options node = .ok pr →
      pr.1.voxel_size = (node.findRat "voxel_size").getD defaultOdometryOptions.voxel_size ∧
      pr.1.max_distance = (node.findRat "max_distance").getD defaultOdometryOptions.max_distance ∧
      pr.1.distance_error_threshold = (node.findRat "distance_error_threshold").getD defaultOdometryOptions.distance_error_threshold ∧
      pr.1.orientation_error_threshold = (node.findRat "orientation_error_threshold").getD defaultOdometryOptions.orientation_error_threshold ∧
      pr.1.max_num_keypoints = (node.findInt "max_num_keypoints").getD defaultOdometryOptions.max_num_keypoints ∧
      pr.1.sample_voxel_size = (node.findRat "sample_voxel_size").getD defaultOdometryOptions.sample_voxel_size ∧
      pr.1.min_distance_points = (node.findRat "min_distance_points").getD defaultOdometryOptions.min_distance_points ∧
      pr.1.max_num_points_in_voxel = (node.findInt "max_num_points_in_voxel").getD defaultOdometryOptions.max_num_points_in_voxel ∧
      pr.1.size_voxel_map = (node.findRat "size_voxel_map").getD defaultOdometryOptions.size_voxel_map ∧
      pr.1.voxel_neighborhood = (node.findInt "voxel_neighborhood").getD defaultOdometryOptions.voxel_neighborhood ∧
      pr.1.max_radius_neighborhood = (node.findRat "max_radius_neighborhood").getD defaultOdometryOptions.max_radius_neighborhood ∧
      pr.1.init_num_frames = (node.findInt "init_num_frames").getD defaultOdometryOptions.init_num_frames ∧
      pr.1.init_voxel_size = (node.findRat "init_voxel_size").getD defaultOdometryOptions.init_voxel_size ∧
      pr.1.init_sample_voxel_size = (node.findRat "init_sample_voxel_size").getD defaultOdometryOptions.init_sample_voxel_size ∧
      pr.1.log_to_file = (node.findBool "log_to_file").getD defaultOdometryOptions.log_to_file ∧
      pr.1.log_file_destination = (node.findStr "log_file_destination").getD defaultOdometryOptions.log_file_destination ∧
      pr.1.debug_print = (node.findBool "debug_print").getD defaultOdometryOptions.debug_print ∧
      pr.1.debug_viz = (node.findBool "debug_viz").getD defaultOdometryOptions.debug_viz ∧
      pr.1.do_no_insert = (node.findBool "do_no_insert").getD defaultOdometryOptions.do_no_insert ∧
      pr.1.always_insert = (node.findBool "always_insert").getD defaultOdometryOptions.always_insert ∧
      pr.1.robust_minimal_level = (node.findInt "robust_minimal_level").getD defaultOdometryOptions.robust_minimal_level ∧
      pr.1.robust_registration = (node.findBool "robust_registration").getD defaultOdometryOptions.robust_registration ∧
      pr.1.robust_full_voxel_threshold = (node.findRat "robust_full_voxel_threshold").getD defaultOdometryOptions.robust_full_voxel_threshold ∧
      pr.1.robust_fail_early = (node.findBool "robust_fail_early").getD defaultOdometryOptions.robust_fail_early ∧
      pr.1.robust_num_attempts = (node.findInt "robust_num_attempts").getD defaultOdometryOptions.robust_num_attempts ∧
      pr.1.robust_max_voxel_neighborhood = (node.findInt "robust_max_voxel_neighborhood").getD defaultOdometryOptions.robust_max_voxel_neighborhood ∧
      pr.1.robust_threshold_relative_orientation = (node.findRat "robust_threshold_relative_orientation").getD defaultOdometryOptions.robust_threshold_relative_orientation ∧
      pr.1.robust_threshold_ego_orientation = (node.findRat "robust_threshold_ego_orientation").getD defaultOdometryOptions.robust_threshold_ego_orientation) := by
  constructor
  · intro node r h
    have h2 : yaml_to_ct_icp_options_from defaultCTICPOptions node = .ok r := h
    have H := cticp_fields h2
    exact ⟨H.1, H.2.1, H.2.2.1, H.2.2.2.1, H.2.2.2.2.1, H.2.2.2.2.2.1, H.2.2.2.2.2.2.1, H.2.2.2.2.2.2.2.1, H.2.2.2.2.2.2.2.2.1, H.2.2.2.2.2.2.2.2.2.1, H.2.2.2.2.2.2.2.2.2.2.1, H.2.2.2.2.2.2.2.2.2.2.2.1, H.2.2.2.2.2.2.2.2.2.2.2.2.1, H.2.2.2.2.2.2.2.2.2.2.2.2.2.1, H.2.2.2.2.2.2.2.2.2.2.2.2.2.2.1, H.2.2.2.2.2.2.2.2.2.2.2.2.2.2.2.1, H.2.2.2.2.2.2.2.2.2.2.2.2.2.2.2.2.1, H.2.2.2.2.2.2.2.2.2.2.2.2.2.2.2.2.2.1, H.2.2.2.2.2.2.2.2.2.2.2.2.2.2.2.2.2.2.1, H.2.2.2.2.2.2.2.2.2.2.2.2.2.2.2.2.2.2.2.1, H.2.2.2.2.2.2.2.2.2.2.2.2.2.2.2.2.2.2.2.2.1, H.2.2.2.2.2.2.2.2.2.2.2.2.2.2.2.2.2.2.2.2.2.1, H.2.2.2.2.2.2.2.2.2.2.2.2.2.2.2.2.2.2.2.2.2.2.1, H.2.2.2.2.2.2.2.2.2.2.2.2.2.2.2.2.2.2.2.2.2.2.2.1, H.2.2.2.2.2.2.2.2.2.2.2.2.2.2.2.2.2.2.2.2.2.2.2.2.1, H.2.2.2.2.2.2.2.2.2.2.2.2.2.2.2.2.2.2.2.2.2.2.2.2.2.1, H.2.2.2.2.2.2.2.2.2.2.2.2.2.2.2.2.2.2.2.2.2.2.2.2.2.2.1, H.2.2.2.2.2.2.2.2.2.2.2.2.2.2.2.2.2.2.2.2.2.2.2.2.2.2.2.1, H.2.2.2.2.2.2.2.2.2.2.2.2.2.2.2.2.2.2.2.2.2.2.2.2.2.2.2.2.1⟩
  · intro node pr h
    have h2 : yaml_to_odometry_options_from defaultOdometryOptions node = .ok pr := h
    have H := odo_fields h2
    exact ⟨H.1, H.2.1, H.2.2.1, H.2.2.2.1, H.2.2.2.2.1, H.2.2.2.2.2.1, H.2.2.2.2.2.2.1, H.2.2.2.2.2.2.2.1, H.2.2.2.2.2.2.2.2.1, H.2.2.2.2.2.2.2.2.2.1, H.2.2.2.2.2.2.2.2.2.2.1, H.2.2.2.2.2.2.2.2.2.2.2.1, H.2.2.2.2.2.2.2.2.2.2.2.2.1, H.2.2.2.2.2.2.2.2.2.2.2.2.2.1, H.2.2.2.2.2.2.2.2.2.2.2.2.2.2.1, H.2.2.2.2.2.2.2.2.2.2.2.2.2.2.2.1, H.2.2.2.2.2.2.2.2.2.2.2.2.2.2.2.2.1, H.2.2.2.2.2.2.2.2.2.2.2.2.2.2.2.2.2.1, H.2.2.2.2.2.2.2.2.2.2.2.2.2.2.2.2.2.2.1, H.2.2.2.2.2.2.2.2.2.2.2.2.2.2.2.2.2.2.2.1, H.2.2.2.2.2.2.2.2.2.2.2.2.2.2.2.2.2.2.2.2.1, H.2.2.2.2.2.2.2.2.2.2.2.2.2.2.2.2.2.2.2.2.2.1, H.2.2.2.2.2.2.2.2.2.2.2.2.2.2.2.2.2.2.2.2.2.2.1, H.2.2.2.2.2.2.2.2.2.2.2.2.2.2.2.2.2.2.2.2.2.2.2.1, H.2.2.2.2.2.2.2.2.2.2.2.2.2.2.2.2.2.2.2.2.2.2.2.2.1, H.2.2.2.2.2.2.2.2.2.2.2.2.2.2.2.2.2.2.2.2.2.2.2.2.2.1, H.2.2.2.2.2.2.2.2.2.2.2.2.2.2.2.2.2.2.2.2.2.2.2.2.2.2.1, H.2.2.2.2.2.2.2.2.2.2.2.2.2.2.2.2.2.2.2.2.2.2.2.2.2.2.2.1⟩

/-- C8 witness: a present key sets exactly its field; absent keys keep the
defaults. -/
theorem c8_witness :
    (exceptGetD defaultCTICPOptions (yaml_to_ct_icp_options c8Node)).num_iters_icp = 7 ∧
    (exceptGetD defaultCTICPOptions (yaml_to_ct_icp_options c8Node)).min_number_neighbors =
      defaultCTICPOptions.min_number_neighbors ∧
    (exceptGetD (defaultOdometryOptions, []) (yaml_to_odometry_options c8OdoNode)).1.voxel_size = 2.5 ∧
    (exceptGetD (defaultOdometryOptions, []) (yaml_to_odometry_options c8OdoNode)).1.max_distance =
      defaultOdometryOptions.max_distance := by
  have H1 := c8_option_clause_frame.1 c8Node
    (exceptGetD defaultCTICPOptions (yaml_to_ct_icp_options c8Node)) rfl
  have H2 := c8_option_clause_frame.2 c8OdoNode
    (exceptGetD (defaultOdometryOptions, []) (yaml_to_odometry_options c8OdoNode)) rfl
  exact ⟨H1.2.1, H1.2.2.1, H2.1, H2.2.1⟩

/-- C9: yaml_to_odometry_options always produces a map_options record —
parsed from the map_options child node when present, and otherwise parsed
from the top-level odometry node itself while logging the deprecation
warning; the absence of a map_options node is not an error (the branch is
total, and failure can only come from other clauses). -/
theorem c9_map_options_always {init : OdometryOptions} {node : Yaml}
    {pr : OdometryOptions × List String}
    (h : yaml_to_odometry_options_from init node = .ok pr) :
    pr.1.map_options = yaml_to_map_options ((node.find "map_options").getD node) ∧
    pr.2 = mapOptionsWarning node ++ strategyWarnings node init.neighborhood_strategy := by
  have H := odo_fields h
  exact ⟨H.2.2.2.2.2.2.2.2.2.2.2.2.2.2.2.2.2.2.2.2.2.2.2.2.2.2.2.2.2.2.2.1, H.2.2.2.2.2.2.2.2.2.2.2.2.2.2.2.2.2.2.2.2.2.2.2.2.2.2.2.2.2.2.2.2⟩

/-- C9 witness: the empty document (no map_options node) loads, its map
options are parsed from the document itself, and the deprecation warning
is logged. -/
theorem c9_witness :
    exceptIsOk (yaml_to_odometry_options (Yaml.node [])) = true ∧
    (exceptGetD (defaultOdometryOptions, []) (yaml_to_odometry_options (Yaml.node []))).1.map_options =
      yaml_to_map_options (Yaml.node []) ∧
    mapOptionsDeprecationWarning ∈
      (exceptGetD (defaultOdometryOptions, []) (yaml_to_odometry_options (Yaml.node []))).2 := by
  have H := @c9_map_options_always defaultOdometryOptions (Yaml.node [])
    (exceptGetD (defaultOdometryOptions, []) (yaml_to_odometry_options (Yaml.node []))) rfl
  refine ⟨rfl, H.1, ?_⟩
  rw [H.2]
  decide

/-- C10: when the file cannot be loaded, read_ct_icp_options and
read_odometry_options propagate the failure as a fatal error (GetNode logs
and rethrows) and return no partially-filled options record. -/
theorem c10_load_failure_propagates {fs : String → Except String Yaml}
    {config_path e : String} (hfs : fs config_path = .error e) :
    read_ct_icp_options fs config_path = .error e ∧
    read_odometry_options fs config_path = .error e := by
  constructor <;>
    simp [read_ct_icp_options, read_odometry_options, GetNode, hfs,
          Bind.bind, Except.bind]

/-- C10 witness: a file system on which every load fails. -/
theorem c10_witness :
    read_ct_icp_options failingFs "odometry_config.yaml" = .error "could not load file" ∧
    read_odometry_options failingFs "odometry_config.yaml" = .error "could not load file" :=
  c10_load_failure_propagates rfl
